import Mathlib

/-!
# Timer/channel allocation of `pwmInit` (drivers/pwm_mapping.c)

A shallow embedding of `pwmInit` and of the declarations of
`drivers/pwm_mapping.h` it relies on.  The preprocessor conditionals of the
function are kept: every macro that `pwmInit` tests is a field of `Target`, so
that one definition covers every build of the function.  Board data that the
function only reads (the `timerHardware` array, the four hardware maps, the
tag decoding macros, `isMotorBrushed`) are parameters as well.

Machine integers are natural numbers; the `uint8_t` counters wrap modulo 256.
Pointers into `timerHardware` are modelled by the index they point at, `NULL`
by `none`.  Calls of the external configuration routines are collected in a
call log, in program order.

# Barometer sampling and calibration (sensors/barometer.c)

The second part embeds the functions of `sensors/barometer.c`: the globals and
function-local statics are the fields of a state record, every function maps a
state to its result and the state after the call.  The `int32_t` arithmetic
wraps modulo `2^32`, the `uint16_t` counter modulo `2^16`.  The driver
functions behind `baro`, `quickMedianFilter3` and the two floating point
expressions are taken from outside the file.
-/

namespace PwmMapping

/-! ## Declarations of pwm_mapping.h -/

/-- Role tag `MAP_TO_PPM_INPUT` of a hardware map word. -/
def MAP_TO_PPM_INPUT : Nat := 1
/-- Role tag `MAP_TO_PWM_INPUT` of a hardware map word. -/
def MAP_TO_PWM_INPUT : Nat := 2
/-- Role tag `MAP_TO_MOTOR_OUTPUT` of a hardware map word. -/
def MAP_TO_MOTOR_OUTPUT : Nat := 3
/-- Role tag `MAP_TO_SERVO_OUTPUT` of a hardware map word. -/
def MAP_TO_SERVO_OUTPUT : Nat := 4

/-- Port flag `PWM_PF_NONE`. -/
def PWM_PF_NONE : Nat := 0
/-- Port flag `PWM_PF_MOTOR = 1 << 0`. -/
def PWM_PF_MOTOR : Nat := 1 <<< 0
/-- Port flag `PWM_PF_SERVO = 1 << 1`. -/
def PWM_PF_SERVO : Nat := 1 <<< 1
/-- Port flag `PWM_PF_MOTOR_MODE_BRUSHED = 1 << 2`. -/
def PWM_PF_MOTOR_MODE_BRUSHED : Nat := 1 <<< 2
/-- Port flag `PWM_PF_OUTPUT_PROTOCOL_PWM = 1 << 3`. -/
def PWM_PF_OUTPUT_PROTOCOL_PWM : Nat := 1 <<< 3
/-- Port flag `PWM_PF_OUTPUT_PROTOCOL_ONESHOT = 1 << 4`. -/
def PWM_PF_OUTPUT_PROTOCOL_ONESHOT : Nat := 1 <<< 4
/-- Port flag `PWM_PF_PPM = 1 << 5`. -/
def PWM_PF_PPM : Nat := 1 <<< 5
/-- Port flag `PWM_PF_PWM = 1 << 6`. -/
def PWM_PF_PWM : Nat := 1 <<< 6

/-- Index `PWM1` into the timer hardware array. -/
def PWM1 : Nat := 0
/-- Index `PWM2` into the timer hardware array. -/
def PWM2 : Nat := 1
/-- Index `PWM3` into the timer hardware array. -/
def PWM3 : Nat := 2
/-- Index `PWM4` into the timer hardware array. -/
def PWM4 : Nat := 3
/-- Index `PWM5` into the timer hardware array. -/
def PWM5 : Nat := 4
/-- Index `PWM6` into the timer hardware array. -/
def PWM6 : Nat := 5
/-- Index `PWM7` into the timer hardware array. -/
def PWM7 : Nat := 6
/-- Index `PWM8` into the timer hardware array. -/
def PWM8 : Nat := 7
/-- Index `PWM9` into the timer hardware array. -/
def PWM9 : Nat := 8
/-- Index `PWM10` into the timer hardware array. -/
def PWM10 : Nat := 9
/-- Index `PWM11` into the timer hardware array. -/
def PWM11 : Nat := 10
/-- Index `PWM12` into the timer hardware array. -/
def PWM12 : Nat := 11
/-- Index `PWM13` into the timer hardware array. -/
def PWM13 : Nat := 12
/-- Index `PWM14` into the timer hardware array. -/
def PWM14 : Nat := 13
/-- Index `PWM15` into the timer hardware array. -/
def PWM15 : Nat := 14
/-- Index `PWM16` into the timer hardware array. -/
def PWM16 : Nat := 15

/-- Identity of timer peripheral `TIM1` (a peripheral is identified by its number). -/
def TIM1 : Nat := 1
/-- Identity of timer peripheral `TIM2`. -/
def TIM2 : Nat := 2
/-- Identity of timer peripheral `TIM3`. -/
def TIM3 : Nat := 3
/-- Identity of timer peripheral `TIM4`. -/
def TIM4 : Nat := 4
/-- Identity of timer peripheral `TIM15`. -/
def TIM15 : Nat := 15

/-- The fields of `timerHardware_t` that `pwmInit` reads: the timer peripheral
and the pin tag. -/
structure timerHardware_t where
  tim : Nat
  tag : Nat
  deriving DecidableEq, Repr

/-- The struct `sonarIOConfig_t`. -/
structure sonarIOConfig_t where
  triggerTag : Nat
  echoTag : Nat
  deriving DecidableEq, Repr

/-- The struct `drv_pwm_config_t`.  The fields that the header declares under a
conditional are always present here; `pwmInit` reads them only in the builds
that declare them. -/
structure drv_pwm_config_t where
  useParallelPWM : Bool
  usePPM : Bool
  useSerialRx : Bool
  useRSSIADC : Bool
  useCurrentMeterADC : Bool
  useUART2 : Bool
  useUART3 : Bool
  useVbat : Bool
  useOneshot : Bool
  useSoftSerial : Bool
  useLEDStrip : Bool
  useSonar : Bool
  useServos : Bool
  useChannelForwarding : Bool
  servoPwmRate : Nat
  servoCenterPulse : Nat
  airplane : Bool
  motorPwmRate : Nat
  idlePulse : Nat
  sonarIOConfig : sonarIOConfig_t
  deriving DecidableEq, Repr

/-- The struct `pwmPortConfiguration_t`; `timerHardware` is `none` for `NULL`
and `some k` for `&timerHardware[k]`. -/
structure pwmPortConfiguration_t where
  index : Nat
  flags : Nat
  timerHardware : Option Nat
  deriving DecidableEq, Repr

/-- The struct `pwmIOConfiguration_t`. -/
structure pwmIOConfiguration_t where
  servoCount : Nat
  motorCount : Nat
  ioCount : Nat
  pwmInputCount : Nat
  ppmInputCount : Nat
  ioConfigurations : List pwmPortConfiguration_t
  deriving DecidableEq, Repr

/-! ## Build and board parameters -/

/-- What a build of `pwmInit` is compiled against: one field for every macro
the function tests (a value macro is `none` when undefined), the constants
and decoding macros it uses, and the board's `timerHardware` array. -/
structure Target where
  SKIP_RX_PWM_PPM : Bool
  OLIMEXINO_UNCUT_LED2_E_JUMPER : Bool
  STM32F10X : Bool
  STM32F303xC : Bool
  USE_USART3 : Bool
  UART3_GPIO : Nat
  UART3_TX_PIN : Nat
  UART3_RX_PIN : Nat
  SOFTSERIAL_1_TIMER : Option Nat
  SOFTSERIAL_2_TIMER : Option Nat
  LED_STRIP_TIMER : Option Nat
  WS2811_GPIO : Option Nat
  WS2811_PIN_SOURCE : Option Nat
  VBAT_ADC_GPIO : Option Nat
  VBAT_ADC_GPIO_PIN : Nat
  RSSI_ADC_GPIO : Option Nat
  RSSI_ADC_GPIO_PIN : Nat
  CURRENT_METER_ADC_GPIO : Option Nat
  CURRENT_METER_ADC_GPIO_PIN : Nat
  SONAR : Bool
  USE_SERVOS : Bool
  NAZE : Bool
  COLIBRI_RACE : Bool
  LUX_RACE : Bool
  CC3D : Bool
  SPARKY : Bool
  SPRACINGF3 : Bool
  STM32F3DISCOVERY : Bool
  CHEBUZZF3 : Bool
  MOTOLAB : Bool
  CC3D_PPM1 : Bool
  USABLE_TIMER_CHANNEL_COUNT : Nat
  timerHardware : Nat → timerHardware_t
  IO_GPIOBYTAG : Nat → Nat
  IO_PINBYTAG : Nat → Nat
  IO_GPIO_PinSource : Nat → Nat
  isMotorBrushed : Nat → Bool

/-- The four hardware maps `multiPWM`, `multiPPM`, `airPWM`, `airPPM`; each is
an array of `uint16_t` words, given by the word at every position (a map may
have no sentinel at all, or words after it). -/
structure HardwareMapTables where
  multiPWM : Nat → Nat
  multiPPM : Nat → Nat
  airPWM : Nat → Nat
  airPPM : Nat → Nat

/-- The array `hardwareMaps[]`. -/
def hardwareMaps (m : HardwareMapTables) : List (Nat → Nat) :=
  [m.multiPWM, m.multiPPM, m.airPWM, m.airPPM]

/-! ## The state of `pwmInit` -/

/-- A call of one of the external routines, with its arguments. -/
inductive Call where
  | ppmAvoidPWMTimerClash (timerHardwarePtr : Nat) (sharedPwmTimer : Nat)
  | ppmInConfig (timerHardwarePtr : Nat)
  | pwmInConfig (timerHardwarePtr : Nat) (channel : Nat)
  | pwmOneshotMotorConfig (timerHardwarePtr : Nat) (motorIndex : Nat)
  | pwmBrushedMotorConfig (timerHardwarePtr : Nat) (motorIndex : Nat)
      (motorPwmRate : Nat) (idlePulse : Nat)
  | pwmBrushlessMotorConfig (timerHardwarePtr : Nat) (motorIndex : Nat)
      (motorPwmRate : Nat) (idlePulse : Nat)
  | pwmServoConfig (timerHardwarePtr : Nat) (servoIndex : Nat)
      (servoPwmRate : Nat) (servoCenterPulse : Nat)
  deriving DecidableEq, Repr

/-- What the loop of `pwmInit` reads and writes: the local `channelIndex`, the
global `pwmIOConfiguration`, the calls made so far, and the indices at which
`ioConfigurations[]` has been written so far (oldest first). -/
structure PwmState where
  channelIndex : Nat
  pwmIOConfiguration : pwmIOConfiguration_t
  calls : List Call
  stores : List Nat
  deriving DecidableEq, Repr

/-- The all-zero `pwmPortConfiguration_t`. -/
def zeroPort : pwmPortConfiguration_t :=
  { index := 0, flags := PWM_PF_NONE, timerHardware := none }

/-- The effect of `memset(&pwmIOConfiguration, 0, sizeof(pwmIOConfiguration))`:
every counter is zero and each of the `USABLE_TIMER_CHANNEL_COUNT` ports is
all-zero, whatever the struct held before. -/
def memsetZero (t : Target) (_old : pwmIOConfiguration_t) : pwmIOConfiguration_t :=
  { servoCount := 0, motorCount := 0, ioCount := 0, pwmInputCount := 0, ppmInputCount := 0,
    ioConfigurations := List.replicate t.USABLE_TIMER_CHANNEL_COUNT zeroPort }

/-- An assignment to fields of `ioConfigurations[ioCount]`: the port at the
current `ioCount` is replaced by its image under `f`, and the index is logged. -/
def storePort (s : PwmState) (f : pwmPortConfiguration_t → pwmPortConfiguration_t) : PwmState :=
  let k := s.pwmIOConfiguration.ioCount
  let ports := s.pwmIOConfiguration.ioConfigurations
  { s with
    pwmIOConfiguration :=
      { s.pwmIOConfiguration with ioConfigurations := ports.set k (f (ports.getD k zeroPort)) }
    stores := s.stores ++ [k] }

/-- A call of an external routine. -/
def call (s : PwmState) (c : Call) : PwmState :=
  { s with calls := s.calls ++ [c] }

/-- The statement `pwmIOConfiguration.ioCount++` on the `uint8_t` counter. -/
def incIoCount (s : PwmState) : PwmState :=
  { s with pwmIOConfiguration :=
      { s.pwmIOConfiguration with ioCount := (s.pwmIOConfiguration.ioCount + 1) % 256 } }

/-- The statement `pwmIOConfiguration.ppmInputCount++`. -/
def incPpmInputCount (s : PwmState) : PwmState :=
  { s with pwmIOConfiguration :=
      { s.pwmIOConfiguration with
        ppmInputCount := (s.pwmIOConfiguration.ppmInputCount + 1) % 256 } }

/-- The statement `pwmIOConfiguration.pwmInputCount++`. -/
def incPwmInputCount (s : PwmState) : PwmState :=
  { s with pwmIOConfiguration :=
      { s.pwmIOConfiguration with
        pwmInputCount := (s.pwmIOConfiguration.pwmInputCount + 1) % 256 } }

/-- The statement `pwmIOConfiguration.motorCount++`. -/
def incMotorCount (s : PwmState) : PwmState :=
  { s with pwmIOConfiguration :=
      { s.pwmIOConfiguration with motorCount := (s.pwmIOConfiguration.motorCount + 1) % 256 } }

/-- The statement `pwmIOConfiguration.servoCount++`. -/
def incServoCount (s : PwmState) : PwmState :=
  { s with pwmIOConfiguration :=
      { s.pwmIOConfiguration with servoCount := (s.pwmIOConfiguration.servoCount + 1) % 256 } }

/-- The statement `channelIndex++` on the local `int`. -/
def incChannelIndex (s : PwmState) : PwmState :=
  { s with channelIndex := s.channelIndex + 1 }

/-! ## The body of the loop of `pwmInit` -/

/-- The channel index of a hardware map word: `setup[i] & 0x00FF`. -/
def timerIndexOf (w : Nat) : Nat := w &&& 0x00FF

/-- The base role of a hardware map word: `(setup[i] & 0xFF00) >> 8`. -/
def typeOf (w : Nat) : Nat := (w &&& 0xFF00) >>> 8

/-- The tests of `pwmInit` that end in `continue` before the role of the entry
is looked at again (pwm_mapping.c, lines 119 to 192), in source order: true
when the entry at channel index `timerIndex` with base role `type` is
skipped. -/
def isExcluded (t : Target) (init : drv_pwm_config_t) (timerIndex type : Nat) : Bool :=
  let timerHardwarePtr := t.timerHardware timerIndex
  (t.OLIMEXINO_UNCUT_LED2_E_JUMPER && timerIndex == PWM2)
  || (t.STM32F10X && (init.useUART2 && (timerIndex == PWM3 || timerIndex == PWM4)))
  || ((t.STM32F303xC && t.USE_USART3)
      && (init.useUART3 && t.IO_GPIOBYTAG timerHardwarePtr.tag == t.UART3_GPIO
          && (t.IO_PINBYTAG timerHardwarePtr.tag == t.UART3_TX_PIN
              || t.IO_PINBYTAG timerHardwarePtr.tag == t.UART3_RX_PIN)))
  || (match t.SOFTSERIAL_1_TIMER with
      | some tim => init.useSoftSerial && timerHardwarePtr.tim == tim
      | none => false)
  || (match t.SOFTSERIAL_2_TIMER with
      | some tim => init.useSoftSerial && timerHardwarePtr.tim == tim
      | none => false)
  || (match t.LED_STRIP_TIMER with
      | some tim =>
        init.useLEDStrip
        && (timerHardwarePtr.tim == tim
            || (match t.STM32F303xC, t.WS2811_GPIO, t.WS2811_PIN_SOURCE with
                | true, some gpio, some pinSource =>
                  t.IO_GPIOBYTAG timerHardwarePtr.tag == gpio
                  && t.IO_GPIO_PinSource timerHardwarePtr.tag == pinSource
                | _, _, _ => false))
      | none => false)
  || (match t.VBAT_ADC_GPIO with
      | some gpio =>
        init.useVbat && t.IO_GPIOBYTAG timerHardwarePtr.tag == gpio
        && t.IO_PINBYTAG timerHardwarePtr.tag == t.VBAT_ADC_GPIO_PIN
      | none => false)
  || (match t.RSSI_ADC_GPIO with
      | some gpio =>
        init.useRSSIADC && t.IO_GPIOBYTAG timerHardwarePtr.tag == gpio
        && t.IO_PINBYTAG timerHardwarePtr.tag == t.RSSI_ADC_GPIO_PIN
      | none => false)
  || (match t.CURRENT_METER_ADC_GPIO with
      | some gpio =>
        init.useCurrentMeterADC && t.IO_GPIOBYTAG timerHardwarePtr.tag == gpio
        && t.IO_PINBYTAG timerHardwarePtr.tag == t.CURRENT_METER_ADC_GPIO_PIN
      | none => false)
  || (t.SONAR
      && (init.useSonar
          && (timerHardwarePtr.tag == init.sonarIOConfig.triggerTag
              || timerHardwarePtr.tag == init.sonarIOConfig.echoTag)))
  || (type == MAP_TO_PWM_INPUT && !init.useParallelPWM)
  || (type == MAP_TO_PPM_INPUT && !init.usePPM)

/-- The board rules under `if (init->useServos && !init->airplane)`
(pwm_mapping.c, lines 195 to 242), in source order; each one that fires
assigns `MAP_TO_SERVO_OUTPUT` to `type`. -/
def boardServoRemap (t : Target) (init : drv_pwm_config_t) (timerIndex type : Nat) : Nat :=
  let tim := (t.timerHardware timerIndex).tim
  let type :=
    if t.NAZE ∧ ((timerIndex = PWM9 ∨ timerIndex = PWM10) ∧ tim = TIM1) then
      MAP_TO_SERVO_OUTPUT else type
  let type :=
    if (t.COLIBRI_RACE ∨ t.LUX_RACE)
        ∧ ((timerIndex = PWM6 ∨ timerIndex = PWM7 ∨ timerIndex = PWM8 ∨ timerIndex = PWM9)
            ∧ tim = TIM2) then
      MAP_TO_SERVO_OUTPUT else type
  let type :=
    if t.CC3D ∧ (timerIndex = PWM10 ∧ tim = TIM1) then MAP_TO_SERVO_OUTPUT else type
  let type :=
    if t.SPARKY ∧ ((timerIndex = PWM1 ∨ timerIndex = PWM2) ∧ tim = TIM15) then
      MAP_TO_SERVO_OUTPUT else type
  let type :=
    if t.SPRACINGF3 ∧ ((timerIndex = PWM15 ∨ timerIndex = PWM16) ∧ tim = TIM15) then
      MAP_TO_SERVO_OUTPUT else type
  let type :=
    if t.STM32F3DISCOVERY ∧ ¬ t.CHEBUZZF3 then
      if init.useSoftSerial then
        if timerIndex = PWM5 ∨ timerIndex = PWM6 then MAP_TO_SERVO_OUTPUT else type
      else
        if timerIndex = PWM9 ∨ timerIndex = PWM10 then MAP_TO_SERVO_OUTPUT else type
    else type
  let type :=
    if t.MOTOLAB ∧ (timerIndex = PWM7 ∨ timerIndex = PWM8) then
      MAP_TO_SERVO_OUTPUT else type
  type

/-- The rule under `if (init->useChannelForwarding && !init->airplane)`
(pwm_mapping.c, lines 244 to 256). -/
def channelForwardingRemap (t : Target) (init : drv_pwm_config_t) (timerIndex type : Nat) : Nat :=
  if t.NAZE ∧ t.LED_STRIP_TIMER.isSome then
    if init.useLEDStrip then
      if PWM13 ≤ timerIndex ∧ timerIndex ≤ PWM14 then MAP_TO_SERVO_OUTPUT else type
    else
      if PWM5 ≤ timerIndex ∧ timerIndex ≤ PWM8 then MAP_TO_SERVO_OUTPUT else type
  else
    if PWM5 ≤ timerIndex ∧ timerIndex ≤ PWM8 then MAP_TO_SERVO_OUTPUT else type

/-- The block under `#ifdef USE_SERVOS` (pwm_mapping.c, lines 194 to 257): the
value of `type` after it, for an entry that was not skipped. -/
def remapType (t : Target) (init : drv_pwm_config_t) (timerIndex type : Nat) : Nat :=
  if t.USE_SERVOS then
    let type :=
      if init.useServos ∧ ¬ init.airplane then boardServoRemap t init timerIndex type else type
    let type :=
      if init.useChannelForwarding ∧ ¬ init.airplane then
        channelForwardingRemap t init timerIndex type
      else type
    type
  else type

/-- The test `init->useOneshot || isMotorBrushed(init->motorPwmRate)`. -/
def oneshotOrBrushed (t : Target) (init : drv_pwm_config_t) : Bool :=
  init.useOneshot || t.isMotorBrushed init.motorPwmRate

/-- The test that skips a motor output on `TIM2` in the build with `CC3D` and
without `CC3D_PPM1` (pwm_mapping.c, lines 301 to 307). -/
def motorSkipped (t : Target) (init : drv_pwm_config_t) (timerIndex : Nat) : Bool :=
  (t.CC3D && !t.CC3D_PPM1)
  && (oneshotOrBrushed t init && (t.timerHardware timerIndex).tim == TIM2)

/-- The branch `type == MAP_TO_PPM_INPUT` (pwm_mapping.c, lines 276 to 291). -/
def bindPpmInput (t : Target) (init : drv_pwm_config_t) (timerIndex : Nat) (s : PwmState) :
    PwmState :=
  let s :=
    if t.SKIP_RX_PWM_PPM then s
    else
      let s :=
        if t.CC3D_PPM1 ∧ oneshotOrBrushed t init then
          call s (Call.ppmAvoidPWMTimerClash timerIndex TIM4)
        else s
      let s :=
        if t.SPARKY ∧ oneshotOrBrushed t init then
          call s (Call.ppmAvoidPWMTimerClash timerIndex TIM2)
        else s
      let s := call s (Call.ppmInConfig timerIndex)
      let s := storePort s (fun p => { p with flags := PWM_PF_PPM })
      incPpmInputCount s
  incIoCount s

/-- The branch `type == MAP_TO_PWM_INPUT` (pwm_mapping.c, lines 292 to 298). -/
def bindPwmInput (t : Target) (timerIndex : Nat) (s : PwmState) : PwmState :=
  let s :=
    if t.SKIP_RX_PWM_PPM then s
    else
      let s := call s (Call.pwmInConfig timerIndex s.channelIndex)
      let s := storePort s (fun p => { p with flags := PWM_PF_PWM })
      let s := incPwmInputCount s
      incChannelIndex s
  incIoCount s

/-- The branch `type == MAP_TO_MOTOR_OUTPUT` after the skip test
(pwm_mapping.c, lines 308 to 327). -/
def bindMotorOutput (t : Target) (init : drv_pwm_config_t) (timerIndex : Nat) (s : PwmState) :
    PwmState :=
  let s :=
    if init.useOneshot then
      let s := call s (Call.pwmOneshotMotorConfig timerIndex s.pwmIOConfiguration.motorCount)
      storePort s (fun p => { p with
        flags := PWM_PF_MOTOR ||| PWM_PF_OUTPUT_PROTOCOL_ONESHOT ||| PWM_PF_OUTPUT_PROTOCOL_PWM })
    else if t.isMotorBrushed init.motorPwmRate then
      let s := call s (Call.pwmBrushedMotorConfig timerIndex s.pwmIOConfiguration.motorCount
        init.motorPwmRate init.idlePulse)
      storePort s (fun p => { p with
        flags := PWM_PF_MOTOR ||| PWM_PF_MOTOR_MODE_BRUSHED ||| PWM_PF_OUTPUT_PROTOCOL_PWM })
    else
      let s := call s (Call.pwmBrushlessMotorConfig timerIndex s.pwmIOConfiguration.motorCount
        init.motorPwmRate init.idlePulse)
      storePort s (fun p => { p with flags := PWM_PF_MOTOR ||| PWM_PF_OUTPUT_PROTOCOL_PWM })
  let s := storePort s (fun p => { p with index := s.pwmIOConfiguration.motorCount })
  let s := storePort s (fun p => { p with timerHardware := some timerIndex })
  let s := incMotorCount s
  incIoCount s

/-- The branch `type == MAP_TO_SERVO_OUTPUT` (pwm_mapping.c, lines 329 to 338). -/
def bindServoOutput (t : Target) (init : drv_pwm_config_t) (timerIndex : Nat) (s : PwmState) :
    PwmState :=
  let s :=
    if t.USE_SERVOS then
      let s := call s (Call.pwmServoConfig timerIndex s.pwmIOConfiguration.servoCount
        init.servoPwmRate init.servoCenterPulse)
      let s := storePort s (fun p => { p with
        flags := PWM_PF_SERVO ||| PWM_PF_OUTPUT_PROTOCOL_PWM })
      let s := storePort s (fun p => { p with index := s.pwmIOConfiguration.servoCount })
      let s := storePort s (fun p => { p with timerHardware := some timerIndex })
      incServoCount s
    else s
  incIoCount s

/-- The dispatch on `type` at the end of the loop body (pwm_mapping.c, lines 276
to 343). -/
def dispatch (t : Target) (init : drv_pwm_config_t) (timerIndex type : Nat) (s : PwmState) :
    PwmState :=
  if type = MAP_TO_PPM_INPUT then bindPpmInput t init timerIndex s
  else if type = MAP_TO_PWM_INPUT then bindPwmInput t timerIndex s
  else if type = MAP_TO_MOTOR_OUTPUT then
    if motorSkipped t init timerIndex then s else bindMotorOutput t init timerIndex s
  else if type = MAP_TO_SERVO_OUTPUT then bindServoOutput t init timerIndex s
  else s

/-- One pass through the body of the loop of `pwmInit` for the hardware map
word `w = setup[i]`. -/
def loopBody (t : Target) (init : drv_pwm_config_t) (w : Nat) (s : PwmState) : PwmState :=
  let timerIndex := timerIndexOf w
  let type := typeOf w
  if isExcluded t init timerIndex type then s
  else dispatch t init timerIndex (remapType t init timerIndex type) s

/-! ## `pwmInit` -/

/-- The index into `hardwareMaps[]` that `pwmInit` computes (pwm_mapping.c,
lines 105 to 109). -/
def hardwareMapIndex (init : drv_pwm_config_t) : Nat :=
  let i := 0
  let i := if init.airplane then 2 else i
  let i := if init.usePPM || init.useSerialRx then i + 1 else i
  i

/-- The hardware map that `pwmInit` walks, `setup = hardwareMaps[i]`.  The
index is always below four, so the array is never read outside its bounds and
the default of `getD` is never used. -/
def selectedMap (m : HardwareMapTables) (init : drv_pwm_config_t) : Nat → Nat :=
  (hardwareMaps m).getD (hardwareMapIndex init) (fun _ => 0xFFFF)

/-- The loop `for (i = 0; i < USABLE_TIMER_CHANNEL_COUNT && setup[i] != 0xFFFF; i++)`
entered at position `i` in state `s`; the first argument after `setup` bounds
the number of passes, and `USABLE_TIMER_CHANNEL_COUNT - i` passes always
suffice (`pwmInitLoop_fuel`). -/
def pwmInitLoop (t : Target) (init : drv_pwm_config_t) (setup : Nat → Nat) :
    Nat → Nat → PwmState → PwmState
  | 0, _, s => s
  | fuel + 1, i, s =>
    if i < t.USABLE_TIMER_CHANNEL_COUNT ∧ setup i ≠ 0xFFFF then
      pwmInitLoop t init setup fuel (i + 1) (loopBody t init (setup i) s)
    else s

/-- The state in which the loop of `pwmInit` is entered. -/
def initialState (t : Target) (old : pwmIOConfiguration_t) : PwmState :=
  { channelIndex := 0, pwmIOConfiguration := memsetZero t old, calls := [], stores := [] }

/-- The loop of `pwmInit` run on the hardware map `setup`, from the state
after the `memset`. -/
def pwmInitOn (t : Target) (init : drv_pwm_config_t) (setup : Nat → Nat)
    (old : pwmIOConfiguration_t) : PwmState :=
  pwmInitLoop t init setup t.USABLE_TIMER_CHANNEL_COUNT 0 (initialState t old)

/-- The function `pwmInit`: `old` is what the global `pwmIOConfiguration` held
on entry; the result holds the global on return and the calls made. -/
def pwmInit (t : Target) (m : HardwareMapTables) (init : drv_pwm_config_t)
    (old : pwmIOConfiguration_t) : PwmState :=
  pwmInitOn t init (selectedMap m init) old

/-- The state in which `pwmInit` reaches position `k` of the hardware map
`setup`, when the loop gets that far: the state after the first `k` passes. -/
def stateBefore (t : Target) (init : drv_pwm_config_t) (setup : Nat → Nat)
    (old : pwmIOConfiguration_t) (k : Nat) : PwmState :=
  pwmInitLoop t init setup k 0 (initialState t old)

/-! ## Reading the result -/

/-- The timer channel that a call configures: the `timerHardware` argument of
the six configuration routines; the clash hook configures none. -/
def Call.channel : Call → Option Nat
  | Call.ppmAvoidPWMTimerClash _ _ => none
  | Call.ppmInConfig p => some p
  | Call.pwmInConfig p _ => some p
  | Call.pwmOneshotMotorConfig p _ => some p
  | Call.pwmBrushedMotorConfig p _ _ _ => some p
  | Call.pwmBrushlessMotorConfig p _ _ _ => some p
  | Call.pwmServoConfig p _ _ _ => some p

/-- The timer channel that port `a` of an IO configuration references, if the
port exists and its `timerHardware` is not `NULL`. -/
def portChannel (c : pwmIOConfiguration_t) (a : Nat) : Option Nat :=
  (c.ioConfigurations[a]?).bind (fun p => p.timerHardware)

/-- The flags of a motor port as the specification words them: oneshot takes
precedence over brushed, brushed over brushless.  Compared with the motor
branch of the source in `bindMotorOutput_effect`. -/
def motorFlags (t : Target) (init : drv_pwm_config_t) : Nat :=
  if init.useOneshot then
    PWM_PF_MOTOR ||| PWM_PF_OUTPUT_PROTOCOL_ONESHOT ||| PWM_PF_OUTPUT_PROTOCOL_PWM
  else if t.isMotorBrushed init.motorPwmRate then
    PWM_PF_MOTOR ||| PWM_PF_MOTOR_MODE_BRUSHED ||| PWM_PF_OUTPUT_PROTOCOL_PWM
  else PWM_PF_MOTOR ||| PWM_PF_OUTPUT_PROTOCOL_PWM

/-- The one motor configuration call as the specification words it, for the
channel `timerIndex` and the motor ordinal `motorIndex`: the oneshot routine
if `useOneshot`, otherwise the brushed routine if `isMotorBrushed`, otherwise
the brushless routine.  Compared with the motor branch of the source in
`bindMotorOutput_effect`. -/
def motorCall (t : Target) (init : drv_pwm_config_t) (timerIndex motorIndex : Nat) : Call :=
  if init.useOneshot then Call.pwmOneshotMotorConfig timerIndex motorIndex
  else if t.isMotorBrushed init.motorPwmRate then
    Call.pwmBrushedMotorConfig timerIndex motorIndex init.motorPwmRate init.idlePulse
  else Call.pwmBrushlessMotorConfig timerIndex motorIndex init.motorPwmRate init.idlePulse

/-! ## Hardware maps as lists, and sample data

A board writes a hardware map as an array of words `PWMn | (MAP_TO_x << 8)`
closed by `0xFFFF`.  The boards' arrays are not part of the sources at hand,
so the concrete boards below are samples. -/

/-- The hardware map word `timerIndex | (type << 8)`. -/
def mapWord (timerIndex type : Nat) : Nat := timerIndex ||| (type <<< 8)

/-- The array that holds the words of `l` followed by the sentinel `0xFFFF`. -/
def tableOfList (l : List Nat) : Nat → Nat := fun i => l.getD i 0xFFFF

/-- The words of `l` whose entry no exclusion test of `pwmInit` skips. -/
def removeExcluded (t : Target) (init : drv_pwm_config_t) (l : List Nat) : List Nat :=
  l.filter (fun w => !isExcluded t init (timerIndexOf w) (typeOf w))

/-- Four hardware maps that are all the array `setup`. -/
def uniformMaps (setup : Nat → Nat) : HardwareMapTables :=
  { multiPWM := setup, multiPPM := setup, airPWM := setup, airPPM := setup }

/-- A sample `timerHardware` array of twelve channels: six receiver pins on
`TIM4`, `TIM3`, `TIM3`, `TIM3`, `TIM2`, `TIM2` (the pins `RC3` to `RC8` of the
pinout in the CC3D `target.h`) and six output pins. -/
def sampleTimerHardware : Nat → timerHardware_t := fun k =>
  match k with
  | 0 => { tim := TIM4, tag := 0x26 }
  | 1 => { tim := TIM3, tag := 0x25 }
  | 2 => { tim := TIM3, tag := 0x20 }
  | 3 => { tim := TIM3, tag := 0x21 }
  | 4 => { tim := TIM2, tag := 0x10 }
  | 5 => { tim := TIM2, tag := 0x11 }
  | 6 => { tim := TIM4, tag := 0x29 }
  | 7 => { tim := TIM4, tag := 0x28 }
  | 8 => { tim := TIM4, tag := 0x27 }
  | 9 => { tim := TIM1, tag := 0x18 }
  | 10 => { tim := TIM3, tag := 0x24 }
  | 11 => { tim := TIM2, tag := 0x12 }
  | _ => { tim := 0, tag := 0 }

/-- The CC3D build as its `target.h` configures it without `CC3D_NRF24`,
`OPBL` and `CC3D_PPM1`: soft serial and the LED strip on `TIM3`, no
`VBAT_ADC_GPIO`, `RSSI_ADC_GPIO` or `CURRENT_METER_ADC_GPIO`, no `SONAR`,
twelve usable timer channels.  `STM32F10X`, `USE_SERVOS` and `CC3D` come from
the build system; the timer array, the tag decoding and `isMotorBrushed` are
samples. -/
def cc3dTarget : Target :=
  { SKIP_RX_PWM_PPM := false
    OLIMEXINO_UNCUT_LED2_E_JUMPER := false
    STM32F10X := true
    STM32F303xC := false
    USE_USART3 := true
    UART3_GPIO := 0
    UART3_TX_PIN := 0
    UART3_RX_PIN := 0
    SOFTSERIAL_1_TIMER := some TIM3
    SOFTSERIAL_2_TIMER := none
    LED_STRIP_TIMER := some TIM3
    WS2811_GPIO := none
    WS2811_PIN_SOURCE := none
    VBAT_ADC_GPIO := none
    VBAT_ADC_GPIO_PIN := 0
    RSSI_ADC_GPIO := none
    RSSI_ADC_GPIO_PIN := 0
    CURRENT_METER_ADC_GPIO := none
    CURRENT_METER_ADC_GPIO_PIN := 0
    SONAR := false
    USE_SERVOS := true
    NAZE := false
    COLIBRI_RACE := false
    LUX_RACE := false
    CC3D := true
    SPARKY := false
    SPRACINGF3 := false
    STM32F3DISCOVERY := false
    CHEBUZZF3 := false
    MOTOLAB := false
    CC3D_PPM1 := false
    USABLE_TIMER_CHANNEL_COUNT := 12
    timerHardware := sampleTimerHardware
    IO_GPIOBYTAG := fun tag => tag / 16
    IO_PINBYTAG := fun tag => 1 <<< (tag % 16)
    IO_GPIO_PinSource := fun tag => tag % 16
    isMotorBrushed := fun motorPwmHz => decide (500 < motorPwmHz) }

/-- The CC3D build with `CC3D_NRF24`: `target.h` then defines `USE_RX_NRF24`
(lines 81 to 83), which leaves `SOFTSERIAL_1_TIMER` undefined (lines 85 to
141) and defines `SKIP_RX_PWM_PPM` (lines 201 to 203). -/
def cc3dNrf24Target : Target :=
  { cc3dTarget with SKIP_RX_PWM_PPM := true, SOFTSERIAL_1_TIMER := none }

/-- A configuration with every feature off, a 400 Hz brushless motor rate and
a 50 Hz servo rate. -/
def plainConfig : drv_pwm_config_t :=
  { useParallelPWM := false
    usePPM := false
    useSerialRx := false
    useRSSIADC := false
    useCurrentMeterADC := false
    useUART2 := false
    useUART3 := false
    useVbat := false
    useOneshot := false
    useSoftSerial := false
    useLEDStrip := false
    useSonar := false
    useServos := false
    useChannelForwarding := false
    servoPwmRate := 50
    servoCenterPulse := 1500
    airplane := false
    motorPwmRate := 400
    idlePulse := 1000
    sonarIOConfig := { triggerTag := 0, echoTag := 0 } }

/-- An IO configuration left over from an earlier run, for `pwmInit` to
overwrite. -/
def staleIOConfiguration : pwmIOConfiguration_t :=
  { servoCount := 3, motorCount := 5, ioCount := 9, pwmInputCount := 1, ppmInputCount := 0,
    ioConfigurations := [{ index := 7, flags := PWM_PF_MOTOR, timerHardware := some 2 }] }

/-- A sample multirotor PPM map on the twelve channel board: the PPM input on
`PWM1`, motors on `PWM7` to `PWM12`. -/
def sampleMultiPPM : List Nat :=
  [mapWord PWM1 MAP_TO_PPM_INPUT, mapWord PWM7 MAP_TO_MOTOR_OUTPUT,
   mapWord PWM8 MAP_TO_MOTOR_OUTPUT, mapWord PWM9 MAP_TO_MOTOR_OUTPUT,
   mapWord PWM10 MAP_TO_MOTOR_OUTPUT, mapWord PWM11 MAP_TO_MOTOR_OUTPUT,
   mapWord PWM12 MAP_TO_MOTOR_OUTPUT]

/-- A sample multirotor parallel PWM map on the twelve channel board: receiver
inputs on `PWM1` to `PWM6`, motors on `PWM7` to `PWM12`. -/
def sampleMultiPWM : List Nat :=
  [mapWord PWM1 MAP_TO_PWM_INPUT, mapWord PWM2 MAP_TO_PWM_INPUT,
   mapWord PWM3 MAP_TO_PWM_INPUT, mapWord PWM4 MAP_TO_PWM_INPUT,
   mapWord PWM5 MAP_TO_PWM_INPUT, mapWord PWM6 MAP_TO_PWM_INPUT,
   mapWord PWM7 MAP_TO_MOTOR_OUTPUT, mapWord PWM8 MAP_TO_MOTOR_OUTPUT,
   mapWord PWM9 MAP_TO_MOTOR_OUTPUT, mapWord PWM10 MAP_TO_MOTOR_OUTPUT,
   mapWord PWM11 MAP_TO_MOTOR_OUTPUT, mapWord PWM12 MAP_TO_MOTOR_OUTPUT]

/-- A sample fixed wing PPM map: the PPM input on `PWM1`, a motor on `PWM7`,
servos on `PWM8` to `PWM12`. -/
def sampleAirPPM : List Nat :=
  [mapWord PWM1 MAP_TO_PPM_INPUT, mapWord PWM7 MAP_TO_MOTOR_OUTPUT,
   mapWord PWM8 MAP_TO_SERVO_OUTPUT, mapWord PWM9 MAP_TO_SERVO_OUTPUT,
   mapWord PWM10 MAP_TO_SERVO_OUTPUT, mapWord PWM11 MAP_TO_SERVO_OUTPUT,
   mapWord PWM12 MAP_TO_SERVO_OUTPUT]

/-- A sample fixed wing parallel PWM map: receiver inputs on `PWM1` to `PWM6`,
a motor on `PWM7`, servos on `PWM8` to `PWM12`. -/
def sampleAirPWM : List Nat :=
  [mapWord PWM1 MAP_TO_PWM_INPUT, mapWord PWM2 MAP_TO_PWM_INPUT,
   mapWord PWM3 MAP_TO_PWM_INPUT, mapWord PWM4 MAP_TO_PWM_INPUT,
   mapWord PWM5 MAP_TO_PWM_INPUT, mapWord PWM6 MAP_TO_PWM_INPUT,
   mapWord PWM7 MAP_TO_MOTOR_OUTPUT, mapWord PWM8 MAP_TO_SERVO_OUTPUT,
   mapWord PWM9 MAP_TO_SERVO_OUTPUT, mapWord PWM10 MAP_TO_SERVO_OUTPUT,
   mapWord PWM11 MAP_TO_SERVO_OUTPUT, mapWord PWM12 MAP_TO_SERVO_OUTPUT]

/-- The four sample hardware maps. -/
def sampleMaps : HardwareMapTables :=
  { multiPWM := tableOfList sampleMultiPWM
    multiPPM := tableOfList sampleMultiPPM
    airPWM := tableOfList sampleAirPWM
    airPPM := tableOfList sampleAirPPM }

/-- The plain configuration with the PPM receiver enabled. -/
def ppmConfig : drv_pwm_config_t := { plainConfig with usePPM := true }

/-- The plain configuration with the parallel PWM receiver enabled. -/
def parallelPwmConfig : drv_pwm_config_t := { plainConfig with useParallelPWM := true }

/-- The parallel PWM configuration with channel forwarding enabled. -/
def forwardingPwmConfig : drv_pwm_config_t :=
  { parallelPwmConfig with useChannelForwarding := true }

/-- The PPM configuration with the oneshot motor protocol. -/
def oneshotPpmConfig : drv_pwm_config_t := { ppmConfig with useOneshot := true }

/-- True when the role of the hardware map word `w` after the remap block is
one of the four roles that the dispatch of `pwmInit` tests for. -/
def hasKnownRole (t : Target) (init : drv_pwm_config_t) (w : Nat) : Bool :=
  remapType t init (timerIndexOf w) (typeOf w) == MAP_TO_PPM_INPUT
  || remapType t init (timerIndexOf w) (typeOf w) == MAP_TO_PWM_INPUT
  || remapType t init (timerIndexOf w) (typeOf w) == MAP_TO_MOTOR_OUTPUT
  || remapType t init (timerIndexOf w) (typeOf w) == MAP_TO_SERVO_OUTPUT

/-- The channel and the motor ordinal of a call of one of the three motor
configuration routines. -/
def Call.motorBinding : Call → Option (Nat × Nat)
  | Call.pwmOneshotMotorConfig p i => some (p, i)
  | Call.pwmBrushedMotorConfig p i _ _ => some (p, i)
  | Call.pwmBrushlessMotorConfig p i _ _ => some (p, i)
  | _ => none

/-- The channel and the servo ordinal of a call of `pwmServoConfig`. -/
def Call.servoBinding : Call → Option (Nat × Nat)
  | Call.pwmServoConfig p i _ _ => some (p, i)
  | _ => none

/-- The channel and the capture ordinal of a call of `pwmInConfig`. -/
def Call.pwmBinding : Call → Option (Nat × Nat)
  | Call.pwmInConfig p i => some (p, i)
  | _ => none

/-- True for a call of the clash hook `ppmAvoidPWMTimerClash`. -/
def Call.isClashHook : Call → Bool
  | Call.ppmAvoidPWMTimerClash _ _ => true
  | _ => false

/-- True for a port whose flags contain `PWM_PF_MOTOR`. -/
def isMotorPort (p : pwmPortConfiguration_t) : Bool := p.flags &&& PWM_PF_MOTOR != 0

/-- True for a port whose flags contain `PWM_PF_SERVO`. -/
def isServoPort (p : pwmPortConfiguration_t) : Bool := p.flags &&& PWM_PF_SERVO != 0

/-- A word with a role that the dispatch does not know: role 9 on `PWM8`. -/
def strayWord : Nat := mapWord PWM8 9

/-- The sample multirotor PPM map with the stray word put after the PPM
input. -/
def sampleStrayPPM : List Nat :=
  [mapWord PWM1 MAP_TO_PPM_INPUT, strayWord, mapWord PWM7 MAP_TO_MOTOR_OUTPUT,
   mapWord PWM9 MAP_TO_MOTOR_OUTPUT]

/-- The PPM configuration with the oneshot motor protocol on a fixed wing. -/
def oneshotAirPpmConfig : drv_pwm_config_t := { oneshotPpmConfig with airplane := true }

/-- The CC3D build with `CC3D_PPM1`: the PPM input shares its timer with motor
outputs. -/
def cc3dPpm1Target : Target := { cc3dTarget with CC3D_PPM1 := true }

/-- The PPM configuration with the battery voltage ADC enabled. -/
def vbatPpmConfig : drv_pwm_config_t := { ppmConfig with useVbat := true }

/-- A multirotor PPM map on the twelve channel board with a motor on `PWM5`,
the channel on pin `PA0`: the PPM input on `PWM1`, motors on `PWM5` and on
`PWM7` to `PWM12`. -/
def sampleVbatPPM : List Nat :=
  [mapWord PWM1 MAP_TO_PPM_INPUT, mapWord PWM5 MAP_TO_MOTOR_OUTPUT,
   mapWord PWM7 MAP_TO_MOTOR_OUTPUT, mapWord PWM8 MAP_TO_MOTOR_OUTPUT,
   mapWord PWM9 MAP_TO_MOTOR_OUTPUT, mapWord PWM10 MAP_TO_MOTOR_OUTPUT,
   mapWord PWM11 MAP_TO_MOTOR_OUTPUT, mapWord PWM12 MAP_TO_MOTOR_OUTPUT]

/-- A build like the CC3D one in which `VBAT_ADC_GPIO` and `VBAT_ADC_GPIO_PIN`
are defined and name the pin `PA0` (port 1, pin mask 1 in the sample tag
decoding).  The CC3D `target.h` defines neither macro; it names the pin
`VBAT_ADC_PIN` (line 146). -/
def cc3dWithVbatGpioTarget : Target :=
  { cc3dTarget with VBAT_ADC_GPIO := some 1, VBAT_ADC_GPIO_PIN := 1 }

/-- The branch of the dispatch that the pass for the hardware map word `w`
enters: `none` when the pass ends in a `continue` (an exclusion test, or the
`TIM2` test of the motor branch) or when the role after the remap block is
none of the four that the dispatch tests for. -/
def dispatchedRole (t : Target) (init : drv_pwm_config_t) (w : Nat) : Option Nat :=
  let timerIndex := timerIndexOf w
  let type := remapType t init timerIndex (typeOf w)
  if isExcluded t init timerIndex (typeOf w) then none
  else if type = MAP_TO_PPM_INPUT then some MAP_TO_PPM_INPUT
  else if type = MAP_TO_PWM_INPUT then some MAP_TO_PWM_INPUT
  else if type = MAP_TO_MOTOR_OUTPUT then
    if motorSkipped t init timerIndex then none else some MAP_TO_MOTOR_OUTPUT
  else if type = MAP_TO_SERVO_OUTPUT then some MAP_TO_SERVO_OUTPUT
  else none

/-- True when the build compiles the body of the dispatch branch for `role`:
the receiver branches are under `#ifndef SKIP_RX_PWM_PPM`, the servo branch
under `#ifdef USE_SERVOS`. -/
def branchCompiled (t : Target) (role : Nat) : Bool :=
  if role = MAP_TO_PPM_INPUT ∨ role = MAP_TO_PWM_INPUT then !t.SKIP_RX_PWM_PPM
  else if role = MAP_TO_SERVO_OUTPUT then t.USE_SERVOS
  else true

/-- The role with which the pass for `w` binds the entry: the branch that it
enters, when the build compiles the body of that branch. -/
def boundRole (t : Target) (init : drv_pwm_config_t) (w : Nat) : Option Nat :=
  (dispatchedRole t init w).filter (branchCompiled t)

/-- The channel indices of the entries of `l` that are bound with `role`, in
the order of `l`. -/
def channelsBoundAs (t : Target) (init : drv_pwm_config_t) (role : Nat) (l : List Nat) :
    List Nat :=
  (l.filter (fun w => boundRole t init w == some role)).map timerIndexOf

/-- Pairs the element at each position `k` of a list with `k`. -/
def withOrdinals (l : List Nat) : List (Nat × Nat) := l.zip (List.range l.length)

/-- The flags that the branch for `role` writes to the port, and 0 (the flags
of the all-zero port) when the build does not compile the body of the
branch. -/
def slotFlags (t : Target) (init : drv_pwm_config_t) (role : Nat) : Nat :=
  if branchCompiled t role then
    if role = MAP_TO_PPM_INPUT then PWM_PF_PPM
    else if role = MAP_TO_PWM_INPUT then PWM_PF_PWM
    else if role = MAP_TO_MOTOR_OUTPUT then motorFlags t init
    else PWM_PF_SERVO ||| PWM_PF_OUTPUT_PROTOCOL_PWM
  else PWM_PF_NONE

/-- The words that the loop of `pwmInit` visits from position `i` on, in at
most the given number of passes: the loop goes on while
`i < USABLE_TIMER_CHANNEL_COUNT && setup[i] != 0xFFFF`. -/
def scannedFrom (t : Target) (setup : Nat → Nat) : Nat → Nat → List Nat
  | 0, _ => []
  | fuel + 1, i =>
    if i < t.USABLE_TIMER_CHANNEL_COUNT ∧ setup i ≠ 0xFFFF then
      setup i :: scannedFrom t setup fuel (i + 1)
    else []

/-- The entries of the hardware map `setup` that `pwmInit` visits, in order. -/
def mapEntries (t : Target) (setup : Nat → Nat) : List Nat :=
  scannedFrom t setup t.USABLE_TIMER_CHANNEL_COUNT 0

/-- What the state `s` reached by the passes for the entries `l` records, role
by role: each counter is the number of entries bound with its role, `ioCount`
the number of entries that entered a branch; the first `ioCount` ports are
the slots of those entries in order, the ports after them are all-zero; the
motor, servo and capture calls and the motor and servo ports list the
channels bound with the role in the order of `l`, each with its position
among them. -/
structure BoundInOrder (t : Target) (init : drv_pwm_config_t) (l : List Nat) (s : PwmState) :
    Prop where
  ioCount : s.pwmIOConfiguration.ioCount = (l.filterMap (dispatchedRole t init)).length
  motorCount : s.pwmIOConfiguration.motorCount
    = (channelsBoundAs t init MAP_TO_MOTOR_OUTPUT l).length
  servoCount : s.pwmIOConfiguration.servoCount
    = (channelsBoundAs t init MAP_TO_SERVO_OUTPUT l).length
  pwmInputCount : s.pwmIOConfiguration.pwmInputCount
    = (channelsBoundAs t init MAP_TO_PWM_INPUT l).length
  ppmInputCount : s.pwmIOConfiguration.ppmInputCount
    = (channelsBoundAs t init MAP_TO_PPM_INPUT l).length
  channelIndex : s.channelIndex = (channelsBoundAs t init MAP_TO_PWM_INPUT l).length
  motorCalls : s.calls.filterMap Call.motorBinding
    = withOrdinals (channelsBoundAs t init MAP_TO_MOTOR_OUTPUT l)
  servoCalls : s.calls.filterMap Call.servoBinding
    = withOrdinals (channelsBoundAs t init MAP_TO_SERVO_OUTPUT l)
  pwmCalls : s.calls.filterMap Call.pwmBinding
    = withOrdinals (channelsBoundAs t init MAP_TO_PWM_INPUT l)
  ports : ∃ W : List pwmPortConfiguration_t,
    s.pwmIOConfiguration.ioConfigurations
      = W ++ List.replicate (t.USABLE_TIMER_CHANNEL_COUNT - W.length) zeroPort
    ∧ W.length = s.pwmIOConfiguration.ioCount
    ∧ W.map (fun p => p.flags) = (l.filterMap (dispatchedRole t init)).map (slotFlags t init)
    ∧ (W.filter isMotorPort).map (fun p => (p.timerHardware, p.index))
        = (withOrdinals (channelsBoundAs t init MAP_TO_MOTOR_OUTPUT l)).map
            (fun x => (some x.1, x.2))
    ∧ (W.filter isServoPort).map (fun p => (p.timerHardware, p.index))
        = (withOrdinals (channelsBoundAs t init MAP_TO_SERVO_OUTPUT l)).map
            (fun x => (some x.1, x.2))
    ∧ W.filterMap (fun p => p.timerHardware)
        = (l.filter (fun w => boundRole t init w == some MAP_TO_MOTOR_OUTPUT
            || boundRole t init w == some MAP_TO_SERVO_OUTPUT)).map timerIndexOf

/-- The parallel PWM configuration with servos enabled. -/
def servoPwmConfig : drv_pwm_config_t := { parallelPwmConfig with useServos := true }

/-- A sample `timerHardware` array of fourteen channels: `PWM1` to `PWM4` on
`TIM2`, `PWM5` to `PWM8` on `TIM3`, `PWM9` and `PWM10` on `TIM1`, `PWM11` to
`PWM14` on `TIM4`. -/
def sampleTimerHardware14 : Nat → timerHardware_t := fun k =>
  match k with
  | 0 => { tim := TIM2, tag := 0x10 }
  | 1 => { tim := TIM2, tag := 0x11 }
  | 2 => { tim := TIM2, tag := 0x12 }
  | 3 => { tim := TIM2, tag := 0x13 }
  | 4 => { tim := TIM3, tag := 0x16 }
  | 5 => { tim := TIM3, tag := 0x17 }
  | 6 => { tim := TIM3, tag := 0x20 }
  | 7 => { tim := TIM3, tag := 0x21 }
  | 8 => { tim := TIM1, tag := 0x18 }
  | 9 => { tim := TIM1, tag := 0x1B }
  | 10 => { tim := TIM4, tag := 0x26 }
  | 11 => { tim := TIM4, tag := 0x27 }
  | 12 => { tim := TIM4, tag := 0x28 }
  | 13 => { tim := TIM4, tag := 0x29 }
  | _ => { tim := 0, tag := 0 }

/-- A sample build with `NAZE` defined instead of `CC3D`, for a board of
fourteen timer channels; the other settings are those of the CC3D sample. -/
def sampleNazeTarget : Target :=
  { cc3dTarget with
    NAZE := true
    CC3D := false
    USABLE_TIMER_CHANNEL_COUNT := 14
    timerHardware := sampleTimerHardware14 }

/-- The map "multirotor PPM input" of the comment at lines 44 to 48 of
pwm_mapping.c: `PWM1` used for PPM, `PWM5` to `PWM14` for motors (of which
`PWM9` and `PWM10` for servos or else motors). -/
def multiPPM14 : List Nat :=
  [mapWord PWM1 MAP_TO_PPM_INPUT, mapWord PWM5 MAP_TO_MOTOR_OUTPUT,
   mapWord PWM6 MAP_TO_MOTOR_OUTPUT, mapWord PWM7 MAP_TO_MOTOR_OUTPUT,
   mapWord PWM8 MAP_TO_MOTOR_OUTPUT, mapWord PWM9 MAP_TO_MOTOR_OUTPUT,
   mapWord PWM10 MAP_TO_MOTOR_OUTPUT, mapWord PWM11 MAP_TO_MOTOR_OUTPUT,
   mapWord PWM12 MAP_TO_MOTOR_OUTPUT, mapWord PWM13 MAP_TO_MOTOR_OUTPUT,
   mapWord PWM14 MAP_TO_MOTOR_OUTPUT]

/-- The map "multirotor PWM input" of the comment at lines 56 to 59: `PWM1`
to `PWM8` used for input, `PWM9` to `PWM14` for motors. -/
def multiPWM14 : List Nat :=
  [mapWord PWM1 MAP_TO_PWM_INPUT, mapWord PWM2 MAP_TO_PWM_INPUT,
   mapWord PWM3 MAP_TO_PWM_INPUT, mapWord PWM4 MAP_TO_PWM_INPUT,
   mapWord PWM5 MAP_TO_PWM_INPUT, mapWord PWM6 MAP_TO_PWM_INPUT,
   mapWord PWM7 MAP_TO_PWM_INPUT, mapWord PWM8 MAP_TO_PWM_INPUT,
   mapWord PWM9 MAP_TO_MOTOR_OUTPUT, mapWord PWM10 MAP_TO_MOTOR_OUTPUT,
   mapWord PWM11 MAP_TO_MOTOR_OUTPUT, mapWord PWM12 MAP_TO_MOTOR_OUTPUT,
   mapWord PWM13 MAP_TO_MOTOR_OUTPUT, mapWord PWM14 MAP_TO_MOTOR_OUTPUT]

/-- The map "airplane / flying wing w/PWM" of the comment at lines 61 to 64:
`PWM1` to `PWM8` used for input, `PWM9` and `PWM10` for motors, `PWM11` to
`PWM14` for servos. -/
def airPWM14 : List Nat :=
  [mapWord PWM1 MAP_TO_PWM_INPUT, mapWord PWM2 MAP_TO_PWM_INPUT,
   mapWord PWM3 MAP_TO_PWM_INPUT, mapWord PWM4 MAP_TO_PWM_INPUT,
   mapWord PWM5 MAP_TO_PWM_INPUT, mapWord PWM6 MAP_TO_PWM_INPUT,
   mapWord PWM7 MAP_TO_PWM_INPUT, mapWord PWM8 MAP_TO_PWM_INPUT,
   mapWord PWM9 MAP_TO_MOTOR_OUTPUT, mapWord PWM10 MAP_TO_MOTOR_OUTPUT,
   mapWord PWM11 MAP_TO_SERVO_OUTPUT, mapWord PWM12 MAP_TO_SERVO_OUTPUT,
   mapWord PWM13 MAP_TO_SERVO_OUTPUT, mapWord PWM14 MAP_TO_SERVO_OUTPUT]

/-- The map "airplane / flying wing with PPM" of the comment at lines 66 to
70: `PWM1` used for PPM, `PWM5` to `PWM8` for servos, `PWM9` and `PWM10` for
motors, `PWM11` to `PWM14` for servos. -/
def airPPM14 : List Nat :=
  [mapWord PWM1 MAP_TO_PPM_INPUT, mapWord PWM5 MAP_TO_SERVO_OUTPUT,
   mapWord PWM6 MAP_TO_SERVO_OUTPUT, mapWord PWM7 MAP_TO_SERVO_OUTPUT,
   mapWord PWM8 MAP_TO_SERVO_OUTPUT, mapWord PWM9 MAP_TO_MOTOR_OUTPUT,
   mapWord PWM10 MAP_TO_MOTOR_OUTPUT, mapWord PWM11 MAP_TO_SERVO_OUTPUT,
   mapWord PWM12 MAP_TO_SERVO_OUTPUT, mapWord PWM13 MAP_TO_SERVO_OUTPUT,
   mapWord PWM14 MAP_TO_SERVO_OUTPUT]

/-- The four hardware maps of the fourteen channel board. -/
def sampleMaps14 : HardwareMapTables :=
  { multiPWM := tableOfList multiPWM14
    multiPPM := tableOfList multiPPM14
    airPWM := tableOfList airPWM14
    airPPM := tableOfList airPPM14 }

/-- The parallel PWM configuration on a fixed wing, with servos and channel
forwarding enabled. -/
def airPwmConfig : drv_pwm_config_t :=
  { parallelPwmConfig with airplane := true, useServos := true, useChannelForwarding := true }

/-- The PPM configuration of a multirotor with servos enabled. -/
def servoPpmConfig : drv_pwm_config_t := { ppmConfig with useServos := true }

end PwmMapping

namespace Barometer

/-! ## Barometer sampling and calibration (sensors/barometer.c) -/

/-- The value that an `int32_t` holds after the result `x` of an arithmetic
operation is stored in it: `x` reduced to the range `-2^31 .. 2^31 - 1`
modulo `2^32`. -/
def wrapInt32 (x : Int) : Int := (x + 2147483648) % 4294967296 - 2147483648

/-- The field of `barometerConfig_t` that barometer.c reads. -/
structure barometerConfig_t where
  use_median_filtering : Bool
  deriving DecidableEq, Repr

/-- The data fields of `baro_t` that barometer.c reads; its function pointers
are the calls of `BaroCall`. -/
structure baro_t where
  ut_delay : Nat
  up_delay : Nat
  deriving DecidableEq, Repr

/-- A call through one of the function pointers of the global `baro`. -/
inductive BaroCall where
  | get_ut
  | start_up
  | get_up
  | start_ut
  | calculate
  deriving DecidableEq, Repr

/-- What barometer.c takes from outside the file: whether the build defines
`HIL`, the helper `quickMedianFilter3` of common/maths.c (it is given the
array of three samples and returns a value), and the two floating point
expressions, each as the `int32_t` that the code stores: that of line 129 as
a function of `baroGroundPressure / 8`, that of line 146 as a function of
`baroPressure`. -/
structure BaroEnv where
  HIL : Bool
  quickMedianFilter3 : List Int → Int
  groundAltitudeOf : Int → Int
  altitudeOf : Int → Int

/-- The globals and function-local statics of barometer.c, the two globals of
flight/hil.h that it reads, the calls made through `baro` so far, and the
number of times `performBaroCalibrationCycle` has run. -/
structure BaroState where
  baro : baro_t
  calibratingB : Nat
  baroPressure : Int
  baroTemperature : Int
  BaroAlt : Int
  baroGroundAltitude : Int
  baroGroundPressure : Int
  barometerConfig : Option barometerConfig_t
  baroReady : Bool
  barometerFilterSamples : List Int
  currentFilterSampleIndex : Nat
  medianFilterReady : Bool
  state : Nat
  hilActive : Bool
  hilToFC_baroAlt : Int
  calls : List BaroCall
  calibrationCyclesRun : Nat
  deriving DecidableEq, Repr

/-- The state that the initialisers of barometer.c give (lines 37 to 47, 64,
70 to 72 and 101), for a driver table `baro`. -/
def initialBaroState (baro : baro_t) : BaroState :=
  { baro := baro
    calibratingB := 0
    baroPressure := 0
    baroTemperature := 0
    BaroAlt := 0
    baroGroundAltitude := 0
    baroGroundPressure := 0
    barometerConfig := none
    baroReady := false
    barometerFilterSamples := [0, 0, 0]
    currentFilterSampleIndex := 0
    medianFilterReady := false
    state := 0
    hilActive := false
    hilToFC_baroAlt := 0
    calls := []
    calibrationCyclesRun := 0 }

/-- The function `useBarometerConfig` (lines 49 to 52). -/
def useBarometerConfig (barometerConfigToUse : barometerConfig_t) (s : BaroState) : BaroState :=
  { s with barometerConfig := some barometerConfigToUse }

/-- The function `isBaroCalibrationComplete` (lines 54 to 57). -/
def isBaroCalibrationComplete (s : BaroState) : Bool := s.calibratingB == 0

/-- The function `baroSetCalibrationCycles` (lines 59 to 62); the argument is
converted to `uint16_t`. -/
def baroSetCalibrationCycles (calibrationCyclesRequired : Nat) (s : BaroState) : BaroState :=
  { s with calibratingB := calibrationCyclesRequired % 65536 }

/-- The macro `PRESSURE_SAMPLES_MEDIAN`. -/
def PRESSURE_SAMPLES_MEDIAN : Nat := 3

/-- The function `applyBarometerMedianFilter` (lines 68 to 88): the value
returned and the state after the call. -/
def applyBarometerMedianFilter (e : BaroEnv) (newPressureReading : Int) (s : BaroState) :
    Int × BaroState :=
  let nextSampleIndex := s.currentFilterSampleIndex + 1
  let medianFilterReady :=
    if nextSampleIndex = PRESSURE_SAMPLES_MEDIAN then true else s.medianFilterReady
  let nextSampleIndex := if nextSampleIndex = PRESSURE_SAMPLES_MEDIAN then 0 else nextSampleIndex
  let s :=
    { s with
      medianFilterReady := medianFilterReady
      barometerFilterSamples :=
        s.barometerFilterSamples.set s.currentFilterSampleIndex newPressureReading
      currentFilterSampleIndex := nextSampleIndex }
  if s.medianFilterReady then (e.quickMedianFilter3 s.barometerFilterSamples, s)
  else (newPressureReading, s)

/-- The enumerator `BAROMETER_NEEDS_SAMPLES`. -/
def BAROMETER_NEEDS_SAMPLES : Nat := 0

/-- The enumerator `BAROMETER_NEEDS_CALCULATION`. -/
def BAROMETER_NEEDS_CALCULATION : Nat := 1

/-- The function `isBaroReady` (lines 95 to 97). -/
def isBaroReady (s : BaroState) : Bool := s.baroReady

/-- A call through a function pointer of `baro`. -/
def baroCall (s : BaroState) (c : BaroCall) : BaroState := { s with calls := s.calls ++ [c] }

/-- The function `baroUpdate` (lines 99 to 123).  `calculated` is what
`baro.calculate` stores through its two pointers at this call (pressure,
temperature).  The result is `none` when `barometerConfig` is dereferenced
while it is `NULL`. -/
def baroUpdate (e : BaroEnv) (calculated : Int × Int) (s : BaroState) :
    Option (Nat × BaroState) :=
  if s.state = BAROMETER_NEEDS_CALCULATION then
    let s := baroCall s BaroCall.get_up
    let s := baroCall s BaroCall.start_ut
    let s := baroCall s BaroCall.calculate
    let s := { s with baroPressure := calculated.1, baroTemperature := calculated.2 }
    match s.barometerConfig with
    | none => none
    | some barometerConfig =>
      let s :=
        if barometerConfig.use_median_filtering then
          let r := applyBarometerMedianFilter e s.baroPressure s
          { r.2 with baroPressure := r.1 }
        else s
      let s := { s with state := BAROMETER_NEEDS_SAMPLES }
      some (s.baro.ut_delay, s)
  else
    let s := baroCall s BaroCall.get_ut
    let s := baroCall s BaroCall.start_up
    let s := { s with state := BAROMETER_NEEDS_CALCULATION }
    some (s.baro.up_delay, s)

/-- The function `performBaroCalibrationCycle` (lines 125 to 132).  The
division is that of C, which truncates; `calibratingB--` is the decrement of
a `uint16_t`. -/
def performBaroCalibrationCycle (e : BaroEnv) (s : BaroState) : BaroState :=
  let s :=
    { s with
      baroGroundPressure := wrapInt32 (s.baroGroundPressure - Int.tdiv s.baroGroundPressure 8) }
  let s := { s with baroGroundPressure := wrapInt32 (s.baroGroundPressure + s.baroPressure) }
  let s := { s with baroGroundAltitude := e.groundAltitudeOf (Int.tdiv s.baroGroundPressure 8) }
  { s with
    calibratingB := (s.calibratingB + 65535) % 65536
    calibrationCyclesRun := s.calibrationCyclesRun + 1 }

/-- The function `baroCalculateAltitude` (lines 134 to 156): the value
returned and the state after the call. -/
def baroCalculateAltitude (e : BaroEnv) (s : BaroState) : Int × BaroState :=
  let s :=
    if !isBaroCalibrationComplete s then
      let s := performBaroCalibrationCycle e s
      { s with BaroAlt := 0 }
    else if e.HIL ∧ s.hilActive then
      { s with BaroAlt := s.hilToFC_baroAlt }
    else
      let s := { s with BaroAlt := e.altitudeOf s.baroPressure }
      { s with BaroAlt := wrapInt32 (s.BaroAlt - s.baroGroundAltitude) }
  (s.BaroAlt, s)

/-! ## Sequences of calls -/

/-- The state after `k` successive calls of `baroCalculateAltitude`. -/
def afterAltitudeCalls (e : BaroEnv) : Nat → BaroState → BaroState
  | 0, s => s
  | k + 1, s => afterAltitudeCalls e k (baroCalculateAltitude e s).2

/-- Successive calls of `applyBarometerMedianFilter`, one for each reading of
the list: the values returned, in order, and the state after the last
call. -/
def medianFilterRun (e : BaroEnv) : List Int → BaroState → List Int × BaroState
  | [], s => ([], s)
  | r :: rs, s =>
    let y := applyBarometerMedianFilter e r s
    let rest := medianFilterRun e rs y.2
    (y.1 :: rest.1, rest.2)

/-- Successive calls of `baroUpdate`, one for each pair that `baro.calculate`
would store: the values returned, in order, and the state after the last
call; `none` when one of the calls dereferences `NULL`. -/
def baroUpdateRun (e : BaroEnv) : List (Int × Int) → BaroState → Option (List Nat × BaroState)
  | [], s => some ([], s)
  | c :: cs, s =>
    match baroUpdate e c s with
    | none => none
    | some y =>
      match baroUpdateRun e cs y.2 with
      | none => none
      | some rest => some (y.1 :: rest.1, rest.2)

/-- Successive runs of `performBaroCalibrationCycle`, one for each reading of
the list, with `baroPressure` holding the reading. -/
def calibrationRun (e : BaroEnv) : List Int → BaroState → BaroState
  | [], s => s
  | p :: ps, s => calibrationRun e ps (performBaroCalibrationCycle e { s with baroPressure := p })

/-- The accumulator update `g - g / 8 + p` over the integers, with the
truncating division of C and without the limits of `int32_t`. -/
def accumulate (g p : Int) : Int := g - Int.tdiv g 8 + p

/-- The median of three integers. -/
def median3 (a b c : Int) : Int := max (min a b) (min (max a b) c)

/-- A sample `quickMedianFilter3`: three compare-and-swap steps on a copy of
the three samples (positions 0 and 1, then 1 and 2, then 0 and 1 again), then
the middle one. -/
def sampleQuickMedianFilter3 : List Int → Int
  | [a, b, c] =>
    let p0 := if a > b then b else a
    let p1 := if a > b then a else b
    let p1 := if p1 > c then c else p1
    if p0 > p1 then p0 else p1
  | _ => 0

/-- A sample environment: no `HIL`, the sample median helper, and altitude
conversions that stand in for the floating point expressions. -/
def sampleEnv : BaroEnv :=
  { HIL := false
    quickMedianFilter3 := sampleQuickMedianFilter3
    groundAltitudeOf := fun g => (101325 - g) / 12
    altitudeOf := fun p => (101325 - p) / 12 }

/-- A sample driver table. -/
def sampleBaro : baro_t := { ut_delay := 6000, up_delay := 27000 }

end Barometer

namespace PwmMapping

/-! ## The loop -/

theorem pwmInitLoop_induct (t : Target) (init : drv_pwm_config_t) (setup : Nat → Nat)
    (P : Nat → PwmState → Prop)
    (hstep : ∀ i s, P i s → i < t.USABLE_TIMER_CHANNEL_COUNT → setup i ≠ 0xFFFF →
      P (i + 1) (loopBody t init (setup i) s)) :
    ∀ fuel i s, P i s → ∃ j, i ≤ j ∧ j ≤ i + fuel ∧ P j (pwmInitLoop t init setup fuel i s) := by
  intro fuel
  induction fuel with
  | zero => intro i s h; exact ⟨i, le_refl _, by omega, h⟩
  | succ n ih =>
    intro i s h
    unfold pwmInitLoop
    split_ifs with hc
    · obtain ⟨j, h1, h2, h3⟩ := ih (i + 1) _ (hstep i s h hc.1 hc.2)
      exact ⟨j, by omega, by omega, h3⟩
    · exact ⟨i, le_refl _, by omega, h⟩

theorem pwmInitLoop_stop (t : Target) (init : drv_pwm_config_t) (setup : Nat → Nat)
    (fuel i : Nat) (s : PwmState) (h : ¬ (i < t.USABLE_TIMER_CHANNEL_COUNT ∧ setup i ≠ 0xFFFF)) :
    pwmInitLoop t init setup fuel i s = s := by
  cases fuel with
  | zero => rfl
  | succ n => unfold pwmInitLoop; rw [if_neg h]

theorem pwmInitLoop_fuel (t : Target) (init : drv_pwm_config_t) (setup : Nat → Nat) :
    ∀ fuel extra i s, t.USABLE_TIMER_CHANNEL_COUNT ≤ i + fuel →
      pwmInitLoop t init setup (fuel + extra) i s = pwmInitLoop t init setup fuel i s := by
  intro fuel
  induction fuel with
  | zero =>
    intro extra i s h
    rw [pwmInitLoop_stop t init setup _ i s (by omega)]
    rfl
  | succ n ih =>
    intro extra i s h
    have e : n + 1 + extra = (n + extra) + 1 := by omega
    rw [e]
    unfold pwmInitLoop
    split_ifs with hc
    · exact ih extra (i + 1) _ (by omega)
    · rfl

theorem pwmInitLoop_succ (t : Target) (init : drv_pwm_config_t) (setup : Nat → Nat) :
    ∀ n i s, (∀ j, i ≤ j → j ≤ i + n → j < t.USABLE_TIMER_CHANNEL_COUNT ∧ setup j ≠ 0xFFFF) →
      pwmInitLoop t init setup (n + 1) i s
        = loopBody t init (setup (i + n)) (pwmInitLoop t init setup n i s) := by
  intro n
  induction n with
  | zero =>
    intro i s h
    have h0 := h i (le_refl _) (by omega)
    simp [pwmInitLoop, h0.1, h0.2]
  | succ n ih =>
    intro i s h
    have h0 := h i (le_refl _) (by omega)
    rw [pwmInitLoop]
    rw [if_pos h0]
    rw [ih (i + 1) _ (fun j h1 h2 => h j (by omega) (by omega))]
    conv_rhs => rw [pwmInitLoop, if_pos h0]
    have e : i + 1 + n = i + (n + 1) := by omega
    rw [e]

theorem pwmInitLoop_congr (t : Target) (init : drv_pwm_config_t) (setup setup' : Nat → Nat)
    (p : Nat) (hstop : t.USABLE_TIMER_CHANNEL_COUNT ≤ p ∨ (setup p = 0xFFFF ∧ setup' p = 0xFFFF))
    (hagree : ∀ i, i < p → setup' i = setup i) :
    ∀ fuel i s, i ≤ p →
      pwmInitLoop t init setup' fuel i s = pwmInitLoop t init setup fuel i s := by
  intro fuel
  induction fuel with
  | zero => intro i s _; rfl
  | succ n ih =>
    intro i s hi
    rcases Nat.lt_or_ge i p with hlt | hge
    · unfold pwmInitLoop
      rw [hagree i hlt]
      split_ifs with hc
      · exact ih (i + 1) _ (by omega)
      · rfl
    · have e : i = p := by omega
      subst e
      rw [pwmInitLoop_stop, pwmInitLoop_stop]
      · rcases hstop with h | h
        · omega
        · simp [h.1]
      · rcases hstop with h | h
        · omega
        · simp [h.2]

/-! ## The primitive statements -/

section Primitives
variable (s : PwmState) (f : pwmPortConfiguration_t → pwmPortConfiguration_t) (c : Call)

@[simp] theorem storePort_ioCount :
    (storePort s f).pwmIOConfiguration.ioCount = s.pwmIOConfiguration.ioCount := rfl
@[simp] theorem storePort_motorCount :
    (storePort s f).pwmIOConfiguration.motorCount = s.pwmIOConfiguration.motorCount := rfl
@[simp] theorem storePort_servoCount :
    (storePort s f).pwmIOConfiguration.servoCount = s.pwmIOConfiguration.servoCount := rfl
@[simp] theorem storePort_pwmInputCount :
    (storePort s f).pwmIOConfiguration.pwmInputCount = s.pwmIOConfiguration.pwmInputCount := rfl
@[simp] theorem storePort_ppmInputCount :
    (storePort s f).pwmIOConfiguration.ppmInputCount = s.pwmIOConfiguration.ppmInputCount := rfl
@[simp] theorem storePort_calls : (storePort s f).calls = s.calls := rfl
@[simp] theorem storePort_channelIndex : (storePort s f).channelIndex = s.channelIndex := rfl
@[simp] theorem storePort_stores :
    (storePort s f).stores = s.stores ++ [s.pwmIOConfiguration.ioCount] := rfl
@[simp] theorem storePort_length :
    (storePort s f).pwmIOConfiguration.ioConfigurations.length
      = s.pwmIOConfiguration.ioConfigurations.length := by
  simp [storePort]

@[simp] theorem call_pwmIOConfiguration : (call s c).pwmIOConfiguration = s.pwmIOConfiguration := rfl
@[simp] theorem call_calls : (call s c).calls = s.calls ++ [c] := rfl
@[simp] theorem call_channelIndex : (call s c).channelIndex = s.channelIndex := rfl
@[simp] theorem call_stores : (call s c).stores = s.stores := rfl

@[simp] theorem incIoCount_ioCount :
    (incIoCount s).pwmIOConfiguration.ioCount = (s.pwmIOConfiguration.ioCount + 1) % 256 := rfl
@[simp] theorem incIoCount_motorCount :
    (incIoCount s).pwmIOConfiguration.motorCount = s.pwmIOConfiguration.motorCount := rfl
@[simp] theorem incIoCount_servoCount :
    (incIoCount s).pwmIOConfiguration.servoCount = s.pwmIOConfiguration.servoCount := rfl
@[simp] theorem incIoCount_pwmInputCount :
    (incIoCount s).pwmIOConfiguration.pwmInputCount = s.pwmIOConfiguration.pwmInputCount := rfl
@[simp] theorem incIoCount_ppmInputCount :
    (incIoCount s).pwmIOConfiguration.ppmInputCount = s.pwmIOConfiguration.ppmInputCount := rfl
@[simp] theorem incIoCount_ioConfigurations :
    (incIoCount s).pwmIOConfiguration.ioConfigurations
      = s.pwmIOConfiguration.ioConfigurations := rfl
@[simp] theorem incIoCount_calls : (incIoCount s).calls = s.calls := rfl
@[simp] theorem incIoCount_channelIndex : (incIoCount s).channelIndex = s.channelIndex := rfl
@[simp] theorem incIoCount_stores : (incIoCount s).stores = s.stores := rfl

@[simp] theorem incPpmInputCount_ioCount :
    (incPpmInputCount s).pwmIOConfiguration.ioCount = s.pwmIOConfiguration.ioCount := rfl
@[simp] theorem incPpmInputCount_motorCount :
    (incPpmInputCount s).pwmIOConfiguration.motorCount = s.pwmIOConfiguration.motorCount := rfl
@[simp] theorem incPpmInputCount_servoCount :
    (incPpmInputCount s).pwmIOConfiguration.servoCount = s.pwmIOConfiguration.servoCount := rfl
@[simp] theorem incPpmInputCount_pwmInputCount :
    (incPpmInputCount s).pwmIOConfiguration.pwmInputCount
      = s.pwmIOConfiguration.pwmInputCount := rfl
@[simp] theorem incPpmInputCount_ppmInputCount :
    (incPpmInputCount s).pwmIOConfiguration.ppmInputCount
      = (s.pwmIOConfiguration.ppmInputCount + 1) % 256 := rfl
@[simp] theorem incPpmInputCount_ioConfigurations :
    (incPpmInputCount s).pwmIOConfiguration.ioConfigurations
      = s.pwmIOConfiguration.ioConfigurations := rfl
@[simp] theorem incPpmInputCount_calls : (incPpmInputCount s).calls = s.calls := rfl
@[simp] theorem incPpmInputCount_channelIndex :
    (incPpmInputCount s).channelIndex = s.channelIndex := rfl
@[simp] theorem incPpmInputCount_stores : (incPpmInputCount s).stores = s.stores := rfl

@[simp] theorem incPwmInputCount_ioCount :
    (incPwmInputCount s).pwmIOConfiguration.ioCount = s.pwmIOConfiguration.ioCount := rfl
@[simp] theorem incPwmInputCount_motorCount :
    (incPwmInputCount s).pwmIOConfiguration.motorCount = s.pwmIOConfiguration.motorCount := rfl
@[simp] theorem incPwmInputCount_servoCount :
    (incPwmInputCount s).pwmIOConfiguration.servoCount = s.pwmIOConfiguration.servoCount := rfl
@[simp] theorem incPwmInputCount_pwmInputCount :
    (incPwmInputCount s).pwmIOConfiguration.pwmInputCount
      = (s.pwmIOConfiguration.pwmInputCount + 1) % 256 := rfl
@[simp] theorem incPwmInputCount_ppmInputCount :
    (incPwmInputCount s).pwmIOConfiguration.ppmInputCount
      = s.pwmIOConfiguration.ppmInputCount := rfl
@[simp] theorem incPwmInputCount_ioConfigurations :
    (incPwmInputCount s).pwmIOConfiguration.ioConfigurations
      = s.pwmIOConfiguration.ioConfigurations := rfl
@[simp] theorem incPwmInputCount_calls : (incPwmInputCount s).calls = s.calls := rfl
@[simp] theorem incPwmInputCount_channelIndex :
    (incPwmInputCount s).channelIndex = s.channelIndex := rfl
@[simp] theorem incPwmInputCount_stores : (incPwmInputCount s).stores = s.stores := rfl

@[simp] theorem incMotorCount_ioCount :
    (incMotorCount s).pwmIOConfiguration.ioCount = s.pwmIOConfiguration.ioCount := rfl
@[simp] theorem incMotorCount_motorCount :
    (incMotorCount s).pwmIOConfiguration.motorCount
      = (s.pwmIOConfiguration.motorCount + 1) % 256 := rfl
@[simp] theorem incMotorCount_servoCount :
    (incMotorCount s).pwmIOConfiguration.servoCount = s.pwmIOConfiguration.servoCount := rfl
@[simp] theorem incMotorCount_pwmInputCount :
    (incMotorCount s).pwmIOConfiguration.pwmInputCount = s.pwmIOConfiguration.pwmInputCount := rfl
@[simp] theorem incMotorCount_ppmInputCount :
    (incMotorCount s).pwmIOConfiguration.ppmInputCount = s.pwmIOConfiguration.ppmInputCount := rfl
@[simp] theorem incMotorCount_ioConfigurations :
    (incMotorCount s).pwmIOConfiguration.ioConfigurations
      = s.pwmIOConfiguration.ioConfigurations := rfl
@[simp] theorem incMotorCount_calls : (incMotorCount s).calls = s.calls := rfl
@[simp] theorem incMotorCount_channelIndex : (incMotorCount s).channelIndex = s.channelIndex := rfl
@[simp] theorem incMotorCount_stores : (incMotorCount s).stores = s.stores := rfl

@[simp] theorem incServoCount_ioCount :
    (incServoCount s).pwmIOConfiguration.ioCount = s.pwmIOConfiguration.ioCount := rfl
@[simp] theorem incServoCount_motorCount :
    (incServoCount s).pwmIOConfiguration.motorCount = s.pwmIOConfiguration.motorCount := rfl
@[simp] theorem incServoCount_servoCount :
    (incServoCount s).pwmIOConfiguration.servoCount
      = (s.pwmIOConfiguration.servoCount + 1) % 256 := rfl
@[simp] theorem incServoCount_pwmInputCount :
    (incServoCount s).pwmIOConfiguration.pwmInputCount = s.pwmIOConfiguration.pwmInputCount := rfl
@[simp] theorem incServoCount_ppmInputCount :
    (incServoCount s).pwmIOConfiguration.ppmInputCount = s.pwmIOConfiguration.ppmInputCount := rfl
@[simp] theorem incServoCount_ioConfigurations :
    (incServoCount s).pwmIOConfiguration.ioConfigurations
      = s.pwmIOConfiguration.ioConfigurations := rfl
@[simp] theorem incServoCount_calls : (incServoCount s).calls = s.calls := rfl
@[simp] theorem incServoCount_channelIndex : (incServoCount s).channelIndex = s.channelIndex := rfl
@[simp] theorem incServoCount_stores : (incServoCount s).stores = s.stores := rfl

@[simp] theorem incChannelIndex_pwmIOConfiguration :
    (incChannelIndex s).pwmIOConfiguration = s.pwmIOConfiguration := rfl
@[simp] theorem incChannelIndex_calls : (incChannelIndex s).calls = s.calls := rfl
@[simp] theorem incChannelIndex_channelIndex :
    (incChannelIndex s).channelIndex = s.channelIndex + 1 := rfl
@[simp] theorem incChannelIndex_stores : (incChannelIndex s).stores = s.stores := rfl

/-- The port at index `a` after an assignment to fields of
`ioConfigurations[ioCount]`. -/
theorem storePort_getElem? (a : Nat) :
    (storePort s f).pwmIOConfiguration.ioConfigurations[a]?
      = if a = s.pwmIOConfiguration.ioCount then
          (s.pwmIOConfiguration.ioConfigurations[a]?).map f
        else s.pwmIOConfiguration.ioConfigurations[a]? := by
  unfold storePort
  simp only [List.getElem?_set, List.getD_eq_getElem?_getD]
  by_cases h : s.pwmIOConfiguration.ioCount = a
  · subst h
    by_cases h2 : s.pwmIOConfiguration.ioCount < s.pwmIOConfiguration.ioConfigurations.length
    · simp [h2]
    · simp [h2, List.getElem?_eq_none (not_lt.mp h2)]
  · simp [h, Ne.symm h]

end Primitives

/-! ## One pass of the loop -/

/-- A pass either skips the entry or runs one of the four role branches. -/
theorem loopBody_cases (t : Target) (init : drv_pwm_config_t) (w : Nat) (s : PwmState) :
    loopBody t init w s = s
    ∨ loopBody t init w s = bindPpmInput t init (timerIndexOf w) s
    ∨ loopBody t init w s = bindPwmInput t (timerIndexOf w) s
    ∨ loopBody t init w s = bindMotorOutput t init (timerIndexOf w) s
    ∨ loopBody t init w s = bindServoOutput t init (timerIndexOf w) s := by
  simp only [loopBody, dispatch]
  split_ifs <;> simp

section Branches
variable (t : Target) (init : drv_pwm_config_t) (k : Nat) (s : PwmState)

theorem bindPpmInput_ioCount :
    (bindPpmInput t init k s).pwmIOConfiguration.ioCount
      = (s.pwmIOConfiguration.ioCount + 1) % 256 := by
  simp only [bindPpmInput]; split_ifs <;> simp

theorem bindPwmInput_ioCount :
    (bindPwmInput t k s).pwmIOConfiguration.ioCount
      = (s.pwmIOConfiguration.ioCount + 1) % 256 := by
  simp only [bindPwmInput]; split_ifs <;> simp

theorem bindMotorOutput_ioCount :
    (bindMotorOutput t init k s).pwmIOConfiguration.ioCount
      = (s.pwmIOConfiguration.ioCount + 1) % 256 := by
  simp only [bindMotorOutput]; split_ifs <;> simp

theorem bindServoOutput_ioCount :
    (bindServoOutput t init k s).pwmIOConfiguration.ioCount
      = (s.pwmIOConfiguration.ioCount + 1) % 256 := by
  simp only [bindServoOutput]; split_ifs <;> simp

theorem bindPpmInput_length :
    (bindPpmInput t init k s).pwmIOConfiguration.ioConfigurations.length
      = s.pwmIOConfiguration.ioConfigurations.length := by
  simp only [bindPpmInput]; split_ifs <;> simp

theorem bindPwmInput_length :
    (bindPwmInput t k s).pwmIOConfiguration.ioConfigurations.length
      = s.pwmIOConfiguration.ioConfigurations.length := by
  simp only [bindPwmInput]; split_ifs <;> simp

theorem bindMotorOutput_length :
    (bindMotorOutput t init k s).pwmIOConfiguration.ioConfigurations.length
      = s.pwmIOConfiguration.ioConfigurations.length := by
  simp only [bindMotorOutput]; split_ifs <;> simp

theorem bindServoOutput_length :
    (bindServoOutput t init k s).pwmIOConfiguration.ioConfigurations.length
      = s.pwmIOConfiguration.ioConfigurations.length := by
  simp only [bindServoOutput]; split_ifs <;> simp

theorem bindPpmInput_stores :
    ∀ x ∈ (bindPpmInput t init k s).stores, x ∈ s.stores ∨ x = s.pwmIOConfiguration.ioCount := by
  simp only [bindPpmInput]; split_ifs <;> intro x hx <;> (try simp at hx) <;> tauto

theorem bindPwmInput_stores :
    ∀ x ∈ (bindPwmInput t k s).stores, x ∈ s.stores ∨ x = s.pwmIOConfiguration.ioCount := by
  simp only [bindPwmInput]; split_ifs <;> intro x hx <;> (try simp at hx) <;> tauto

theorem bindMotorOutput_stores :
    ∀ x ∈ (bindMotorOutput t init k s).stores,
      x ∈ s.stores ∨ x = s.pwmIOConfiguration.ioCount := by
  simp only [bindMotorOutput]; split_ifs <;> intro x hx <;> (try simp at hx) <;> tauto

theorem bindServoOutput_stores :
    ∀ x ∈ (bindServoOutput t init k s).stores,
      x ∈ s.stores ∨ x = s.pwmIOConfiguration.ioCount := by
  simp only [bindServoOutput]; split_ifs <;> intro x hx <;> (try simp at hx) <;> tauto

theorem bindPpmInput_other (a : Nat) (ha : a ≠ s.pwmIOConfiguration.ioCount) :
    (bindPpmInput t init k s).pwmIOConfiguration.ioConfigurations[a]?
      = s.pwmIOConfiguration.ioConfigurations[a]? := by
  simp only [bindPpmInput]; split_ifs <;> simp [storePort_getElem?, ha]

theorem bindPwmInput_other (a : Nat) (ha : a ≠ s.pwmIOConfiguration.ioCount) :
    (bindPwmInput t k s).pwmIOConfiguration.ioConfigurations[a]?
      = s.pwmIOConfiguration.ioConfigurations[a]? := by
  simp only [bindPwmInput]; split_ifs <;> simp [storePort_getElem?, ha]

theorem bindMotorOutput_other (a : Nat) (ha : a ≠ s.pwmIOConfiguration.ioCount) :
    (bindMotorOutput t init k s).pwmIOConfiguration.ioConfigurations[a]?
      = s.pwmIOConfiguration.ioConfigurations[a]? := by
  simp only [bindMotorOutput]; split_ifs <;> simp [storePort_getElem?, ha]

theorem bindServoOutput_other (a : Nat) (ha : a ≠ s.pwmIOConfiguration.ioCount) :
    (bindServoOutput t init k s).pwmIOConfiguration.ioConfigurations[a]?
      = s.pwmIOConfiguration.ioConfigurations[a]? := by
  simp only [bindServoOutput]; split_ifs <;> simp [storePort_getElem?, ha]

end Branches

theorem loopBody_ports_other (t : Target) (init : drv_pwm_config_t) (w : Nat) (s : PwmState)
    (a : Nat) (ha : a ≠ s.pwmIOConfiguration.ioCount) :
    (loopBody t init w s).pwmIOConfiguration.ioConfigurations[a]?
      = s.pwmIOConfiguration.ioConfigurations[a]? := by
  rcases loopBody_cases t init w s with h | h | h | h | h <;> rw [h]
  · exact bindPpmInput_other t init _ s a ha
  · exact bindPwmInput_other t _ s a ha
  · exact bindMotorOutput_other t init _ s a ha
  · exact bindServoOutput_other t init _ s a ha

theorem loopBody_length (t : Target) (init : drv_pwm_config_t) (w : Nat) (s : PwmState) :
    (loopBody t init w s).pwmIOConfiguration.ioConfigurations.length
      = s.pwmIOConfiguration.ioConfigurations.length := by
  rcases loopBody_cases t init w s with h | h | h | h | h <;> rw [h]
  · exact bindPpmInput_length t init _ s
  · exact bindPwmInput_length t _ s
  · exact bindMotorOutput_length t init _ s
  · exact bindServoOutput_length t init _ s

theorem loopBody_ioCount (t : Target) (init : drv_pwm_config_t) (w : Nat) (s : PwmState) :
    (loopBody t init w s).pwmIOConfiguration.ioCount = s.pwmIOConfiguration.ioCount
    ∨ (loopBody t init w s).pwmIOConfiguration.ioCount
        = (s.pwmIOConfiguration.ioCount + 1) % 256 := by
  rcases loopBody_cases t init w s with h | h | h | h | h <;> rw [h]
  · exact Or.inl rfl
  · exact Or.inr (bindPpmInput_ioCount t init _ s)
  · exact Or.inr (bindPwmInput_ioCount t _ s)
  · exact Or.inr (bindMotorOutput_ioCount t init _ s)
  · exact Or.inr (bindServoOutput_ioCount t init _ s)

theorem loopBody_stores (t : Target) (init : drv_pwm_config_t) (w : Nat) (s : PwmState) :
    ∀ x ∈ (loopBody t init w s).stores, x ∈ s.stores ∨ x = s.pwmIOConfiguration.ioCount := by
  rcases loopBody_cases t init w s with h | h | h | h | h <;> rw [h]
  · exact fun x hx => Or.inl hx
  · exact bindPpmInput_stores t init _ s
  · exact bindPwmInput_stores t _ s
  · exact bindMotorOutput_stores t init _ s
  · exact bindServoOutput_stores t init _ s

/-! ## Supporting lemmas: counters -/

/-- In a build that compiles all four role branches, a pass leaves the
counters alone or increments `ioCount` and exactly one role counter. -/
theorem loopBody_counters (t : Target) (init : drv_pwm_config_t) (w : Nat) (s : PwmState)
    (hS : t.USE_SERVOS = true) (hK : t.SKIP_RX_PWM_PPM = false) :
    ((loopBody t init w s).pwmIOConfiguration.ioCount = s.pwmIOConfiguration.ioCount
      ∧ (loopBody t init w s).pwmIOConfiguration.motorCount = s.pwmIOConfiguration.motorCount
      ∧ (loopBody t init w s).pwmIOConfiguration.servoCount = s.pwmIOConfiguration.servoCount
      ∧ (loopBody t init w s).pwmIOConfiguration.pwmInputCount
          = s.pwmIOConfiguration.pwmInputCount
      ∧ (loopBody t init w s).pwmIOConfiguration.ppmInputCount
          = s.pwmIOConfiguration.ppmInputCount)
    ∨ ((loopBody t init w s).pwmIOConfiguration.ioCount
          = (s.pwmIOConfiguration.ioCount + 1) % 256
      ∧ (((loopBody t init w s).pwmIOConfiguration.motorCount
            = (s.pwmIOConfiguration.motorCount + 1) % 256
          ∧ (loopBody t init w s).pwmIOConfiguration.servoCount = s.pwmIOConfiguration.servoCount
          ∧ (loopBody t init w s).pwmIOConfiguration.pwmInputCount
              = s.pwmIOConfiguration.pwmInputCount
          ∧ (loopBody t init w s).pwmIOConfiguration.ppmInputCount
              = s.pwmIOConfiguration.ppmInputCount)
        ∨ ((loopBody t init w s).pwmIOConfiguration.motorCount = s.pwmIOConfiguration.motorCount
          ∧ (loopBody t init w s).pwmIOConfiguration.servoCount
              = (s.pwmIOConfiguration.servoCount + 1) % 256
          ∧ (loopBody t init w s).pwmIOConfiguration.pwmInputCount
              = s.pwmIOConfiguration.pwmInputCount
          ∧ (loopBody t init w s).pwmIOConfiguration.ppmInputCount
              = s.pwmIOConfiguration.ppmInputCount)
        ∨ ((loopBody t init w s).pwmIOConfiguration.motorCount = s.pwmIOConfiguration.motorCount
          ∧ (loopBody t init w s).pwmIOConfiguration.servoCount = s.pwmIOConfiguration.servoCount
          ∧ (loopBody t init w s).pwmIOConfiguration.pwmInputCount
              = (s.pwmIOConfiguration.pwmInputCount + 1) % 256
          ∧ (loopBody t init w s).pwmIOConfiguration.ppmInputCount
              = s.pwmIOConfiguration.ppmInputCount)
        ∨ ((loopBody t init w s).pwmIOConfiguration.motorCount = s.pwmIOConfiguration.motorCount
          ∧ (loopBody t init w s).pwmIOConfiguration.servoCount = s.pwmIOConfiguration.servoCount
          ∧ (loopBody t init w s).pwmIOConfiguration.pwmInputCount
              = s.pwmIOConfiguration.pwmInputCount
          ∧ (loopBody t init w s).pwmIOConfiguration.ppmInputCount
              = (s.pwmIOConfiguration.ppmInputCount + 1) % 256))) := by
  rcases loopBody_cases t init w s with h | h | h | h | h <;> rw [h]
  · exact Or.inl ⟨rfl, rfl, rfl, rfl, rfl⟩
  · right
    simp only [bindPpmInput, hK, Bool.false_eq_true, if_false]
    split_ifs <;> simp
  · right
    simp only [bindPwmInput, hK, Bool.false_eq_true, if_false]
    simp
  · right
    simp only [bindMotorOutput]
    split_ifs <;> simp
  · right
    simp only [bindServoOutput, hS, if_true]
    simp

/-- The sum invariant of the loop, together with the bound that keeps the
`uint8_t` counters from wrapping. -/
theorem pwmInitOn_ioCount_eq_role_counts (t : Target) (init : drv_pwm_config_t)
    (setup : Nat → Nat) (old : pwmIOConfiguration_t)
    (hS : t.USE_SERVOS = true) (hK : t.SKIP_RX_PWM_PPM = false)
    (hcap : t.USABLE_TIMER_CHANNEL_COUNT ≤ 255) :
    (pwmInitOn t init setup old).pwmIOConfiguration.ioCount
      = (pwmInitOn t init setup old).pwmIOConfiguration.motorCount
        + (pwmInitOn t init setup old).pwmIOConfiguration.servoCount
        + (pwmInitOn t init setup old).pwmIOConfiguration.pwmInputCount
        + (pwmInitOn t init setup old).pwmIOConfiguration.ppmInputCount := by
  have key := pwmInitLoop_induct t init setup
    (fun i s => s.pwmIOConfiguration.ioCount
        = s.pwmIOConfiguration.motorCount + s.pwmIOConfiguration.servoCount
          + s.pwmIOConfiguration.pwmInputCount + s.pwmIOConfiguration.ppmInputCount
      ∧ s.pwmIOConfiguration.ioCount ≤ i)
    (by
      intro i s hP hi _
      obtain ⟨hsum, hle⟩ := hP
      rcases loopBody_counters t init (setup i) s hS hK with h | ⟨h0, h | h | h | h⟩
      · obtain ⟨h1, h2, h3, h4, h5⟩ := h
        rw [h1, h2, h3, h4, h5]
        exact ⟨hsum, by omega⟩
      all_goals
        obtain ⟨h2, h3, h4, h5⟩ := h
        rw [h0, h2, h3, h4, h5]
        constructor <;> omega)
    t.USABLE_TIMER_CHANNEL_COUNT 0 (initialState t old)
    ⟨rfl, le_refl _⟩
  obtain ⟨j, _, _, hsum, _⟩ := key
  exact hsum

/-! ## C1: `ioCount` and the role counters -/

/-- C1, as stated, fails: in the CC3D build with `CC3D_NRF24` the bodies of the
two receiver branches are compiled out (`SKIP_RX_PWM_PPM`) while the
`ioCount++` after the dispatch is not, so with the PPM receiver enabled the
PPM entry of the sample map raises `ioCount` and no role counter: `ioCount`
is 7 and the four role counters add up to 6. -/
theorem ioCount_exceeds_role_counts_when_rx_compiled_out :
    (pwmInit cc3dNrf24Target sampleMaps ppmConfig staleIOConfiguration).pwmIOConfiguration.ioCount
      = 7
    ∧ (pwmInit cc3dNrf24Target sampleMaps ppmConfig
        staleIOConfiguration).pwmIOConfiguration.motorCount = 6
    ∧ (pwmInit cc3dNrf24Target sampleMaps ppmConfig
        staleIOConfiguration).pwmIOConfiguration.servoCount = 0
    ∧ (pwmInit cc3dNrf24Target sampleMaps ppmConfig
        staleIOConfiguration).pwmIOConfiguration.pwmInputCount = 0
    ∧ (pwmInit cc3dNrf24Target sampleMaps ppmConfig
        staleIOConfiguration).pwmIOConfiguration.ppmInputCount = 0
    ∧ (pwmInit cc3dNrf24Target sampleMaps ppmConfig staleIOConfiguration).pwmIOConfiguration.ioCount
      ≠ (pwmInit cc3dNrf24Target sampleMaps ppmConfig
          staleIOConfiguration).pwmIOConfiguration.motorCount
        + (pwmInit cc3dNrf24Target sampleMaps ppmConfig
          staleIOConfiguration).pwmIOConfiguration.servoCount
        + (pwmInit cc3dNrf24Target sampleMaps ppmConfig
          staleIOConfiguration).pwmIOConfiguration.pwmInputCount
        + (pwmInit cc3dNrf24Target sampleMaps ppmConfig
          staleIOConfiguration).pwmIOConfiguration.ppmInputCount := by
  decide

/-- C1 (amended): in a build that compiles all four role branches
(`USE_SERVOS` defined, `SKIP_RX_PWM_PPM` not defined) and on a board whose
`USABLE_TIMER_CHANNEL_COUNT` fits the `uint8_t` counters, for every
configuration, all hardware maps and every previous content of the global,
after `pwmInit` returns `ioCount == motorCount + servoCount + pwmInputCount +
ppmInputCount`. -/
theorem pwmInit_ioCount_eq_role_counts (t : Target) (m : HardwareMapTables)
    (init : drv_pwm_config_t) (old : pwmIOConfiguration_t)
    (hServos : t.USE_SERVOS = true) (hRx : t.SKIP_RX_PWM_PPM = false)
    (hcap : t.USABLE_TIMER_CHANNEL_COUNT ≤ 255) :
    (pwmInit t m init old).pwmIOConfiguration.ioCount
      = (pwmInit t m init old).pwmIOConfiguration.motorCount
        + (pwmInit t m init old).pwmIOConfiguration.servoCount
        + (pwmInit t m init old).pwmIOConfiguration.pwmInputCount
        + (pwmInit t m init old).pwmIOConfiguration.ppmInputCount :=
  pwmInitOn_ioCount_eq_role_counts t init (selectedMap m init) old hServos hRx hcap

/-- C1 (amended) at the CC3D build, the sample maps and the PPM
configuration. -/
theorem pwmInit_ioCount_eq_role_counts_witness :
    cc3dTarget.USE_SERVOS = true ∧ cc3dTarget.SKIP_RX_PWM_PPM = false
    ∧ cc3dTarget.USABLE_TIMER_CHANNEL_COUNT ≤ 255
    ∧ (pwmInit cc3dTarget sampleMaps ppmConfig staleIOConfiguration).pwmIOConfiguration.ioCount
      = (pwmInit cc3dTarget sampleMaps ppmConfig staleIOConfiguration).pwmIOConfiguration.motorCount
        + (pwmInit cc3dTarget sampleMaps ppmConfig
            staleIOConfiguration).pwmIOConfiguration.servoCount
        + (pwmInit cc3dTarget sampleMaps ppmConfig
            staleIOConfiguration).pwmIOConfiguration.pwmInputCount
        + (pwmInit cc3dTarget sampleMaps ppmConfig
            staleIOConfiguration).pwmIOConfiguration.ppmInputCount :=
  ⟨rfl, rfl, by decide,
    pwmInit_ioCount_eq_role_counts cc3dTarget sampleMaps ppmConfig staleIOConfiguration rfl rfl
      (by decide)⟩

/-! ## C5: determinism and idempotence -/

/-- C5: the IO configuration that `pwmInit` produces, and the calls it makes,
depend only on the build, the hardware maps and the configuration, not on
what the global `pwmIOConfiguration` held before (the `memset` clears it); so
running `pwmInit` on the result of an earlier run with the same inputs gives
the same IO configuration again. -/
theorem pwmInit_deterministic_idempotent (t : Target) (m : HardwareMapTables)
    (init : drv_pwm_config_t) (old old' : pwmIOConfiguration_t) :
    pwmInit t m init old = pwmInit t m init old'
    ∧ (pwmInit t m init (pwmInit t m init old).pwmIOConfiguration).pwmIOConfiguration
        = (pwmInit t m init old).pwmIOConfiguration :=
  ⟨rfl, rfl⟩

/-! ## C7: mode selection -/

/-- C7: the index into `hardwareMaps[]` is `(airplane ? 2 : 0) + ((usePPM ||
useSerialRx) ? 1 : 0)`, it is below four, it picks `multiPWM`, `multiPPM`,
`airPWM`, `airPPM` in this order, and two configurations that agree on
`airplane`, `usePPM` and `useSerialRx` select the same map. -/
theorem hardwareMapIndex_selects (m : HardwareMapTables) (init : drv_pwm_config_t) :
    hardwareMapIndex init
      = (if init.airplane then 2 else 0) + (if init.usePPM || init.useSerialRx then 1 else 0)
    ∧ hardwareMapIndex init < 4
    ∧ (hardwareMaps m)[hardwareMapIndex init]? = some (selectedMap m init)
    ∧ selectedMap m init
        = (match init.airplane, (init.usePPM || init.useSerialRx) with
          | false, false => m.multiPWM
          | false, true => m.multiPPM
          | true, false => m.airPWM
          | true, true => m.airPPM)
    ∧ (∀ init' : drv_pwm_config_t, init'.airplane = init.airplane → init'.usePPM = init.usePPM →
        init'.useSerialRx = init.useSerialRx →
        hardwareMapIndex init' = hardwareMapIndex init
        ∧ selectedMap m init' = selectedMap m init) := by
  refine ⟨?_, ?_, ?_, ?_, ?_⟩
  · unfold hardwareMapIndex
    cases init.airplane <;> cases (init.usePPM || init.useSerialRx) <;> rfl
  · unfold hardwareMapIndex
    cases init.airplane <;> cases (init.usePPM || init.useSerialRx) <;> decide
  · unfold selectedMap hardwareMapIndex hardwareMaps
    cases init.airplane <;> cases (init.usePPM || init.useSerialRx) <;> rfl
  · unfold selectedMap hardwareMapIndex hardwareMaps
    cases init.airplane <;> cases (init.usePPM || init.useSerialRx) <;> rfl
  · intro init' h1 h2 h3
    unfold selectedMap hardwareMapIndex
    rw [h1, h2, h3]
    exact ⟨rfl, rfl⟩

/-- C7 at the plain configuration and the PPM configuration extended with a
serial receiver and servos: the pairs agree on the three selecting flags. -/
theorem hardwareMapIndex_selects_witness :
    hardwareMapIndex { ppmConfig with useServos := true, useOneshot := true } = 1
    ∧ selectedMap sampleMaps { ppmConfig with useServos := true, useOneshot := true }
        = selectedMap sampleMaps ppmConfig :=
  ⟨by decide,
    ((hardwareMapIndex_selects sampleMaps ppmConfig).2.2.2.2
      { ppmConfig with useServos := true, useOneshot := true } rfl rfl rfl).2⟩

/-! ## C6: the loop bound -/

/-- The loop keeps `ioCount` at or below the position it has reached and
writes `ioConfigurations[]` only inside the array. -/
theorem pwmInitOn_bounded (t : Target) (init : drv_pwm_config_t) (setup : Nat → Nat)
    (old : pwmIOConfiguration_t) :
    (∀ p, (t.USABLE_TIMER_CHANNEL_COUNT ≤ p ∨ setup p = 0xFFFF) →
        (pwmInitOn t init setup old).pwmIOConfiguration.ioCount ≤ p)
    ∧ (∀ x ∈ (pwmInitOn t init setup old).stores, x < t.USABLE_TIMER_CHANNEL_COUNT)
    ∧ (pwmInitOn t init setup old).pwmIOConfiguration.ioConfigurations.length
        = t.USABLE_TIMER_CHANNEL_COUNT := by
  have key := pwmInitLoop_induct t init setup
    (fun i s => s.pwmIOConfiguration.ioCount ≤ i
      ∧ (∀ p, (t.USABLE_TIMER_CHANNEL_COUNT ≤ p ∨ setup p = 0xFFFF) → i ≤ p)
      ∧ (∀ x ∈ s.stores, x < t.USABLE_TIMER_CHANNEL_COUNT)
      ∧ s.pwmIOConfiguration.ioConfigurations.length = t.USABLE_TIMER_CHANNEL_COUNT)
    (by
      intro i s hP hi hne
      obtain ⟨hle, hstop, hst, hlen⟩ := hP
      refine ⟨?_, ?_, ?_, ?_⟩
      · rcases loopBody_ioCount t init (setup i) s with h | h <;> rw [h] <;> omega
      · intro p hp
        have h1 := hstop p hp
        rcases Nat.lt_or_ge i p with h2 | h2
        · exact h2
        · have e : p = i := by omega
          subst e
          rcases hp with h3 | h3
          · omega
          · exact absurd h3 hne
      · intro x hx
        rcases loopBody_stores t init (setup i) s x hx with h | h
        · exact hst x h
        · omega
      · rw [loopBody_length]; exact hlen)
    t.USABLE_TIMER_CHANNEL_COUNT 0 (initialState t old)
    ⟨Nat.zero_le _, fun _ _ => Nat.zero_le _, by simp [initialState],
      by simp [initialState, memsetZero]⟩
  obtain ⟨j, _, _, h1, h2, h3, h4⟩ := key
  exact ⟨fun p hp => le_trans h1 (h2 p hp), h3, h4⟩

/-- C6: for every build, configuration and hardware map, with or without a
sentinel, `pwmInit` leaves `ioCount` at or below `USABLE_TIMER_CHANNEL_COUNT`
and at or below the position of every `0xFFFF` word (so below the first);
every write to `ioConfigurations[ioCount]` is at an index strictly below
`USABLE_TIMER_CHANNEL_COUNT` and the array keeps that length; the result
depends only on the words before a position `p` that is the capacity or holds
the sentinel (maps that agree before `p` and both stop there give the same
result); and `USABLE_TIMER_CHANNEL_COUNT` passes exhaust the loop (further
passes change nothing). -/
theorem pwmInit_scan_bounded (t : Target) (m : HardwareMapTables) (init : drv_pwm_config_t)
    (old : pwmIOConfiguration_t) :
    (pwmInit t m init old).pwmIOConfiguration.ioCount ≤ t.USABLE_TIMER_CHANNEL_COUNT
    ∧ (∀ p, selectedMap m init p = 0xFFFF → (pwmInit t m init old).pwmIOConfiguration.ioCount ≤ p)
    ∧ (∀ x ∈ (pwmInit t m init old).stores, x < t.USABLE_TIMER_CHANNEL_COUNT)
    ∧ (pwmInit t m init old).pwmIOConfiguration.ioConfigurations.length
        = t.USABLE_TIMER_CHANNEL_COUNT
    ∧ (∀ (m' : HardwareMapTables) (p : Nat),
        (t.USABLE_TIMER_CHANNEL_COUNT ≤ p
          ∨ (selectedMap m init p = 0xFFFF ∧ selectedMap m' init p = 0xFFFF)) →
        (∀ i, i < p → selectedMap m' init i = selectedMap m init i) →
        pwmInit t m' init old = pwmInit t m init old)
    ∧ (∀ extra, pwmInitLoop t init (selectedMap m init) (t.USABLE_TIMER_CHANNEL_COUNT + extra) 0
          (initialState t old) = pwmInit t m init old) := by
  obtain ⟨h1, h2, h3⟩ := pwmInitOn_bounded t init (selectedMap m init) old
  refine ⟨h1 _ (Or.inl (le_refl _)), fun p hp => h1 p (Or.inr hp), h2, h3, ?_, ?_⟩
  · intro m' p hstop hagree
    exact pwmInitLoop_congr t init (selectedMap m init) (selectedMap m' init) p hstop hagree
      t.USABLE_TIMER_CHANNEL_COUNT 0 (initialState t old) (Nat.zero_le _)
  · intro extra
    exact pwmInitLoop_fuel t init (selectedMap m init) t.USABLE_TIMER_CHANNEL_COUNT extra 0
      (initialState t old) (by omega)

/-- A hardware map without a sentinel: a motor on `PWM7` at every position. -/
theorem pwmInit_scan_bounded_witness :
    (∀ p, selectedMap (uniformMaps (fun _ => mapWord PWM7 MAP_TO_MOTOR_OUTPUT)) plainConfig p
        ≠ 0xFFFF)
    ∧ (pwmInit cc3dTarget (uniformMaps (fun _ => mapWord PWM7 MAP_TO_MOTOR_OUTPUT)) plainConfig
        staleIOConfiguration).pwmIOConfiguration.ioCount = 12
    ∧ (pwmInit cc3dTarget (uniformMaps (fun _ => mapWord PWM7 MAP_TO_MOTOR_OUTPUT)) plainConfig
        staleIOConfiguration).pwmIOConfiguration.ioCount ≤ cc3dTarget.USABLE_TIMER_CHANNEL_COUNT :=
  ⟨fun _ => (by decide : mapWord PWM7 MAP_TO_MOTOR_OUTPUT ≠ 0xFFFF), by decide,
    (pwmInit_scan_bounded cc3dTarget (uniformMaps (fun _ => mapWord PWM7 MAP_TO_MOTOR_OUTPUT))
      plainConfig staleIOConfiguration).1⟩

/-! ## C4: exclusion -/

/-- An entry that an exclusion test skips leaves the state as it is. -/
theorem loopBody_of_isExcluded (t : Target) (init : drv_pwm_config_t) (w : Nat) (s : PwmState)
    (h : isExcluded t init (timerIndexOf w) (typeOf w) = true) : loopBody t init w s = s := by
  simp [loopBody, h]

/-- On the array of a list without sentinel words that fits the capacity, the
loop is the left fold of the loop body over the list. -/
theorem pwmInitLoop_tableOfList (t : Target) (init : drv_pwm_config_t) (l : List Nat)
    (hl : ∀ w ∈ l, w ≠ 0xFFFF) (hfit : l.length ≤ t.USABLE_TIMER_CHANNEL_COUNT) :
    ∀ fuel i s, l.length ≤ i + fuel →
      pwmInitLoop t init (tableOfList l) fuel i s
        = (l.drop i).foldl (fun s w => loopBody t init w s) s := by
  intro fuel
  induction fuel with
  | zero =>
    intro i s h
    rw [List.drop_eq_nil_of_le (by omega)]
    rfl
  | succ n ih =>
    intro i s h
    rcases Nat.lt_or_ge i l.length with hi | hi
    · have hw : tableOfList l i = l[i] := by
        simp [tableOfList, hi]
      have hne : tableOfList l i ≠ 0xFFFF := by
        rw [hw]; exact hl _ (List.getElem_mem _)
      rw [pwmInitLoop, if_pos ⟨by omega, hne⟩, ih (i + 1) _ (by omega),
        List.drop_eq_getElem_cons hi, List.foldl_cons, hw]
    · have hw : tableOfList l i = 0xFFFF := by
        simp [tableOfList, List.getElem?_eq_none hi]
      rw [pwmInitLoop_stop t init _ _ i s (by simp [hw]), List.drop_eq_nil_of_le hi]
      rfl

/-- Dropping the elements that a fold ignores does not change the fold. -/
theorem foldl_filter_of_ignored {α β : Type} (f : β → α → β) (keep : α → Bool)
    (h : ∀ b a, keep a = false → f b a = b) :
    ∀ (l : List α) (b : β), (l.filter keep).foldl f b = l.foldl f b := by
  intro l
  induction l with
  | nil => intro b; rfl
  | cons a l ih =>
    intro b
    cases hk : keep a with
    | true => simp [List.filter_cons, hk, ih]
    | false => simp [List.filter_cons, hk, ih, h b a hk]

/-- C4: for every build and configuration and every hardware map that fits
within `USABLE_TIMER_CHANNEL_COUNT` (the words `l` before its sentinel),
`pwmInit` on the map with every entry removed that an exclusion test skips
returns the same state as on the map itself: the same counters, ports,
ordinals and calls.  An excluded entry leaves the whole state unchanged, so it
writes no port, makes no call and increments no counter, whatever its base
role. -/
theorem pwmInit_exclusion_invisible (t : Target) (init : drv_pwm_config_t)
    (old : pwmIOConfiguration_t) (m m' : HardwareMapTables) (l : List Nat)
    (hl : ∀ w ∈ l, w ≠ 0xFFFF) (hfit : l.length ≤ t.USABLE_TIMER_CHANNEL_COUNT)
    (hm : selectedMap m init = tableOfList l)
    (hm' : selectedMap m' init = tableOfList (removeExcluded t init l)) :
    pwmInit t m' init old = pwmInit t m init old
    ∧ (∀ w s, isExcluded t init (timerIndexOf w) (typeOf w) = true → loopBody t init w s = s) := by
  refine ⟨?_, fun w s h => loopBody_of_isExcluded t init w s h⟩
  have hl' : ∀ w ∈ removeExcluded t init l, w ≠ 0xFFFF := fun w hw =>
    hl w (List.mem_filter.mp hw).1
  have hfit' : (removeExcluded t init l).length ≤ t.USABLE_TIMER_CHANNEL_COUNT :=
    le_trans (List.length_filter_le _ _) hfit
  unfold pwmInit pwmInitOn
  rw [hm, hm', pwmInitLoop_tableOfList t init l hl hfit _ 0 _ (by omega),
    pwmInitLoop_tableOfList t init _ hl' hfit' _ 0 _ (by omega), List.drop_zero, List.drop_zero]
  unfold removeExcluded
  apply foldl_filter_of_ignored
  intro s w hw
  apply loopBody_of_isExcluded
  simpa using hw

/-- C4 at the CC3D build with the LED strip enabled, which excludes the four
`TIM3` channels of the sample parallel PWM map. -/
theorem pwmInit_exclusion_invisible_witness :
    removeExcluded cc3dTarget { parallelPwmConfig with useLEDStrip := true } sampleMultiPWM
      = [mapWord PWM1 MAP_TO_PWM_INPUT, mapWord PWM5 MAP_TO_PWM_INPUT,
         mapWord PWM6 MAP_TO_PWM_INPUT, mapWord PWM7 MAP_TO_MOTOR_OUTPUT,
         mapWord PWM8 MAP_TO_MOTOR_OUTPUT, mapWord PWM9 MAP_TO_MOTOR_OUTPUT,
         mapWord PWM10 MAP_TO_MOTOR_OUTPUT, mapWord PWM12 MAP_TO_MOTOR_OUTPUT]
    ∧ pwmInit cc3dTarget
        (uniformMaps (tableOfList
          (removeExcluded cc3dTarget { parallelPwmConfig with useLEDStrip := true }
            sampleMultiPWM)))
        { parallelPwmConfig with useLEDStrip := true } staleIOConfiguration
      = pwmInit cc3dTarget (uniformMaps (tableOfList sampleMultiPWM))
        { parallelPwmConfig with useLEDStrip := true } staleIOConfiguration :=
  ⟨by decide,
    (pwmInit_exclusion_invisible cc3dTarget { parallelPwmConfig with useLEDStrip := true }
      staleIOConfiguration (uniformMaps (tableOfList sampleMultiPWM))
      (uniformMaps (tableOfList
        (removeExcluded cc3dTarget { parallelPwmConfig with useLEDStrip := true }
          sampleMultiPWM)))
      sampleMultiPWM (by decide) (by decide) rfl rfl).1⟩

/-! ## C2: no channel is bound twice -/

section Channels
variable (t : Target) (init : drv_pwm_config_t) (k : Nat) (s : PwmState)

theorem bindPpmInput_portChannel (a : Nat) :
    portChannel (bindPpmInput t init k s).pwmIOConfiguration a
      = portChannel s.pwmIOConfiguration a := by
  simp only [portChannel, bindPpmInput]
  split_ifs <;> simp [storePort_getElem?] <;> split_ifs <;>
    cases s.pwmIOConfiguration.ioConfigurations[a]? <;> simp

theorem bindPwmInput_portChannel (a : Nat) :
    portChannel (bindPwmInput t k s).pwmIOConfiguration a
      = portChannel s.pwmIOConfiguration a := by
  simp only [portChannel, bindPwmInput]
  (split_ifs <;> simp [storePort_getElem?])
  split_ifs <;>
    cases s.pwmIOConfiguration.ioConfigurations[a]? <;> simp

theorem bindMotorOutput_portChannel (a : Nat) :
    portChannel (bindMotorOutput t init k s).pwmIOConfiguration a
        = portChannel s.pwmIOConfiguration a
    ∨ portChannel (bindMotorOutput t init k s).pwmIOConfiguration a = some k := by
  simp only [portChannel, bindMotorOutput]
  split_ifs <;> simp [storePort_getElem?] <;> split_ifs <;>
    cases s.pwmIOConfiguration.ioConfigurations[a]? <;> simp

theorem bindServoOutput_portChannel (a : Nat) :
    portChannel (bindServoOutput t init k s).pwmIOConfiguration a
        = portChannel s.pwmIOConfiguration a
    ∨ portChannel (bindServoOutput t init k s).pwmIOConfiguration a = some k := by
  simp only [portChannel, bindServoOutput]
  (split_ifs <;> simp [storePort_getElem?])
  split_ifs <;>
    cases s.pwmIOConfiguration.ioConfigurations[a]? <;> simp

theorem bindPpmInput_channels :
    (bindPpmInput t init k s).calls.filterMap Call.channel = s.calls.filterMap Call.channel
    ∨ (bindPpmInput t init k s).calls.filterMap Call.channel
        = s.calls.filterMap Call.channel ++ [k] := by
  simp only [bindPpmInput]
  split_ifs <;> simp [Call.channel]

theorem bindPwmInput_channels :
    (bindPwmInput t k s).calls.filterMap Call.channel = s.calls.filterMap Call.channel
    ∨ (bindPwmInput t k s).calls.filterMap Call.channel
        = s.calls.filterMap Call.channel ++ [k] := by
  simp only [bindPwmInput]
  split_ifs <;> simp [Call.channel]

theorem bindMotorOutput_channels :
    (bindMotorOutput t init k s).calls.filterMap Call.channel
      = s.calls.filterMap Call.channel ++ [k] := by
  simp only [bindMotorOutput]
  split_ifs <;> simp [Call.channel]

theorem bindServoOutput_channels :
    (bindServoOutput t init k s).calls.filterMap Call.channel = s.calls.filterMap Call.channel
    ∨ (bindServoOutput t init k s).calls.filterMap Call.channel
        = s.calls.filterMap Call.channel ++ [k] := by
  simp only [bindServoOutput]
  split_ifs <;> simp [Call.channel]

end Channels

/-- After a pass a port references the channel it referenced before or the
channel of the entry just processed. -/
theorem loopBody_portChannel (t : Target) (init : drv_pwm_config_t) (w : Nat) (s : PwmState)
    (a : Nat) :
    portChannel (loopBody t init w s).pwmIOConfiguration a = portChannel s.pwmIOConfiguration a
    ∨ (a = s.pwmIOConfiguration.ioCount
        ∧ portChannel (loopBody t init w s).pwmIOConfiguration a = some (timerIndexOf w)) := by
  by_cases ha : a = s.pwmIOConfiguration.ioCount
  · rcases loopBody_cases t init w s with h | h | h | h | h <;> rw [h]
    · exact Or.inl rfl
    · exact Or.inl (bindPpmInput_portChannel t init _ s a)
    · exact Or.inl (bindPwmInput_portChannel t _ s a)
    · rcases bindMotorOutput_portChannel t init (timerIndexOf w) s a with h1 | h1
      · exact Or.inl h1
      · exact Or.inr ⟨ha, h1⟩
    · rcases bindServoOutput_portChannel t init (timerIndexOf w) s a with h1 | h1
      · exact Or.inl h1
      · exact Or.inr ⟨ha, h1⟩
  · left
    unfold portChannel
    rw [loopBody_ports_other t init w s a ha]

/-- A pass configures no channel or the channel of the entry just processed. -/
theorem loopBody_channels (t : Target) (init : drv_pwm_config_t) (w : Nat) (s : PwmState) :
    (loopBody t init w s).calls.filterMap Call.channel = s.calls.filterMap Call.channel
    ∨ (loopBody t init w s).calls.filterMap Call.channel
        = s.calls.filterMap Call.channel ++ [timerIndexOf w] := by
  rcases loopBody_cases t init w s with h | h | h | h | h <;> rw [h]
  · exact Or.inl rfl
  · exact bindPpmInput_channels t init _ s
  · exact bindPwmInput_channels t _ s
  · exact Or.inr (bindMotorOutput_channels t init _ s)
  · exact bindServoOutput_channels t init _ s

/-- Every channel that a port references or a call configures belongs to an
entry the loop has passed, and none occurs twice, when the entries passed
have distinct channel indices. -/
theorem pwmInitOn_channels_distinct (t : Target) (init : drv_pwm_config_t) (setup : Nat → Nat)
    (old : pwmIOConfiguration_t)
    (hdist : ∀ i j, i < j → j < t.USABLE_TIMER_CHANNEL_COUNT → (∀ p, p ≤ j → setup p ≠ 0xFFFF) →
      timerIndexOf (setup i) ≠ timerIndexOf (setup j)) :
    (∀ a b k, a ≠ b → portChannel (pwmInitOn t init setup old).pwmIOConfiguration a = some k →
        portChannel (pwmInitOn t init setup old).pwmIOConfiguration b ≠ some k)
    ∧ ((pwmInitOn t init setup old).calls.filterMap Call.channel).Nodup := by
  have key := pwmInitLoop_induct t init setup
    (fun i s =>
      (∀ p, p < i → setup p ≠ 0xFFFF)
      ∧ (∀ a k, portChannel s.pwmIOConfiguration a = some k →
        ∃ j, j < i ∧ setup j ≠ 0xFFFF ∧ timerIndexOf (setup j) = k)
      ∧ (∀ a b k, a ≠ b → portChannel s.pwmIOConfiguration a = some k →
          portChannel s.pwmIOConfiguration b ≠ some k)
      ∧ (∀ k ∈ s.calls.filterMap Call.channel,
          ∃ j, j < i ∧ setup j ≠ 0xFFFF ∧ timerIndexOf (setup j) = k)
      ∧ (s.calls.filterMap Call.channel).Nodup)
    (by
      intro i s hP hi hne
      obtain ⟨hrun, hsrc, hinj, hcsrc, hnd⟩ := hP
      have hrun' : ∀ p, p ≤ i → setup p ≠ 0xFFFF := by
        intro p hp
        rcases Nat.lt_or_ge p i with h | h
        · exact hrun p h
        · have e : p = i := by omega
          rw [e]; exact hne
      have fresh : ∀ k, (∃ j, j < i ∧ setup j ≠ 0xFFFF ∧ timerIndexOf (setup j) = k) →
          k ≠ timerIndexOf (setup i) := by
        rintro k ⟨j, hj, _, rfl⟩
        exact hdist j i hj hi hrun'
      refine ⟨fun p hp => hrun' p (by omega), ?_, ?_, ?_, ?_⟩
      · intro a k hk
        rcases loopBody_portChannel t init (setup i) s a with h | ⟨_, h⟩
        · rw [h] at hk
          obtain ⟨j, hj, hjne, hjk⟩ := hsrc a k hk
          exact ⟨j, by omega, hjne, hjk⟩
        · rw [h] at hk
          exact ⟨i, by omega, hne, Option.some.inj hk⟩
      · intro a b k hab hak hbk
        rcases loopBody_portChannel t init (setup i) s a with ha | ⟨ha0, ha⟩
          <;> rcases loopBody_portChannel t init (setup i) s b with hb | ⟨hb0, hb⟩
        · rw [ha] at hak; rw [hb] at hbk
          exact hinj a b k hab hak hbk
        · rw [ha] at hak; rw [hb] at hbk
          exact fresh k (hsrc a k hak) (Option.some.inj hbk).symm
        · rw [ha] at hak; rw [hb] at hbk
          exact fresh k (hsrc b k hbk) (Option.some.inj hak).symm
        · exact hab (ha0.trans hb0.symm)
      · intro k hk
        rcases loopBody_channels t init (setup i) s with h | h
        · rw [h] at hk
          obtain ⟨j, hj, hjne, hjk⟩ := hcsrc k hk
          exact ⟨j, by omega, hjne, hjk⟩
        · rw [h, List.mem_append, List.mem_singleton] at hk
          rcases hk with hk | hk
          · obtain ⟨j, hj, hjne, hjk⟩ := hcsrc k hk
            exact ⟨j, by omega, hjne, hjk⟩
          · exact ⟨i, by omega, hne, hk.symm⟩
      · rcases loopBody_channels t init (setup i) s with h | h
        · rw [h]; exact hnd
        · rw [h]
          refine List.Nodup.append hnd (List.nodup_singleton _) ?_
          intro k hk1 hk2
          rw [List.mem_singleton] at hk2
          exact fresh k (hcsrc k hk1) hk2)
    t.USABLE_TIMER_CHANNEL_COUNT 0 (initialState t old)
    (by
      have h0 : ∀ a, portChannel (initialState t old).pwmIOConfiguration a = none := by
        intro a
        simp only [portChannel, initialState, memsetZero, List.getElem?_replicate]
        split_ifs <;> simp [zeroPort]
      refine ⟨fun p hp => absurd hp (Nat.not_lt_zero p), ?_, ?_, ?_, ?_⟩
      · intro a k hk; rw [h0] at hk; exact absurd hk (by simp)
      · intro a b k _ hk; rw [h0] at hk; exact absurd hk (by simp)
      · intro k hk; simp [initialState] at hk
      · simp [initialState])
  obtain ⟨j, _, _, _, _, h2, _, h4⟩ := key
  exact ⟨h2, h4⟩

/-- C2: for every build, configuration and hardware map whose entries (the
words at the positions below `USABLE_TIMER_CHANNEL_COUNT` and before the
first `0xFFFF`) have pairwise distinct channel indices, no two ports of the
IO configuration that `pwmInit` produces reference the same timer channel,
and no timer channel is handed to a configuration routine twice. -/
theorem pwmInit_no_channel_bound_twice (t : Target) (m : HardwareMapTables)
    (init : drv_pwm_config_t) (old : pwmIOConfiguration_t)
    (hdist : ∀ i j, i < j → j < t.USABLE_TIMER_CHANNEL_COUNT →
      (∀ p, p ≤ j → selectedMap m init p ≠ 0xFFFF) →
      timerIndexOf (selectedMap m init i) ≠ timerIndexOf (selectedMap m init j)) :
    (∀ a b k, a ≠ b → portChannel (pwmInit t m init old).pwmIOConfiguration a = some k →
        portChannel (pwmInit t m init old).pwmIOConfiguration b ≠ some k)
    ∧ ((pwmInit t m init old).calls.filterMap Call.channel).Nodup :=
  pwmInitOn_channels_distinct t init (selectedMap m init) old hdist

/-- C2 at the CC3D build, the sample maps and the PPM configuration. -/
theorem pwmInit_no_channel_bound_twice_witness :
    (∀ i j, i < j → j < cc3dTarget.USABLE_TIMER_CHANNEL_COUNT →
      (∀ p, p ≤ j → selectedMap sampleMaps ppmConfig p ≠ 0xFFFF) →
      timerIndexOf (selectedMap sampleMaps ppmConfig i)
        ≠ timerIndexOf (selectedMap sampleMaps ppmConfig j))
    ∧ (∀ a b k, a ≠ b →
        portChannel (pwmInit cc3dTarget sampleMaps ppmConfig staleIOConfiguration).pwmIOConfiguration
          a = some k →
        portChannel (pwmInit cc3dTarget sampleMaps ppmConfig staleIOConfiguration).pwmIOConfiguration
          b ≠ some k)
    ∧ ((pwmInit cc3dTarget sampleMaps ppmConfig staleIOConfiguration).calls.filterMap
        Call.channel) = [0, 6, 7, 8, 9, 10, 11] :=
  have hdist : ∀ i j, i < j → j < cc3dTarget.USABLE_TIMER_CHANNEL_COUNT →
      (∀ p, p ≤ j → selectedMap sampleMaps ppmConfig p ≠ 0xFFFF) →
      timerIndexOf (selectedMap sampleMaps ppmConfig i)
        ≠ timerIndexOf (selectedMap sampleMaps ppmConfig j) := by
    have key : ∀ j, j < 12 → ∀ i, i < j →
        selectedMap sampleMaps ppmConfig i ≠ 0xFFFF →
        selectedMap sampleMaps ppmConfig j ≠ 0xFFFF →
        timerIndexOf (selectedMap sampleMaps ppmConfig i)
          ≠ timerIndexOf (selectedMap sampleMaps ppmConfig j) := by decide
    exact fun i j hij hj hrun =>
      key j hj i hij (hrun i (Nat.le_of_lt hij)) (hrun j (Nat.le_refl j))
  ⟨hdist,
    (pwmInit_no_channel_bound_twice cc3dTarget sampleMaps ppmConfig staleIOConfiguration hdist).1,
    by decide⟩

/-! ## C8: remapping and the input roles -/

/-- Two values of `type` are in step when both are `MAP_TO_SERVO_OUTPUT` or
the first is still the base role `ty` and the second still
`MAP_TO_MOTOR_OUTPUT`. -/
theorem inStep_ite {c : Prop} [Decidable c] {ty a a' b b' : Nat}
    (ha : (a = MAP_TO_SERVO_OUTPUT ∧ a' = MAP_TO_SERVO_OUTPUT)
      ∨ (a = ty ∧ a' = MAP_TO_MOTOR_OUTPUT))
    (hb : (b = MAP_TO_SERVO_OUTPUT ∧ b' = MAP_TO_SERVO_OUTPUT)
      ∨ (b = ty ∧ b' = MAP_TO_MOTOR_OUTPUT)) :
    ((if c then a else b) = MAP_TO_SERVO_OUTPUT ∧ (if c then a' else b') = MAP_TO_SERVO_OUTPUT)
    ∨ ((if c then a else b) = ty ∧ (if c then a' else b') = MAP_TO_MOTOR_OUTPUT) := by
  by_cases h : c
  · simpa [h] using ha
  · simpa [h] using hb

/-- The board rules treat every base role as they treat `MAP_TO_MOTOR_OUTPUT`:
they test the channel index and the timer, never `type`. -/
theorem boardServoRemap_inStep (t : Target) (init : drv_pwm_config_t) (timerIndex ty : Nat) :
    (boardServoRemap t init timerIndex ty = MAP_TO_SERVO_OUTPUT
      ∧ boardServoRemap t init timerIndex MAP_TO_MOTOR_OUTPUT = MAP_TO_SERVO_OUTPUT)
    ∨ (boardServoRemap t init timerIndex ty = ty
      ∧ boardServoRemap t init timerIndex MAP_TO_MOTOR_OUTPUT = MAP_TO_MOTOR_OUTPUT) := by
  simp only [boardServoRemap]
  repeat' first
    | exact Or.inl ⟨rfl, rfl⟩
    | exact Or.inr ⟨rfl, rfl⟩
    | apply inStep_ite

/-- The channel forwarding rule treats every base role as it treats
`MAP_TO_MOTOR_OUTPUT`, also after the board rules. -/
theorem channelForwardingRemap_inStep (t : Target) (init : drv_pwm_config_t)
    (timerIndex ty a a' : Nat)
    (h : (a = MAP_TO_SERVO_OUTPUT ∧ a' = MAP_TO_SERVO_OUTPUT)
      ∨ (a = ty ∧ a' = MAP_TO_MOTOR_OUTPUT)) :
    (channelForwardingRemap t init timerIndex a = MAP_TO_SERVO_OUTPUT
      ∧ channelForwardingRemap t init timerIndex a' = MAP_TO_SERVO_OUTPUT)
    ∨ (channelForwardingRemap t init timerIndex a = ty
      ∧ channelForwardingRemap t init timerIndex a' = MAP_TO_MOTOR_OUTPUT) := by
  simp only [channelForwardingRemap]
  repeat' first
    | exact Or.inl ⟨rfl, rfl⟩
    | exact h
    | apply inStep_ite

/-- The whole remap block treats every base role as it treats
`MAP_TO_MOTOR_OUTPUT`. -/
theorem remapType_inStep (t : Target) (init : drv_pwm_config_t) (timerIndex ty : Nat) :
    (remapType t init timerIndex ty = MAP_TO_SERVO_OUTPUT
      ∧ remapType t init timerIndex MAP_TO_MOTOR_OUTPUT = MAP_TO_SERVO_OUTPUT)
    ∨ (remapType t init timerIndex ty = ty
      ∧ remapType t init timerIndex MAP_TO_MOTOR_OUTPUT = MAP_TO_MOTOR_OUTPUT) := by
  simp only [remapType]
  apply inStep_ite
  · apply inStep_ite
    · apply channelForwardingRemap_inStep
      apply inStep_ite
      · exact boardServoRemap_inStep t init timerIndex ty
      · exact Or.inr ⟨rfl, rfl⟩
    · apply inStep_ite
      · exact boardServoRemap_inStep t init timerIndex ty
      · exact Or.inr ⟨rfl, rfl⟩
  · exact Or.inr ⟨rfl, rfl⟩

/-- Without an active remap rule `type` keeps its value. -/
theorem remapType_inactive (t : Target) (init : drv_pwm_config_t) (timerIndex ty : Nat)
    (h : t.USE_SERVOS = false ∨ init.airplane = true
      ∨ (init.useServos = false ∧ init.useChannelForwarding = false)) :
    remapType t init timerIndex ty = ty := by
  simp only [remapType]
  rcases h with h | h | ⟨h1, h2⟩
  · simp [h]
  · simp [h]
  · simp [h1, h2]

/-- C8, as stated, fails: the remap rules test the channel index and the timer
but not the base role.  With the parallel PWM receiver and channel forwarding
enabled on a multirotor, the entry `PWM5 | (MAP_TO_PWM_INPUT << 8)` of the
sample map survives the exclusion tests and is bound as a servo output: its
port carries the servo flags, `pwmServoConfig` is called for it, and only four
of the six PWM input entries are counted as PWM inputs. -/
theorem pwm_input_bound_as_servo_by_channel_forwarding :
    typeOf (mapWord PWM5 MAP_TO_PWM_INPUT) = MAP_TO_PWM_INPUT
    ∧ selectedMap sampleMaps forwardingPwmConfig 4 = mapWord PWM5 MAP_TO_PWM_INPUT
    ∧ isExcluded cc3dTarget forwardingPwmConfig (timerIndexOf (mapWord PWM5 MAP_TO_PWM_INPUT))
        (typeOf (mapWord PWM5 MAP_TO_PWM_INPUT)) = false
    ∧ remapType cc3dTarget forwardingPwmConfig (timerIndexOf (mapWord PWM5 MAP_TO_PWM_INPUT))
        (typeOf (mapWord PWM5 MAP_TO_PWM_INPUT)) = MAP_TO_SERVO_OUTPUT
    ∧ (pwmInit cc3dTarget sampleMaps forwardingPwmConfig
        staleIOConfiguration).pwmIOConfiguration.ioConfigurations[4]?
      = some { index := 0, flags := PWM_PF_SERVO ||| PWM_PF_OUTPUT_PROTOCOL_PWM,
               timerHardware := some PWM5 }
    ∧ Call.pwmServoConfig PWM5 0 50 1500
        ∈ (pwmInit cc3dTarget sampleMaps forwardingPwmConfig staleIOConfiguration).calls
    ∧ (pwmInit cc3dTarget sampleMaps forwardingPwmConfig
        staleIOConfiguration).pwmIOConfiguration.pwmInputCount = 4
    ∧ (pwmInit cc3dTarget sampleMaps forwardingPwmConfig
        staleIOConfiguration).pwmIOConfiguration.servoCount = 4 := by
  decide

/-- C8 (amended): an entry whose base role is `MAP_TO_PPM_INPUT` or
`MAP_TO_PWM_INPUT` and that survives the exclusion tests is never bound as a
motor output.  Either it keeps its role and runs its own input branch, and
then a motor entry at the same channel index would stay a motor; or it is
turned into `MAP_TO_SERVO_OUTPUT` and runs the servo branch, and then a motor
entry at the same channel index would be turned into a servo as well (the
remap rules test the channel index and the timer, not the base role).  It
keeps its role whenever no remap rule is active: in a build without
`USE_SERVOS`, with `airplane` set, or with `useServos` and
`useChannelForwarding` both unset. -/
theorem input_role_kept_or_remapped_to_servo (t : Target) (init : drv_pwm_config_t) (w : Nat)
    (s : PwmState)
    (hin : typeOf w = MAP_TO_PPM_INPUT ∨ typeOf w = MAP_TO_PWM_INPUT)
    (hx : isExcluded t init (timerIndexOf w) (typeOf w) = false) :
    remapType t init (timerIndexOf w) (typeOf w) ≠ MAP_TO_MOTOR_OUTPUT
    ∧ ((remapType t init (timerIndexOf w) (typeOf w) = typeOf w
        ∧ remapType t init (timerIndexOf w) MAP_TO_MOTOR_OUTPUT = MAP_TO_MOTOR_OUTPUT
        ∧ loopBody t init w s
            = (if typeOf w = MAP_TO_PPM_INPUT then bindPpmInput t init (timerIndexOf w) s
               else bindPwmInput t (timerIndexOf w) s))
      ∨ (remapType t init (timerIndexOf w) (typeOf w) = MAP_TO_SERVO_OUTPUT
        ∧ remapType t init (timerIndexOf w) MAP_TO_MOTOR_OUTPUT = MAP_TO_SERVO_OUTPUT
        ∧ loopBody t init w s = bindServoOutput t init (timerIndexOf w) s))
    ∧ ((t.USE_SERVOS = false ∨ init.airplane = true
          ∨ (init.useServos = false ∧ init.useChannelForwarding = false)) →
        remapType t init (timerIndexOf w) (typeOf w) = typeOf w) := by
  have hne : typeOf w ≠ MAP_TO_MOTOR_OUTPUT ∧ typeOf w ≠ MAP_TO_SERVO_OUTPUT := by
    rcases hin with h | h <;> rw [h] <;> exact ⟨by decide, by decide⟩
  have hstep := remapType_inStep t init (timerIndexOf w) (typeOf w)
  refine ⟨?_, ?_, remapType_inactive t init (timerIndexOf w) (typeOf w)⟩
  · rcases hstep with ⟨h, _⟩ | ⟨h, _⟩
    · rw [h]; decide
    · rw [h]; exact hne.1
  · rcases hstep with ⟨h1, h2⟩ | ⟨h1, h2⟩
    · right
      refine ⟨h1, h2, ?_⟩
      simp [loopBody, dispatch, hx, h1, MAP_TO_SERVO_OUTPUT, MAP_TO_PPM_INPUT, MAP_TO_PWM_INPUT,
        MAP_TO_MOTOR_OUTPUT]
    · left
      refine ⟨h1, h2, ?_⟩
      rcases hin with h | h
      · rw [h] at hx h1
        simp [loopBody, dispatch, hx, h1, h]
      · rw [h] at hx h1
        have hpp : MAP_TO_PWM_INPUT ≠ MAP_TO_PPM_INPUT := by decide
        simp [loopBody, dispatch, hx, h1, h, hpp]

/-- C8 (amended) at the PPM entry of the sample map on the CC3D build with
servos enabled: the entry keeps its role. -/
theorem input_role_kept_or_remapped_to_servo_witness :
    (typeOf (mapWord PWM1 MAP_TO_PPM_INPUT) = MAP_TO_PPM_INPUT
      ∨ typeOf (mapWord PWM1 MAP_TO_PPM_INPUT) = MAP_TO_PWM_INPUT)
    ∧ isExcluded cc3dTarget { ppmConfig with useServos := true }
        (timerIndexOf (mapWord PWM1 MAP_TO_PPM_INPUT)) (typeOf (mapWord PWM1 MAP_TO_PPM_INPUT))
        = false
    ∧ remapType cc3dTarget { ppmConfig with useServos := true }
        (timerIndexOf (mapWord PWM1 MAP_TO_PPM_INPUT)) (typeOf (mapWord PWM1 MAP_TO_PPM_INPUT))
        ≠ MAP_TO_MOTOR_OUTPUT :=
  ⟨Or.inl (by decide), by decide,
    (input_role_kept_or_remapped_to_servo cc3dTarget { ppmConfig with useServos := true }
      (mapWord PWM1 MAP_TO_PPM_INPUT) (initialState cc3dTarget staleIOConfiguration)
      (Or.inl (by decide)) (by decide)).1⟩

/-! ## C9: the motor branch -/

/-- What the motor branch does to the state. -/
theorem bindMotorOutput_effect (t : Target) (init : drv_pwm_config_t) (k : Nat) (s : PwmState) :
    (bindMotorOutput t init k s).calls
        = s.calls ++ [motorCall t init k s.pwmIOConfiguration.motorCount]
    ∧ (bindMotorOutput t init k s).pwmIOConfiguration.ioConfigurations[
          s.pwmIOConfiguration.ioCount]?
        = (s.pwmIOConfiguration.ioConfigurations[s.pwmIOConfiguration.ioCount]?).map
            (fun _ => { index := s.pwmIOConfiguration.motorCount, flags := motorFlags t init,
                        timerHardware := some k })
    ∧ (bindMotorOutput t init k s).pwmIOConfiguration.motorCount
        = (s.pwmIOConfiguration.motorCount + 1) % 256
    ∧ (bindMotorOutput t init k s).pwmIOConfiguration.ioCount
        = (s.pwmIOConfiguration.ioCount + 1) % 256
    ∧ (bindMotorOutput t init k s).pwmIOConfiguration.servoCount
        = s.pwmIOConfiguration.servoCount
    ∧ (bindMotorOutput t init k s).pwmIOConfiguration.pwmInputCount
        = s.pwmIOConfiguration.pwmInputCount
    ∧ (bindMotorOutput t init k s).pwmIOConfiguration.ppmInputCount
        = s.pwmIOConfiguration.ppmInputCount := by
  simp only [bindMotorOutput, motorCall, motorFlags]
  split_ifs <;>
    simp [storePort_getElem?] <;>
    cases s.pwmIOConfiguration.ioConfigurations[s.pwmIOConfiguration.ioCount]? <;> simp

/-- An entry that is not excluded, resolves to a motor output and is not
skipped runs the motor branch. -/
theorem loopBody_motor (t : Target) (init : drv_pwm_config_t) (w : Nat) (s : PwmState)
    (hx : isExcluded t init (timerIndexOf w) (typeOf w) = false)
    (hty : remapType t init (timerIndexOf w) (typeOf w) = MAP_TO_MOTOR_OUTPUT)
    (hsk : motorSkipped t init (timerIndexOf w) = false) :
    loopBody t init w s = bindMotorOutput t init (timerIndexOf w) s := by
  have h1 : MAP_TO_MOTOR_OUTPUT ≠ MAP_TO_PPM_INPUT := by decide
  have h2 : MAP_TO_MOTOR_OUTPUT ≠ MAP_TO_PWM_INPUT := by decide
  simp [loopBody, dispatch, hx, hty, hsk, h1, h2]

/-- The loop run for `n + m` passes is the loop run for `n` passes and then
for `m` more, when the first `n` positions are all entered. -/
theorem pwmInitLoop_split (t : Target) (init : drv_pwm_config_t) (setup : Nat → Nat) :
    ∀ n m i s,
      (∀ j, i ≤ j → j < i + n → j < t.USABLE_TIMER_CHANNEL_COUNT ∧ setup j ≠ 0xFFFF) →
      pwmInitLoop t init setup (n + m) i s
        = pwmInitLoop t init setup m (i + n) (pwmInitLoop t init setup n i s) := by
  intro n
  induction n with
  | zero => intro m i s _; simp [pwmInitLoop]
  | succ n ih =>
    intro m i s h
    have h0 := h i (le_refl _) (by omega)
    have e : n + 1 + m = (n + m) + 1 := by omega
    rw [e, pwmInitLoop, if_pos h0, ih m (i + 1) _ (fun j h1 h2 => h j (by omega) (by omega))]
    conv_rhs => rw [pwmInitLoop, if_pos h0]
    have e2 : i + 1 + n = i + (n + 1) := by omega
    rw [e2]

/-- A pass leaves `motorCount` alone or increments it. -/
theorem loopBody_motorCount (t : Target) (init : drv_pwm_config_t) (w : Nat) (s : PwmState) :
    (loopBody t init w s).pwmIOConfiguration.motorCount = s.pwmIOConfiguration.motorCount
    ∨ (loopBody t init w s).pwmIOConfiguration.motorCount
        = (s.pwmIOConfiguration.motorCount + 1) % 256 := by
  rcases loopBody_cases t init w s with h | h | h | h | h <;> rw [h]
  · exact Or.inl rfl
  · left; simp only [bindPpmInput]; split_ifs <;> simp
  · left; simp only [bindPwmInput]; split_ifs <;> simp
  · exact Or.inr (bindMotorOutput_effect t init _ s).2.2.1
  · left; simp only [bindServoOutput]; split_ifs <;> simp

/-- Before position `k` the counters `ioCount` and `motorCount` are at most
`k`, and the array has its full length. -/
theorem stateBefore_bounded (t : Target) (init : drv_pwm_config_t) (setup : Nat → Nat)
    (old : pwmIOConfiguration_t) (k : Nat) :
    (stateBefore t init setup old k).pwmIOConfiguration.ioCount ≤ k
    ∧ (stateBefore t init setup old k).pwmIOConfiguration.motorCount ≤ k
    ∧ (stateBefore t init setup old k).pwmIOConfiguration.ioConfigurations.length
        = t.USABLE_TIMER_CHANNEL_COUNT := by
  have key := pwmInitLoop_induct t init setup
    (fun i s => s.pwmIOConfiguration.ioCount ≤ i ∧ s.pwmIOConfiguration.motorCount ≤ i
      ∧ s.pwmIOConfiguration.ioConfigurations.length = t.USABLE_TIMER_CHANNEL_COUNT)
    (by
      intro i s hP _ _
      obtain ⟨h1, h2, h3⟩ := hP
      refine ⟨?_, ?_, ?_⟩
      · rcases loopBody_ioCount t init (setup i) s with h | h <;> rw [h] <;> omega
      · rcases loopBody_motorCount t init (setup i) s with h | h <;> rw [h] <;> omega
      · rw [loopBody_length]; exact h3)
    k 0 (initialState t old)
    ⟨Nat.zero_le _, Nat.zero_le _, by simp [initialState, memsetZero]⟩
  obtain ⟨j, _, hj, h1, h2, h3⟩ := key
  unfold stateBefore
  exact ⟨by omega, by omega, h3⟩

/-- A pass only appends to the call log. -/
theorem loopBody_calls (t : Target) (init : drv_pwm_config_t) (w : Nat) (s : PwmState) :
    ∃ ext, (loopBody t init w s).calls = s.calls ++ ext := by
  rcases loopBody_cases t init w s with h | h | h | h | h <;> rw [h]
  · exact ⟨[], (List.append_nil _).symm⟩
  · simp only [bindPpmInput]
    split_ifs <;> simp only [storePort_calls, call_calls, incIoCount_calls,
      incPpmInputCount_calls, List.append_assoc] <;>
      first
        | exact ⟨[], (List.append_nil _).symm⟩
        | exact ⟨_, rfl⟩
  · simp only [bindPwmInput]
    split_ifs <;> simp only [storePort_calls, call_calls, incIoCount_calls,
      incPwmInputCount_calls, incChannelIndex_calls, List.append_assoc] <;>
      first
        | exact ⟨[], (List.append_nil _).symm⟩
        | exact ⟨_, rfl⟩
  · exact ⟨_, (bindMotorOutput_effect t init _ s).1⟩
  · simp only [bindServoOutput]
    split_ifs <;> simp only [storePort_calls, call_calls, incIoCount_calls,
      incServoCount_calls, List.append_assoc] <;>
      first
        | exact ⟨[], (List.append_nil _).symm⟩
        | exact ⟨_, rfl⟩

/-- On a board whose capacity fits the `uint8_t` counters, the rest of the
loop keeps the ports below `ioCount` and the calls made so far. -/
theorem pwmInitLoop_keeps (t : Target) (init : drv_pwm_config_t) (setup : Nat → Nat)
    (hcap : t.USABLE_TIMER_CHANNEL_COUNT ≤ 255) :
    ∀ fuel i s, s.pwmIOConfiguration.ioCount ≤ i →
      (∀ a, a < s.pwmIOConfiguration.ioCount →
        (pwmInitLoop t init setup fuel i s).pwmIOConfiguration.ioConfigurations[a]?
          = s.pwmIOConfiguration.ioConfigurations[a]?)
      ∧ (∃ ext, (pwmInitLoop t init setup fuel i s).calls = s.calls ++ ext) := by
  intro fuel
  induction fuel with
  | zero => intro i s _; exact ⟨fun _ _ => rfl, [], (List.append_nil _).symm⟩
  | succ n ih =>
    intro i s hle
    unfold pwmInitLoop
    split_ifs with hc
    · have hio : s.pwmIOConfiguration.ioCount
            ≤ (loopBody t init (setup i) s).pwmIOConfiguration.ioCount
          ∧ (loopBody t init (setup i) s).pwmIOConfiguration.ioCount ≤ i + 1 := by
        rcases loopBody_ioCount t init (setup i) s with h | h <;> rw [h] <;> omega
      obtain ⟨hp, ext, hext⟩ := ih (i + 1) (loopBody t init (setup i) s) hio.2
      obtain ⟨ext1, hext1⟩ := loopBody_calls t init (setup i) s
      refine ⟨?_, ext1 ++ ext, ?_⟩
      · intro a ha
        rw [hp a (by omega), loopBody_ports_other t init (setup i) s a (by omega)]
      · rw [hext, hext1, List.append_assoc]
    · exact ⟨fun _ _ => rfl, [], (List.append_nil _).symm⟩

/-- C9: let the loop of `pwmInit` reach position `k` of the hardware map, and
let the entry there be bound as a motor output (not excluded, `type` equal to
`MAP_TO_MOTOR_OUTPUT` after the remap block, not skipped by the `TIM2` test of
the CC3D build).  Then the pass for this entry makes exactly one call, of the
oneshot routine if `useOneshot`, else of the brushed routine if
`isMotorBrushed(motorPwmRate)`, else of the brushless routine (`motorCall`),
with the channel and the current `motorCount`; it records at
`ioConfigurations[ioCount]` the flags `MOTOR|ONESHOT|PROTOCOL_PWM`,
`MOTOR|BRUSHED|PROTOCOL_PWM` or `MOTOR|PROTOCOL_PWM` respectively
(`motorFlags`), the motor ordinal and the channel; and it increments
`motorCount` and `ioCount` by one on the `uint8_t` counters and leaves the
other role counters alone.  On a board whose capacity fits the counters the
increments do not wrap, and the port and the call are still there when
`pwmInit` returns. -/
theorem pwmInit_motor_dispatch (t : Target) (m : HardwareMapTables) (init : drv_pwm_config_t)
    (old : pwmIOConfiguration_t) (k : Nat)
    (hreach : ∀ j, j ≤ k → j < t.USABLE_TIMER_CHANNEL_COUNT ∧ selectedMap m init j ≠ 0xFFFF)
    (hx : isExcluded t init (timerIndexOf (selectedMap m init k))
      (typeOf (selectedMap m init k)) = false)
    (hty : remapType t init (timerIndexOf (selectedMap m init k))
      (typeOf (selectedMap m init k)) = MAP_TO_MOTOR_OUTPUT)
    (hsk : motorSkipped t init (timerIndexOf (selectedMap m init k)) = false) :
    let before := stateBefore t init (selectedMap m init) old k
    let after := stateBefore t init (selectedMap m init) old (k + 1)
    let channel := timerIndexOf (selectedMap m init k)
    let port : pwmPortConfiguration_t :=
      { index := before.pwmIOConfiguration.motorCount, flags := motorFlags t init,
        timerHardware := some channel }
    after.calls = before.calls ++ [motorCall t init channel before.pwmIOConfiguration.motorCount]
    ∧ after.pwmIOConfiguration.ioConfigurations[before.pwmIOConfiguration.ioCount]? = some port
    ∧ after.pwmIOConfiguration.motorCount = (before.pwmIOConfiguration.motorCount + 1) % 256
    ∧ after.pwmIOConfiguration.ioCount = (before.pwmIOConfiguration.ioCount + 1) % 256
    ∧ after.pwmIOConfiguration.servoCount = before.pwmIOConfiguration.servoCount
    ∧ after.pwmIOConfiguration.pwmInputCount = before.pwmIOConfiguration.pwmInputCount
    ∧ after.pwmIOConfiguration.ppmInputCount = before.pwmIOConfiguration.ppmInputCount
    ∧ (t.USABLE_TIMER_CHANNEL_COUNT ≤ 255 →
        after.pwmIOConfiguration.motorCount = before.pwmIOConfiguration.motorCount + 1
        ∧ after.pwmIOConfiguration.ioCount = before.pwmIOConfiguration.ioCount + 1
        ∧ (pwmInit t m init old).pwmIOConfiguration.ioConfigurations[
              before.pwmIOConfiguration.ioCount]? = some port
        ∧ ∃ ext, (pwmInit t m init old).calls
            = before.calls
              ++ motorCall t init channel before.pwmIOConfiguration.motorCount :: ext) := by
  intro before after channel port
  have hk := hreach k (le_refl _)
  have hb : before.pwmIOConfiguration.ioCount ≤ k ∧ before.pwmIOConfiguration.motorCount ≤ k
      ∧ before.pwmIOConfiguration.ioConfigurations.length = t.USABLE_TIMER_CHANNEL_COUNT :=
    stateBefore_bounded t init (selectedMap m init) old k
  have hb1 := hb.1
  have hb2 := hb.2.1
  have hk1 := hk.1
  have hstep : after = bindMotorOutput t init channel before := by
    show pwmInitLoop t init (selectedMap m init) (k + 1) 0 (initialState t old) = _
    rw [pwmInitLoop_succ t init (selectedMap m init) k 0 _
      (fun j _ h2 => hreach j (by omega)), Nat.zero_add]
    exact loopBody_motor t init _ _ hx hty hsk
  obtain ⟨e1, e2, e3, e4, e5, e6, e7⟩ := bindMotorOutput_effect t init channel before
  have hlt : before.pwmIOConfiguration.ioCount
      < before.pwmIOConfiguration.ioConfigurations.length := by
    rw [hb.2.2]; exact lt_of_le_of_lt hb.1 hk.1
  have hport : after.pwmIOConfiguration.ioConfigurations[before.pwmIOConfiguration.ioCount]?
      = some port := by
    rw [hstep, e2, List.getElem?_eq_getElem hlt]
    rfl
  refine ⟨by rw [hstep, e1], hport, by rw [hstep, e3], by rw [hstep, e4], by rw [hstep, e5],
    by rw [hstep, e6], by rw [hstep, e7], ?_⟩
  intro hcap
  have hio : after.pwmIOConfiguration.ioCount = before.pwmIOConfiguration.ioCount + 1 := by
    rw [hstep, e4]; omega
  have hmc : after.pwmIOConfiguration.motorCount = before.pwmIOConfiguration.motorCount + 1 := by
    rw [hstep, e3]; omega
  have hfinal : pwmInit t m init old
      = pwmInitLoop t init (selectedMap m init) (t.USABLE_TIMER_CHANNEL_COUNT - (k + 1))
          (k + 1) after := by
    show pwmInitLoop t init (selectedMap m init) t.USABLE_TIMER_CHANNEL_COUNT 0
      (initialState t old) = _
    have e : t.USABLE_TIMER_CHANNEL_COUNT
        = (k + 1) + (t.USABLE_TIMER_CHANNEL_COUNT - (k + 1)) := by omega
    conv_lhs => rw [e]
    rw [pwmInitLoop_split t init (selectedMap m init) (k + 1) _ 0 _
      (fun j _ h2 => hreach j (by omega)), Nat.zero_add]
    rfl
  have ha : after.pwmIOConfiguration.ioCount ≤ k + 1 :=
    (stateBefore_bounded t init (selectedMap m init) old (k + 1)).1
  obtain ⟨hkeep, ext, hext⟩ := pwmInitLoop_keeps t init (selectedMap m init) hcap
    (t.USABLE_TIMER_CHANNEL_COUNT - (k + 1)) (k + 1) after ha
  refine ⟨hmc, hio, ?_, ext, ?_⟩
  · rw [hfinal, hkeep _ (by omega), hport]
  · rw [hfinal, hext, hstep, e1, List.append_assoc]
    rfl

/-- C9 at the first motor entry (position 1, `PWM7`) of the sample PPM map on
the CC3D build with the oneshot protocol. -/
theorem pwmInit_motor_dispatch_witness :
    (∀ j, j ≤ 1 → j < cc3dTarget.USABLE_TIMER_CHANNEL_COUNT
        ∧ selectedMap sampleMaps oneshotPpmConfig j ≠ 0xFFFF)
    ∧ isExcluded cc3dTarget oneshotPpmConfig
        (timerIndexOf (selectedMap sampleMaps oneshotPpmConfig 1))
        (typeOf (selectedMap sampleMaps oneshotPpmConfig 1)) = false
    ∧ remapType cc3dTarget oneshotPpmConfig
        (timerIndexOf (selectedMap sampleMaps oneshotPpmConfig 1))
        (typeOf (selectedMap sampleMaps oneshotPpmConfig 1)) = MAP_TO_MOTOR_OUTPUT
    ∧ motorSkipped cc3dTarget oneshotPpmConfig
        (timerIndexOf (selectedMap sampleMaps oneshotPpmConfig 1)) = false
    ∧ (pwmInit cc3dTarget sampleMaps oneshotPpmConfig
        staleIOConfiguration).pwmIOConfiguration.ioConfigurations[1]?
      = some { index := 0,
               flags := PWM_PF_MOTOR ||| PWM_PF_OUTPUT_PROTOCOL_ONESHOT
                 ||| PWM_PF_OUTPUT_PROTOCOL_PWM,
               timerHardware := some PWM7 }
    ∧ (stateBefore cc3dTarget oneshotPpmConfig (selectedMap sampleMaps oneshotPpmConfig)
        staleIOConfiguration 2).calls
      = [Call.ppmInConfig PWM1, Call.pwmOneshotMotorConfig PWM7 0] :=
  ⟨by decide, by decide, by decide, by decide,
   ((pwmInit_motor_dispatch cc3dTarget sampleMaps oneshotPpmConfig staleIOConfiguration 1
      (by decide) (by decide) (by decide) (by decide)).2.2.2.2.2.2.2 (by decide)).2.2.1,
   (pwmInit_motor_dispatch cc3dTarget sampleMaps oneshotPpmConfig staleIOConfiguration 1
      (by decide) (by decide) (by decide) (by decide)).1⟩

/-! ## C3 and C10: what the input branches record -/

/-- C3 at a failing input: with the parallel PWM receiver enabled on the CC3D
build, the six PWM input entries of the sample map are bound (`pwmInputCount`
is 6, `pwmInConfig` gets the ordinals 0 to 5), but the `index` fields of the
six ports that carry `PWM_PF_PWM` are all 0: the PWM input branch writes only
the flags. -/
theorem pwm_input_ports_all_record_index_zero :
    (pwmInit cc3dTarget sampleMaps parallelPwmConfig
        staleIOConfiguration).pwmIOConfiguration.pwmInputCount = 6
    ∧ ((pwmInit cc3dTarget sampleMaps parallelPwmConfig
        staleIOConfiguration).pwmIOConfiguration.ioConfigurations.filter
          (fun p => p.flags == PWM_PF_PWM)).map (fun p => p.index) = [0, 0, 0, 0, 0, 0]
    ∧ (pwmInit cc3dTarget sampleMaps parallelPwmConfig staleIOConfiguration).calls.take 6
      = [Call.pwmInConfig PWM1 0, Call.pwmInConfig PWM2 1, Call.pwmInConfig PWM3 2,
         Call.pwmInConfig PWM4 3, Call.pwmInConfig PWM5 4, Call.pwmInConfig PWM6 5] := by
  decide

/-- C10 at a failing input: with the parallel PWM receiver enabled on the CC3D
build, the second entry of the sample map (`PWM2`, a PWM input) is bound with
capture ordinal 1 on channel `PWM2`, and the port appended for it holds the
flag `PWM_PF_PWM`, the index 0 and a `NULL` channel reference; likewise the
port of the PPM input of the PPM map holds a `NULL` channel reference.  The
motor port next to it records its ordinal and its channel. -/
theorem input_ports_record_no_ordinal_and_no_channel :
    (pwmInit cc3dTarget sampleMaps parallelPwmConfig staleIOConfiguration).calls[1]?
      = some (Call.pwmInConfig PWM2 1)
    ∧ (pwmInit cc3dTarget sampleMaps parallelPwmConfig
        staleIOConfiguration).pwmIOConfiguration.ioConfigurations[1]?
      = some { index := 0, flags := PWM_PF_PWM, timerHardware := none }
    ∧ (pwmInit cc3dTarget sampleMaps ppmConfig staleIOConfiguration).calls[0]?
      = some (Call.ppmInConfig PWM1)
    ∧ (pwmInit cc3dTarget sampleMaps ppmConfig
        staleIOConfiguration).pwmIOConfiguration.ioConfigurations[0]?
      = some { index := 0, flags := PWM_PF_PPM, timerHardware := none }
    ∧ (pwmInit cc3dTarget sampleMaps ppmConfig
        staleIOConfiguration).pwmIOConfiguration.ioConfigurations[2]?
      = some { index := 1, flags := PWM_PF_MOTOR ||| PWM_PF_OUTPUT_PROTOCOL_PWM,
               timerHardware := some PWM8 } := by
  decide

/-! ## The role branches in closed form -/

theorem bindMotorOutput_eq (t : Target) (init : drv_pwm_config_t) (k : Nat) (s : PwmState) :
    bindMotorOutput t init k s
      = { channelIndex := s.channelIndex
          pwmIOConfiguration :=
            { s.pwmIOConfiguration with
              motorCount := (s.pwmIOConfiguration.motorCount + 1) % 256
              ioCount := (s.pwmIOConfiguration.ioCount + 1) % 256
              ioConfigurations := s.pwmIOConfiguration.ioConfigurations.set
                s.pwmIOConfiguration.ioCount
                { index := s.pwmIOConfiguration.motorCount, flags := motorFlags t init,
                  timerHardware := some k } }
          calls := s.calls ++ [motorCall t init k s.pwmIOConfiguration.motorCount]
          stores := s.stores ++ [s.pwmIOConfiguration.ioCount, s.pwmIOConfiguration.ioCount,
            s.pwmIOConfiguration.ioCount] } := by
  simp only [bindMotorOutput, motorCall, motorFlags]
  by_cases h : s.pwmIOConfiguration.ioCount < s.pwmIOConfiguration.ioConfigurations.length
  · split_ifs <;>
      simp [storePort, call, incMotorCount, incIoCount, List.set_set, h]
  · have h' := not_lt.mp h
    split_ifs <;>
      simp [storePort, call, incMotorCount, incIoCount, List.set_eq_of_length_le h']

theorem bindServoOutput_eq (t : Target) (init : drv_pwm_config_t) (k : Nat) (s : PwmState)
    (hS : t.USE_SERVOS = true) :
    bindServoOutput t init k s
      = { channelIndex := s.channelIndex
          pwmIOConfiguration :=
            { s.pwmIOConfiguration with
              servoCount := (s.pwmIOConfiguration.servoCount + 1) % 256
              ioCount := (s.pwmIOConfiguration.ioCount + 1) % 256
              ioConfigurations := s.pwmIOConfiguration.ioConfigurations.set
                s.pwmIOConfiguration.ioCount
                { index := s.pwmIOConfiguration.servoCount,
                  flags := PWM_PF_SERVO ||| PWM_PF_OUTPUT_PROTOCOL_PWM,
                  timerHardware := some k } }
          calls := s.calls ++ [Call.pwmServoConfig k s.pwmIOConfiguration.servoCount
            init.servoPwmRate init.servoCenterPulse]
          stores := s.stores ++ [s.pwmIOConfiguration.ioCount, s.pwmIOConfiguration.ioCount,
            s.pwmIOConfiguration.ioCount] } := by
  simp only [bindServoOutput, hS, if_true]
  by_cases h : s.pwmIOConfiguration.ioCount < s.pwmIOConfiguration.ioConfigurations.length
  · simp [storePort, call, incServoCount, incIoCount, List.set_set, h]
  · have h' := not_lt.mp h
    simp [storePort, call, incServoCount, incIoCount, List.set_eq_of_length_le h']

theorem bindServoOutput_compiled_out (t : Target) (init : drv_pwm_config_t) (k : Nat)
    (s : PwmState) (hS : t.USE_SERVOS = false) :
    bindServoOutput t init k s = incIoCount s := by
  simp [bindServoOutput, hS]

/-- The calls of the PPM branch: the clash hooks of the build, then
`ppmInConfig`. -/
theorem bindPpmInput_eq (t : Target) (init : drv_pwm_config_t) (k : Nat) (s : PwmState)
    (hK : t.SKIP_RX_PWM_PPM = false) :
    bindPpmInput t init k s
      = { channelIndex := s.channelIndex
          pwmIOConfiguration :=
            { s.pwmIOConfiguration with
              ppmInputCount := (s.pwmIOConfiguration.ppmInputCount + 1) % 256
              ioCount := (s.pwmIOConfiguration.ioCount + 1) % 256
              ioConfigurations := s.pwmIOConfiguration.ioConfigurations.set
                s.pwmIOConfiguration.ioCount
                { s.pwmIOConfiguration.ioConfigurations.getD s.pwmIOConfiguration.ioCount
                    zeroPort with flags := PWM_PF_PPM } }
          calls := s.calls
            ++ ((if t.CC3D_PPM1 ∧ oneshotOrBrushed t init then
                  [Call.ppmAvoidPWMTimerClash k TIM4] else [])
              ++ ((if t.SPARKY ∧ oneshotOrBrushed t init then
                  [Call.ppmAvoidPWMTimerClash k TIM2] else [])
                ++ [Call.ppmInConfig k]))
          stores := s.stores ++ [s.pwmIOConfiguration.ioCount] } := by
  simp only [bindPpmInput, hK, Bool.false_eq_true, if_false]
  split_ifs <;> simp [storePort, call, incPpmInputCount, incIoCount]

theorem bindPpmInput_compiled_out (t : Target) (init : drv_pwm_config_t) (k : Nat)
    (s : PwmState) (hK : t.SKIP_RX_PWM_PPM = true) :
    bindPpmInput t init k s = incIoCount s := by
  simp [bindPpmInput, hK]

theorem bindPwmInput_eq (t : Target) (k : Nat) (s : PwmState)
    (hK : t.SKIP_RX_PWM_PPM = false) :
    bindPwmInput t k s
      = { channelIndex := s.channelIndex + 1
          pwmIOConfiguration :=
            { s.pwmIOConfiguration with
              pwmInputCount := (s.pwmIOConfiguration.pwmInputCount + 1) % 256
              ioCount := (s.pwmIOConfiguration.ioCount + 1) % 256
              ioConfigurations := s.pwmIOConfiguration.ioConfigurations.set
                s.pwmIOConfiguration.ioCount
                { s.pwmIOConfiguration.ioConfigurations.getD s.pwmIOConfiguration.ioCount
                    zeroPort with flags := PWM_PF_PWM } }
          calls := s.calls ++ [Call.pwmInConfig k s.channelIndex]
          stores := s.stores ++ [s.pwmIOConfiguration.ioCount] } := by
  simp only [bindPwmInput, hK, Bool.false_eq_true, if_false]
  simp [storePort, call, incPwmInputCount, incIoCount, incChannelIndex]

theorem bindPwmInput_compiled_out (t : Target) (k : Nat) (s : PwmState)
    (hK : t.SKIP_RX_PWM_PPM = true) :
    bindPwmInput t k s = incIoCount s := by
  simp [bindPwmInput, hK]

/-- The remap block turns `type` into `MAP_TO_SERVO_OUTPUT` or leaves it. -/
theorem remapType_eq_or (t : Target) (init : drv_pwm_config_t) (timerIndex ty : Nat) :
    remapType t init timerIndex ty = ty
    ∨ remapType t init timerIndex ty = MAP_TO_SERVO_OUTPUT := by
  rcases remapType_inStep t init timerIndex ty with ⟨h, _⟩ | ⟨h, _⟩
  · exact Or.inr h
  · exact Or.inl h

/-- What a pass does, by the exclusion tests and the role after the remap
block. -/
theorem loopBody_spec (t : Target) (init : drv_pwm_config_t) (w : Nat) (s : PwmState) :
    (isExcluded t init (timerIndexOf w) (typeOf w) = true ∧ loopBody t init w s = s)
    ∨ (isExcluded t init (timerIndexOf w) (typeOf w) = false
        ∧ remapType t init (timerIndexOf w) (typeOf w) = MAP_TO_PPM_INPUT
        ∧ loopBody t init w s = bindPpmInput t init (timerIndexOf w) s)
    ∨ (isExcluded t init (timerIndexOf w) (typeOf w) = false
        ∧ remapType t init (timerIndexOf w) (typeOf w) = MAP_TO_PWM_INPUT
        ∧ loopBody t init w s = bindPwmInput t (timerIndexOf w) s)
    ∨ (isExcluded t init (timerIndexOf w) (typeOf w) = false
        ∧ remapType t init (timerIndexOf w) (typeOf w) = MAP_TO_MOTOR_OUTPUT
        ∧ motorSkipped t init (timerIndexOf w) = true
        ∧ loopBody t init w s = s)
    ∨ (isExcluded t init (timerIndexOf w) (typeOf w) = false
        ∧ remapType t init (timerIndexOf w) (typeOf w) = MAP_TO_MOTOR_OUTPUT
        ∧ motorSkipped t init (timerIndexOf w) = false
        ∧ loopBody t init w s = bindMotorOutput t init (timerIndexOf w) s)
    ∨ (isExcluded t init (timerIndexOf w) (typeOf w) = false
        ∧ remapType t init (timerIndexOf w) (typeOf w) = MAP_TO_SERVO_OUTPUT
        ∧ loopBody t init w s = bindServoOutput t init (timerIndexOf w) s)
    ∨ (isExcluded t init (timerIndexOf w) (typeOf w) = false
        ∧ remapType t init (timerIndexOf w) (typeOf w) ≠ MAP_TO_PPM_INPUT
        ∧ remapType t init (timerIndexOf w) (typeOf w) ≠ MAP_TO_PWM_INPUT
        ∧ remapType t init (timerIndexOf w) (typeOf w) ≠ MAP_TO_MOTOR_OUTPUT
        ∧ remapType t init (timerIndexOf w) (typeOf w) ≠ MAP_TO_SERVO_OUTPUT
        ∧ loopBody t init w s = s) := by
  simp only [loopBody, dispatch]
  cases hx : isExcluded t init (timerIndexOf w) (typeOf w)
  · right
    simp only [Bool.false_eq_true, if_false]
    by_cases h1 : remapType t init (timerIndexOf w) (typeOf w) = MAP_TO_PPM_INPUT
    · left; exact ⟨trivial, h1, by rw [if_pos h1]⟩
    · right
      rw [if_neg h1]
      by_cases h2 : remapType t init (timerIndexOf w) (typeOf w) = MAP_TO_PWM_INPUT
      · left; exact ⟨trivial, h2, by rw [if_pos h2]⟩
      · right
        rw [if_neg h2]
        by_cases h3 : remapType t init (timerIndexOf w) (typeOf w) = MAP_TO_MOTOR_OUTPUT
        · rw [if_pos h3]
          cases hs : motorSkipped t init (timerIndexOf w)
          · right; left; exact ⟨trivial, h3, rfl, by simp⟩
          · left; exact ⟨trivial, h3, rfl, by simp⟩
        · right; right
          rw [if_neg h3]
          by_cases h4 : remapType t init (timerIndexOf w) (typeOf w) = MAP_TO_SERVO_OUTPUT
          · left; exact ⟨trivial, h4, by rw [if_pos h4]⟩
          · right; exact ⟨trivial, h1, h2, h3, h4, by rw [if_neg h4]⟩
  · left
    exact ⟨rfl, by simp⟩

/-! ## C19: entries with an unknown role -/

/-- A word whose role after the remap block is none of the four known roles
leaves the state as it is. -/
theorem loopBody_of_unknown_role (t : Target) (init : drv_pwm_config_t) (w : Nat) (s : PwmState)
    (h : hasKnownRole t init w = false) : loopBody t init w s = s := by
  simp only [hasKnownRole, Bool.or_eq_false_iff, beq_eq_false_iff_ne] at h
  obtain ⟨⟨⟨h1, h2⟩, h3⟩, h4⟩ := h
  simp [loopBody, dispatch, h1, h2, h3, h4]

/-- C19: an entry whose role after the remap block is none of
`MAP_TO_PPM_INPUT`, `MAP_TO_PWM_INPUT`, `MAP_TO_MOTOR_OUTPUT`,
`MAP_TO_SERVO_OUTPUT` leaves the whole state unchanged: no port is written, no
routine is called, no counter (`ioCount` included) is incremented.  The
entries after it are processed as if it were absent: on a hardware map that
fits the capacity (the words `l` before its sentinel), `pwmInit` returns the
same state as on the map with all such entries removed. -/
theorem pwmInit_unknown_role_skipped (t : Target) (init : drv_pwm_config_t)
    (old : pwmIOConfiguration_t) (m m' : HardwareMapTables) (l : List Nat)
    (hl : ∀ w ∈ l, w ≠ 0xFFFF) (hfit : l.length ≤ t.USABLE_TIMER_CHANNEL_COUNT)
    (hm : selectedMap m init = tableOfList l)
    (hm' : selectedMap m' init = tableOfList (l.filter (fun w => hasKnownRole t init w))) :
    (∀ w s, hasKnownRole t init w = false → loopBody t init w s = s)
    ∧ pwmInit t m' init old = pwmInit t m init old := by
  refine ⟨fun w s h => loopBody_of_unknown_role t init w s h, ?_⟩
  have hl' : ∀ w ∈ l.filter (fun w => hasKnownRole t init w), w ≠ 0xFFFF := fun w hw =>
    hl w (List.mem_filter.mp hw).1
  have hfit' : (l.filter (fun w => hasKnownRole t init w)).length
      ≤ t.USABLE_TIMER_CHANNEL_COUNT :=
    le_trans (List.length_filter_le _ _) hfit
  unfold pwmInit pwmInitOn
  rw [hm, hm', pwmInitLoop_tableOfList t init l hl hfit _ 0 _ (by omega),
    pwmInitLoop_tableOfList t init _ hl' hfit' _ 0 _ (by omega), List.drop_zero, List.drop_zero]
  apply foldl_filter_of_ignored
  intro s w hw
  exact loopBody_of_unknown_role t init w s hw

/-- C19 on the CC3D build with the PPM configuration: the stray word of the
sample map is skipped. -/
theorem pwmInit_unknown_role_skipped_witness :
    hasKnownRole cc3dTarget ppmConfig strayWord = false
    ∧ sampleStrayPPM.filter (fun w => hasKnownRole cc3dTarget ppmConfig w)
        = [mapWord PWM1 MAP_TO_PPM_INPUT, mapWord PWM7 MAP_TO_MOTOR_OUTPUT,
           mapWord PWM9 MAP_TO_MOTOR_OUTPUT]
    ∧ pwmInit cc3dTarget
        (uniformMaps (tableOfList
          (sampleStrayPPM.filter (fun w => hasKnownRole cc3dTarget ppmConfig w))))
        ppmConfig staleIOConfiguration
      = pwmInit cc3dTarget (uniformMaps (tableOfList sampleStrayPPM)) ppmConfig
          staleIOConfiguration
    ∧ (pwmInit cc3dTarget (uniformMaps (tableOfList sampleStrayPPM)) ppmConfig
        staleIOConfiguration).pwmIOConfiguration.ioCount = 3 :=
  ⟨by decide, by decide,
    (pwmInit_unknown_role_skipped cc3dTarget ppmConfig staleIOConfiguration
      (uniformMaps (tableOfList sampleStrayPPM))
      (uniformMaps (tableOfList
        (sampleStrayPPM.filter (fun w => hasKnownRole cc3dTarget ppmConfig w))))
      sampleStrayPPM (by decide) (by decide) rfl rfl).2,
    by decide⟩

/-! ## C20: motor outputs on `TIM2` in the CC3D build -/

/-- Ports with the flags of an input, of a servo or of no role are not motor
ports. -/
theorem isMotorPort_eq_false_of_flags {p : pwmPortConfiguration_t}
    (h : p.flags = PWM_PF_PPM ∨ p.flags = PWM_PF_PWM
      ∨ p.flags = PWM_PF_SERVO ||| PWM_PF_OUTPUT_PROTOCOL_PWM ∨ p.flags = PWM_PF_NONE) :
    isMotorPort p = false := by
  unfold isMotorPort
  rcases h with h | h | h | h <;> rw [h] <;> decide

/-- The new calls of a pass and its new ports, as far as motor bindings go: a
pass makes a motor call or writes a motor port only in the motor branch, for
the channel of its entry, and then the skip test has not fired. -/
theorem loopBody_motor_bindings (t : Target) (init : drv_pwm_config_t) (w : Nat) (s : PwmState) :
    (∀ c ∈ (loopBody t init w s).calls, c ∈ s.calls
      ∨ (motorSkipped t init (timerIndexOf w) = false
          ∧ ∃ ord, Call.motorBinding c = some (timerIndexOf w, ord))
      ∨ Call.motorBinding c = none)
    ∧ (∀ p ∈ (loopBody t init w s).pwmIOConfiguration.ioConfigurations,
        p ∈ s.pwmIOConfiguration.ioConfigurations
        ∨ (motorSkipped t init (timerIndexOf w) = false
            ∧ p.timerHardware = some (timerIndexOf w))
        ∨ isMotorPort p = false) := by
  rcases loopBody_spec t init w s with ⟨_, h⟩ | ⟨_, _, h⟩ | ⟨_, _, h⟩ | ⟨_, _, _, h⟩
    | ⟨_, _, hsk, h⟩ | ⟨_, _, h⟩ | ⟨_, _, _, _, _, h⟩ <;> rw [h]
  · exact ⟨fun c hc => Or.inl hc, fun p hp => Or.inl hp⟩
  · cases hK : t.SKIP_RX_PWM_PPM
    · rw [bindPpmInput_eq t init _ s hK]
      constructor
      · intro c hc
        simp only [List.mem_append, List.mem_singleton] at hc
        rcases hc with hc | hc | hc | hc
        · exact Or.inl hc
        · split_ifs at hc
          · rw [List.mem_singleton.mp hc]; exact Or.inr (Or.inr rfl)
          · exact absurd hc (List.not_mem_nil _)
        · split_ifs at hc
          · rw [List.mem_singleton.mp hc]; exact Or.inr (Or.inr rfl)
          · exact absurd hc (List.not_mem_nil _)
        · rw [hc]; exact Or.inr (Or.inr rfl)
      · intro p hp
        rcases List.mem_or_eq_of_mem_set hp with hp | hp
        · exact Or.inl hp
        · rw [hp]; exact Or.inr (Or.inr (isMotorPort_eq_false_of_flags (Or.inl rfl)))
    · rw [bindPpmInput_compiled_out t init _ s hK]
      exact ⟨fun c hc => Or.inl hc, fun p hp => Or.inl hp⟩
  · cases hK : t.SKIP_RX_PWM_PPM
    · rw [bindPwmInput_eq t _ s hK]
      constructor
      · intro c hc
        simp only [List.mem_append, List.mem_singleton] at hc
        rcases hc with hc | hc
        · exact Or.inl hc
        · rw [hc]; exact Or.inr (Or.inr rfl)
      · intro p hp
        rcases List.mem_or_eq_of_mem_set hp with hp | hp
        · exact Or.inl hp
        · rw [hp]; exact Or.inr (Or.inr (isMotorPort_eq_false_of_flags (Or.inr (Or.inl rfl))))
    · rw [bindPwmInput_compiled_out t _ s hK]
      exact ⟨fun c hc => Or.inl hc, fun p hp => Or.inl hp⟩
  · exact ⟨fun c hc => Or.inl hc, fun p hp => Or.inl hp⟩
  · rw [bindMotorOutput_eq]
    constructor
    · intro c hc
      simp only [List.mem_append, List.mem_singleton] at hc
      rcases hc with hc | hc
      · exact Or.inl hc
      · refine Or.inr (Or.inl ⟨hsk, s.pwmIOConfiguration.motorCount, ?_⟩)
        rw [hc]
        simp only [motorCall]
        split_ifs <;> rfl
    · intro p hp
      rcases List.mem_or_eq_of_mem_set hp with hp | hp
      · exact Or.inl hp
      · rw [hp]; exact Or.inr (Or.inl ⟨hsk, rfl⟩)
  · cases hS : t.USE_SERVOS
    · rw [bindServoOutput_compiled_out t init _ s hS]
      exact ⟨fun c hc => Or.inl hc, fun p hp => Or.inl hp⟩
    · rw [bindServoOutput_eq t init _ s hS]
      constructor
      · intro c hc
        simp only [List.mem_append, List.mem_singleton] at hc
        rcases hc with hc | hc
        · exact Or.inl hc
        · rw [hc]; exact Or.inr (Or.inr rfl)
      · intro p hp
        rcases List.mem_or_eq_of_mem_set hp with hp | hp
        · exact Or.inl hp
        · rw [hp]; exact Or.inr (Or.inr (isMotorPort_eq_false_of_flags (Or.inr (Or.inr (Or.inl rfl)))))
  · exact ⟨fun c hc => Or.inl hc, fun p hp => Or.inl hp⟩

/-- In the CC3D build without `CC3D_PPM1` and with the oneshot or a brushed
protocol, an entry that passes the skip test of the motor branch is not on
`TIM2`. -/
theorem tim_ne_TIM2_of_not_motorSkipped (t : Target) (init : drv_pwm_config_t) (k : Nat)
    (hcc : t.CC3D = true) (hppm1 : t.CC3D_PPM1 = false)
    (hob : init.useOneshot = true ∨ t.isMotorBrushed init.motorPwmRate = true)
    (h : motorSkipped t init k = false) : (t.timerHardware k).tim ≠ TIM2 := by
  have hob' : oneshotOrBrushed t init = true := by
    simp only [oneshotOrBrushed, Bool.or_eq_true]; exact hob
  simpa [motorSkipped, hcc, hppm1, hob'] using h

/-- C20: in the CC3D build without `CC3D_PPM1`, with `useOneshot` set or a
brushed motor rate, an entry on `TIM2` that survives the exclusion tests and
resolves to `MAP_TO_MOTOR_OUTPUT` leaves the whole state unchanged (no call,
no port, no counter), whereas one that resolves to `MAP_TO_SERVO_OUTPUT` runs
the servo branch, which in a build with `USE_SERVOS` calls `pwmServoConfig`
and increments `servoCount` and `ioCount`.  Hence in what `pwmInit` returns no
motor configuration call and no motor port is for a channel on `TIM2`. -/
theorem cc3d_tim2_motor_never_bound (t : Target) (m : HardwareMapTables)
    (init : drv_pwm_config_t) (old : pwmIOConfiguration_t)
    (hcc : t.CC3D = true) (hppm1 : t.CC3D_PPM1 = false)
    (hob : init.useOneshot = true ∨ t.isMotorBrushed init.motorPwmRate = true) :
    (∀ w s, (t.timerHardware (timerIndexOf w)).tim = TIM2 →
        isExcluded t init (timerIndexOf w) (typeOf w) = false →
        (remapType t init (timerIndexOf w) (typeOf w) = MAP_TO_MOTOR_OUTPUT →
          loopBody t init w s = s)
        ∧ (remapType t init (timerIndexOf w) (typeOf w) = MAP_TO_SERVO_OUTPUT →
            loopBody t init w s = bindServoOutput t init (timerIndexOf w) s
            ∧ (t.USE_SERVOS = true →
                (loopBody t init w s).calls
                    = s.calls ++ [Call.pwmServoConfig (timerIndexOf w)
                        s.pwmIOConfiguration.servoCount init.servoPwmRate
                        init.servoCenterPulse]
                ∧ (loopBody t init w s).pwmIOConfiguration.servoCount
                    = (s.pwmIOConfiguration.servoCount + 1) % 256
                ∧ (loopBody t init w s).pwmIOConfiguration.ioCount
                    = (s.pwmIOConfiguration.ioCount + 1) % 256)))
    ∧ (∀ c ∈ (pwmInit t m init old).calls, ∀ ch ord,
        Call.motorBinding c = some (ch, ord) → (t.timerHardware ch).tim ≠ TIM2)
    ∧ (∀ p ∈ (pwmInit t m init old).pwmIOConfiguration.ioConfigurations,
        isMotorPort p = true → ∀ ch, p.timerHardware = some ch →
          (t.timerHardware ch).tim ≠ TIM2) := by
  have hob' : oneshotOrBrushed t init = true := by
    simp only [oneshotOrBrushed, Bool.or_eq_true]; exact hob
  refine ⟨?_, ?_⟩
  · intro w s htim hx
    have hsk : motorSkipped t init (timerIndexOf w) = true := by
      simp [motorSkipped, hcc, hppm1, hob', htim]
    have h1 : MAP_TO_MOTOR_OUTPUT ≠ MAP_TO_PPM_INPUT := by decide
    have h2 : MAP_TO_MOTOR_OUTPUT ≠ MAP_TO_PWM_INPUT := by decide
    have h3 : MAP_TO_SERVO_OUTPUT ≠ MAP_TO_PPM_INPUT := by decide
    have h4 : MAP_TO_SERVO_OUTPUT ≠ MAP_TO_PWM_INPUT := by decide
    have h5 : MAP_TO_SERVO_OUTPUT ≠ MAP_TO_MOTOR_OUTPUT := by decide
    refine ⟨fun hty => by simp [loopBody, dispatch, hx, hty, hsk, h1, h2], fun hty => ?_⟩
    have hb : loopBody t init w s = bindServoOutput t init (timerIndexOf w) s := by
      simp [loopBody, dispatch, hx, hty, h3, h4, h5]
    refine ⟨hb, fun hS => ?_⟩
    rw [hb, bindServoOutput_eq t init _ s hS]
    exact ⟨rfl, rfl, rfl⟩
  · have key := pwmInitLoop_induct t init (selectedMap m init)
      (fun _ s =>
        (∀ c ∈ s.calls, ∀ ch ord,
          Call.motorBinding c = some (ch, ord) → (t.timerHardware ch).tim ≠ TIM2)
        ∧ (∀ p ∈ s.pwmIOConfiguration.ioConfigurations,
            isMotorPort p = true → ∀ ch, p.timerHardware = some ch →
              (t.timerHardware ch).tim ≠ TIM2))
      (by
        intro i s hP _ _
        obtain ⟨hc, hp⟩ := hP
        obtain ⟨hc', hp'⟩ := loopBody_motor_bindings t init (selectedMap m init i) s
        constructor
        · intro c hcm ch ord hb
          rcases hc' c hcm with h | ⟨hsk, o, h⟩ | h
          · exact hc c h ch ord hb
          · rw [h] at hb
            have e : timerIndexOf (selectedMap m init i) = ch :=
              congrArg Prod.fst (Option.some.inj hb)
            rw [← e]
            exact tim_ne_TIM2_of_not_motorSkipped t init _ hcc hppm1 hob hsk
          · rw [h] at hb; exact absurd hb (by simp)
        · intro p hpm hmot ch hch
          rcases hp' p hpm with h | ⟨hsk, h⟩ | h
          · exact hp p h hmot ch hch
          · rw [h] at hch
            rw [← Option.some.inj hch]
            exact tim_ne_TIM2_of_not_motorSkipped t init _ hcc hppm1 hob hsk
          · rw [h] at hmot; exact absurd hmot (by simp))
      t.USABLE_TIMER_CHANNEL_COUNT 0 (initialState t old)
      (by
        constructor
        · intro c hc; simp [initialState] at hc
        · intro p hp hmot
          simp only [initialState, memsetZero] at hp
          rw [List.eq_of_mem_replicate hp] at hmot
          exact absurd hmot (by decide))
    obtain ⟨j, _, _, h1, h2⟩ := key
    exact ⟨h1, h2⟩

/-- C20 on the CC3D build with the oneshot protocol: of the six motor entries
of the sample PPM map the one on `PWM12` (`TIM2`) is skipped, and the servo
entry on `PWM12` of the sample fixed wing map is bound. -/
theorem cc3d_tim2_motor_never_bound_witness :
    cc3dTarget.CC3D = true ∧ cc3dTarget.CC3D_PPM1 = false
    ∧ (cc3dTarget.timerHardware PWM12).tim = TIM2
    ∧ (pwmInit cc3dTarget sampleMaps oneshotPpmConfig staleIOConfiguration).calls.filterMap
        Call.motorBinding = [(PWM7, 0), (PWM8, 1), (PWM9, 2), (PWM10, 3), (PWM11, 4)]
    ∧ (pwmInit cc3dTarget sampleMaps oneshotAirPpmConfig staleIOConfiguration).calls.filterMap
        Call.servoBinding = [(PWM8, 0), (PWM9, 1), (PWM10, 2), (PWM11, 3), (PWM12, 4)]
    ∧ (∀ c ∈ (pwmInit cc3dTarget sampleMaps oneshotPpmConfig staleIOConfiguration).calls,
        ∀ ch ord, Call.motorBinding c = some (ch, ord) →
          (cc3dTarget.timerHardware ch).tim ≠ TIM2) :=
  ⟨rfl, rfl, by decide, by decide, by decide,
    (cc3d_tim2_motor_never_bound cc3dTarget sampleMaps oneshotPpmConfig staleIOConfiguration
      rfl rfl (Or.inl rfl)).2.1⟩

/-! ## C16: the board rule of the CC3D build -/

/-- With `CC3D` as the only board macro, the board rules turn `type` into
`MAP_TO_SERVO_OUTPUT` exactly on `PWM10` when that channel is on `TIM1`. -/
theorem boardServoRemap_cc3d (t : Target) (init : drv_pwm_config_t) (timerIndex ty : Nat)
    (hcc : t.CC3D = true)
    (hothers : t.NAZE = false ∧ t.COLIBRI_RACE = false ∧ t.LUX_RACE = false ∧ t.SPARKY = false
      ∧ t.SPRACINGF3 = false ∧ t.STM32F3DISCOVERY = false ∧ t.MOTOLAB = false) :
    boardServoRemap t init timerIndex ty
      = if timerIndex = PWM10 ∧ (t.timerHardware timerIndex).tim = TIM1 then
          MAP_TO_SERVO_OUTPUT
        else ty := by
  obtain ⟨h1, h2, h3, h4, h5, h6, h7⟩ := hothers
  simp [boardServoRemap, hcc, h1, h2, h3, h4, h5, h6, h7]

/-- Without an active board rule block the remap block is the channel
forwarding rule alone. -/
theorem remapType_without_board_rules (t : Target) (init : drv_pwm_config_t)
    (timerIndex ty : Nat) (hS : t.USE_SERVOS = true)
    (h : init.useServos = false ∨ init.airplane = true) :
    remapType t init timerIndex ty
      = if init.useChannelForwarding ∧ ¬ init.airplane then
          channelForwardingRemap t init timerIndex ty
        else ty := by
  simp only [remapType, hS, if_true]
  rcases h with h | h <;> simp [h]

/-- C16: on the CC3D build (`CC3D` the only board macro, `USE_SERVOS` defined, so
that `useServos` exists), an entry with base role `MAP_TO_MOTOR_OUTPUT` at
channel index `PWM10` on `TIM1` that survives the exclusion tests runs the
servo branch when `useServos` is set and `airplane` is not, and runs the motor
branch when `useServos` is unset or `airplane` is set.  The board rule changes
no entry at another channel index or on another timer, and when `useServos` is
unset or `airplane` is set no board rule is applied to any entry. -/
theorem cc3d_board_remap (t : Target) (init : drv_pwm_config_t) (w : Nat) (s : PwmState)
    (hcc : t.CC3D = true) (hS : t.USE_SERVOS = true)
    (hothers : t.NAZE = false ∧ t.COLIBRI_RACE = false ∧ t.LUX_RACE = false ∧ t.SPARKY = false
      ∧ t.SPRACINGF3 = false ∧ t.STM32F3DISCOVERY = false ∧ t.MOTOLAB = false)
    (hty : typeOf w = MAP_TO_MOTOR_OUTPUT) (hidx : timerIndexOf w = PWM10)
    (htim : (t.timerHardware PWM10).tim = TIM1)
    (hx : isExcluded t init (timerIndexOf w) (typeOf w) = false) :
    (init.useServos = true → init.airplane = false →
        remapType t init (timerIndexOf w) (typeOf w) = MAP_TO_SERVO_OUTPUT
        ∧ loopBody t init w s = bindServoOutput t init PWM10 s)
    ∧ (init.useServos = false ∨ init.airplane = true →
        remapType t init (timerIndexOf w) (typeOf w) = MAP_TO_MOTOR_OUTPUT
        ∧ loopBody t init w s = bindMotorOutput t init PWM10 s)
    ∧ (∀ timerIndex ty, (timerIndex ≠ PWM10 ∨ (t.timerHardware timerIndex).tim ≠ TIM1) →
        boardServoRemap t init timerIndex ty = ty)
    ∧ (init.useServos = false ∨ init.airplane = true → ∀ timerIndex ty,
        remapType t init timerIndex ty
          = if init.useChannelForwarding ∧ ¬ init.airplane then
              channelForwardingRemap t init timerIndex ty
            else ty) := by
  have hn : t.NAZE = false := hothers.1
  have c1 : MAP_TO_SERVO_OUTPUT ≠ MAP_TO_PPM_INPUT := by decide
  have c2 : MAP_TO_SERVO_OUTPUT ≠ MAP_TO_PWM_INPUT := by decide
  have c3 : MAP_TO_SERVO_OUTPUT ≠ MAP_TO_MOTOR_OUTPUT := by decide
  have c4 : MAP_TO_MOTOR_OUTPUT ≠ MAP_TO_PPM_INPUT := by decide
  have c5 : MAP_TO_MOTOR_OUTPUT ≠ MAP_TO_PWM_INPUT := by decide
  have hcf : ∀ ty, channelForwardingRemap t init PWM10 ty = ty := by
    intro ty
    have e1 : ¬ (PWM5 ≤ PWM10 ∧ PWM10 ≤ PWM8) := by decide
    simp [channelForwardingRemap, hn, e1]
  refine ⟨?_, ?_, ?_, ?_⟩
  · intro hsv hair
    have hr : remapType t init (timerIndexOf w) (typeOf w) = MAP_TO_SERVO_OUTPUT := by
      rw [hidx, hty]
      simp only [remapType, hS, if_true, hsv, hair, boardServoRemap_cc3d t init _ _ hcc hothers,
        htim]
      simp [hcf]
    refine ⟨hr, ?_⟩
    simp only [loopBody, dispatch, hx, hr]
    simp [c1, c2, c3, hidx]
  · intro h
    have hr : remapType t init (timerIndexOf w) (typeOf w) = MAP_TO_MOTOR_OUTPUT := by
      rw [hidx, hty, remapType_without_board_rules t init _ _ hS h]
      split_ifs
      · exact hcf _
      · rfl
    have hsk : motorSkipped t init PWM10 = false := by
      have e : TIM1 ≠ TIM2 := by decide
      simp [motorSkipped, htim, e]
    refine ⟨hr, ?_⟩
    simp only [loopBody, dispatch, hx, hr]
    simp [c4, c5, hidx, hsk]
  · intro timerIndex ty h
    rw [boardServoRemap_cc3d t init _ _ hcc hothers]
    rcases h with h | h
    · simp [h]
    · simp [h]
  · intro h timerIndex ty
    exact remapType_without_board_rules t init timerIndex ty hS h

/-- C16 on the sample CC3D board, whose `PWM10` is on `TIM1`, with servos
enabled. -/
theorem cc3d_board_remap_witness :
    typeOf (mapWord PWM10 MAP_TO_MOTOR_OUTPUT) = MAP_TO_MOTOR_OUTPUT
    ∧ timerIndexOf (mapWord PWM10 MAP_TO_MOTOR_OUTPUT) = PWM10
    ∧ (cc3dTarget.timerHardware PWM10).tim = TIM1
    ∧ remapType cc3dTarget { ppmConfig with useServos := true }
        (timerIndexOf (mapWord PWM10 MAP_TO_MOTOR_OUTPUT))
        (typeOf (mapWord PWM10 MAP_TO_MOTOR_OUTPUT)) = MAP_TO_SERVO_OUTPUT
    ∧ (pwmInit cc3dTarget sampleMaps { ppmConfig with useServos := true }
        staleIOConfiguration).calls.filterMap Call.servoBinding = [(PWM10, 0)]
    ∧ (pwmInit cc3dTarget sampleMaps ppmConfig staleIOConfiguration).calls.filterMap
        Call.servoBinding = [] :=
  ⟨by decide, by decide, by decide,
    ((cc3d_board_remap cc3dTarget { ppmConfig with useServos := true }
      (mapWord PWM10 MAP_TO_MOTOR_OUTPUT) (initialState cc3dTarget staleIOConfiguration)
      rfl rfl ⟨rfl, rfl, rfl, rfl, rfl, rfl, rfl⟩ (by decide) (by decide) (by decide)
      (by decide)).1 rfl rfl).1,
    by decide, by decide⟩

/-! ## C15: the channel forwarding rule -/

/-- Without the LED strip exception the channel forwarding rule turns `type`
into `MAP_TO_SERVO_OUTPUT` exactly on `PWM5` to `PWM8`. -/
theorem channelForwardingRemap_plain (t : Target) (init : drv_pwm_config_t)
    (timerIndex ty : Nat)
    (hled : ¬ (t.NAZE = true ∧ t.LED_STRIP_TIMER.isSome = true ∧ init.useLEDStrip = true)) :
    channelForwardingRemap t init timerIndex ty
      = if PWM5 ≤ timerIndex ∧ timerIndex ≤ PWM8 then MAP_TO_SERVO_OUTPUT else ty := by
  simp only [channelForwardingRemap]
  by_cases h1 : t.NAZE = true ∧ t.LED_STRIP_TIMER.isSome = true
  · have h2 : ¬ init.useLEDStrip = true := fun h => hled ⟨h1.1, h1.2, h⟩
    rw [if_pos h1, if_neg h2]
  · rw [if_neg h1]

/-- The remap block with channel forwarding switched off in the
configuration. -/
theorem remapType_forwarding_off (t : Target) (init : drv_pwm_config_t) (timerIndex ty : Nat) :
    remapType t { init with useChannelForwarding := false } timerIndex ty
      = if t.USE_SERVOS then
          (if init.useServos ∧ ¬ init.airplane then boardServoRemap t init timerIndex ty else ty)
        else ty := by
  simp [remapType, boardServoRemap]

/-- C15: in a build with `USE_SERVOS` (so that `useChannelForwarding` exists):
when `useChannelForwarding` is set, `airplane` is not and the LED strip
exception of the NAZE build does not apply, every entry with base role
`MAP_TO_MOTOR_OUTPUT` and channel index in `PWM5` to `PWM8` that survives the
exclusion tests runs the servo branch, and for an entry at any other channel
index the remap block gives the role it gives with channel forwarding
switched off; when `useChannelForwarding` is unset or `airplane` is set, the
remap block gives every entry the role it gives with channel forwarding
switched off. -/
theorem channel_forwarding_remap (t : Target) (init : drv_pwm_config_t)
    (hS : t.USE_SERVOS = true) :
    (init.useChannelForwarding = true → init.airplane = false →
      ¬ (t.NAZE = true ∧ t.LED_STRIP_TIMER.isSome = true ∧ init.useLEDStrip = true) →
      (∀ w s, typeOf w = MAP_TO_MOTOR_OUTPUT → PWM5 ≤ timerIndexOf w → timerIndexOf w ≤ PWM8 →
        isExcluded t init (timerIndexOf w) (typeOf w) = false →
        remapType t init (timerIndexOf w) (typeOf w) = MAP_TO_SERVO_OUTPUT
        ∧ loopBody t init w s = bindServoOutput t init (timerIndexOf w) s)
      ∧ (∀ timerIndex ty, ¬ (PWM5 ≤ timerIndex ∧ timerIndex ≤ PWM8) →
          remapType t init timerIndex ty
            = remapType t { init with useChannelForwarding := false } timerIndex ty))
    ∧ (init.useChannelForwarding = false ∨ init.airplane = true → ∀ timerIndex ty,
        remapType t init timerIndex ty
          = remapType t { init with useChannelForwarding := false } timerIndex ty) := by
  have c1 : MAP_TO_SERVO_OUTPUT ≠ MAP_TO_PPM_INPUT := by decide
  have c2 : MAP_TO_SERVO_OUTPUT ≠ MAP_TO_PWM_INPUT := by decide
  have c3 : MAP_TO_SERVO_OUTPUT ≠ MAP_TO_MOTOR_OUTPUT := by decide
  refine ⟨?_, ?_⟩
  · intro hcf hair hled
    refine ⟨?_, ?_⟩
    · intro w s _ h5 h8 hx
      have hr : remapType t init (timerIndexOf w) (typeOf w) = MAP_TO_SERVO_OUTPUT := by
        simp only [remapType, hS, if_true, hcf, hair, channelForwardingRemap_plain t init _ _ hled]
        simp [h5, h8]
      refine ⟨hr, ?_⟩
      simp only [loopBody, dispatch, hx, hr]
      simp [c1, c2, c3]
    · intro timerIndex ty hout
      rw [remapType_forwarding_off]
      simp only [remapType, hS, if_true, hcf, hair, channelForwardingRemap_plain t init _ _ hled]
      simp [hout]
  · intro h timerIndex ty
    rw [remapType_forwarding_off]
    simp only [remapType, hS, if_true]
    rcases h with h | h <;> simp [h]

/-- C15 on the CC3D build with channel forwarding enabled: the motor entry on
`PWM7` of the sample PPM map is bound as a servo, the others stay motors. -/
theorem channel_forwarding_remap_witness :
    cc3dTarget.USE_SERVOS = true
    ∧ remapType cc3dTarget { ppmConfig with useChannelForwarding := true }
        (timerIndexOf (mapWord PWM7 MAP_TO_MOTOR_OUTPUT))
        (typeOf (mapWord PWM7 MAP_TO_MOTOR_OUTPUT)) = MAP_TO_SERVO_OUTPUT
    ∧ (pwmInit cc3dTarget sampleMaps { ppmConfig with useChannelForwarding := true }
        staleIOConfiguration).calls.filterMap Call.servoBinding = [(PWM7, 0), (PWM8, 1)]
    ∧ (pwmInit cc3dTarget sampleMaps { ppmConfig with useChannelForwarding := true }
        staleIOConfiguration).calls.filterMap Call.motorBinding
        = [(PWM9, 0), (PWM10, 1), (PWM11, 2), (PWM12, 3)] :=
  ⟨rfl,
    (((channel_forwarding_remap cc3dTarget { ppmConfig with useChannelForwarding := true }
      rfl).1 rfl rfl (by decide)).1 (mapWord PWM7 MAP_TO_MOTOR_OUTPUT)
      (initialState cc3dTarget staleIOConfiguration) (by decide) (by decide) (by decide)
      (by decide)).1,
    by decide, by decide⟩

/-! ## C17: the clash hook -/

/-- The calls that a pass adds when its entry is not bound as a PPM input
contain no call of the clash hook. -/
theorem loopBody_no_hook_unless_ppm (t : Target) (init : drv_pwm_config_t) (w : Nat)
    (s : PwmState)
    (h : ¬ (isExcluded t init (timerIndexOf w) (typeOf w) = false
      ∧ remapType t init (timerIndexOf w) (typeOf w) = MAP_TO_PPM_INPUT)) :
    ∃ ext, (loopBody t init w s).calls = s.calls ++ ext
      ∧ ∀ c ∈ ext, Call.isClashHook c = false := by
  rcases loopBody_spec t init w s with ⟨_, e⟩ | ⟨hx, hr, _⟩ | ⟨_, _, e⟩ | ⟨_, _, _, e⟩
    | ⟨_, _, _, e⟩ | ⟨_, _, e⟩ | ⟨_, _, _, _, _, e⟩
  · exact ⟨[], by rw [e, List.append_nil], fun c hc => absurd hc (List.not_mem_nil _)⟩
  · exact absurd ⟨hx, hr⟩ h
  · cases hK : t.SKIP_RX_PWM_PPM
    · rw [e, bindPwmInput_eq t _ s hK]
      exact ⟨_, rfl, fun c hc => by rw [List.mem_singleton.mp hc]; rfl⟩
    · rw [e, bindPwmInput_compiled_out t _ s hK]
      exact ⟨[], (List.append_nil _).symm, fun c hc => absurd hc (List.not_mem_nil _)⟩
  · exact ⟨[], by rw [e, List.append_nil], fun c hc => absurd hc (List.not_mem_nil _)⟩
  · rw [e, bindMotorOutput_eq]
    refine ⟨_, rfl, fun c hc => ?_⟩
    rw [List.mem_singleton.mp hc]
    simp only [motorCall]
    split_ifs <;> rfl
  · cases hS : t.USE_SERVOS
    · rw [e, bindServoOutput_compiled_out t init _ s hS]
      exact ⟨[], (List.append_nil _).symm, fun c hc => absurd hc (List.not_mem_nil _)⟩
    · rw [e, bindServoOutput_eq t init _ s hS]
      exact ⟨_, rfl, fun c hc => by rw [List.mem_singleton.mp hc]; rfl⟩
  · exact ⟨[], by rw [e, List.append_nil], fun c hc => absurd hc (List.not_mem_nil _)⟩

/-- C17: in a build that is either the CC3D build with `CC3D_PPM1` or the
SPARKY build, and that compiles the receiver branches, the pass for an entry
that is bound as a PPM input (not excluded, `type` equal to
`MAP_TO_PPM_INPUT` after the remap block) makes these calls and no others:
one call of `ppmAvoidPWMTimerClash` for the entry's channel (with `TIM4` on
CC3D, `TIM2` on SPARKY) if `useOneshot` is set or the motor rate is brushed,
and none otherwise; then the call of `ppmInConfig` for the entry's channel.
The pass for any other entry, excluded or of another role, makes no call of
the hook. -/
theorem ppm_clash_hook (t : Target) (init : drv_pwm_config_t) (w : Nat) (s : PwmState)
    (hK : t.SKIP_RX_PWM_PPM = false)
    (hboard : (t.CC3D_PPM1 = true ∧ t.SPARKY = false)
      ∨ (t.CC3D_PPM1 = false ∧ t.SPARKY = true)) :
    (isExcluded t init (timerIndexOf w) (typeOf w) = false →
      remapType t init (timerIndexOf w) (typeOf w) = MAP_TO_PPM_INPUT →
      (loopBody t init w s).calls
        = s.calls
          ++ (if init.useOneshot = true ∨ t.isMotorBrushed init.motorPwmRate = true then
                [Call.ppmAvoidPWMTimerClash (timerIndexOf w)
                  (if t.CC3D_PPM1 then TIM4 else TIM2)]
              else [])
          ++ [Call.ppmInConfig (timerIndexOf w)])
    ∧ (¬ (isExcluded t init (timerIndexOf w) (typeOf w) = false
          ∧ remapType t init (timerIndexOf w) (typeOf w) = MAP_TO_PPM_INPUT) →
        ∃ ext, (loopBody t init w s).calls = s.calls ++ ext
          ∧ ∀ c ∈ ext, Call.isClashHook c = false) := by
  refine ⟨?_, loopBody_no_hook_unless_ppm t init w s⟩
  intro hx hr
  have hb : loopBody t init w s = bindPpmInput t init (timerIndexOf w) s := by
    simp [loopBody, dispatch, hx, hr]
  rw [hb, bindPpmInput_eq t init _ s hK]
  have hob : oneshotOrBrushed t init = true
      ↔ (init.useOneshot = true ∨ t.isMotorBrushed init.motorPwmRate = true) := by
    simp [oneshotOrBrushed]
  rcases hboard with ⟨h1, h2⟩ | ⟨h1, h2⟩
  · by_cases h : init.useOneshot = true ∨ t.isMotorBrushed init.motorPwmRate = true
    · simp [h1, h2, hob.mpr h, h]
    · have h' : ¬ oneshotOrBrushed t init = true := fun x => h (hob.mp x)
      simp [h1, h2, h', h]
  · by_cases h : init.useOneshot = true ∨ t.isMotorBrushed init.motorPwmRate = true
    · simp [h1, h2, hob.mpr h, h]
    · have h' : ¬ oneshotOrBrushed t init = true := fun x => h (hob.mp x)
      simp [h1, h2, h', h]

/-- C17 on the CC3D build with `CC3D_PPM1` and the oneshot protocol: the hook
is called once, right before `ppmInConfig`. -/
theorem ppm_clash_hook_witness :
    cc3dPpm1Target.SKIP_RX_PWM_PPM = false
    ∧ cc3dPpm1Target.CC3D_PPM1 = true ∧ cc3dPpm1Target.SPARKY = false
    ∧ (loopBody cc3dPpm1Target oneshotPpmConfig (mapWord PWM1 MAP_TO_PPM_INPUT)
        (initialState cc3dPpm1Target staleIOConfiguration)).calls
      = [Call.ppmAvoidPWMTimerClash PWM1 TIM4, Call.ppmInConfig PWM1]
    ∧ (pwmInit cc3dPpm1Target sampleMaps oneshotPpmConfig staleIOConfiguration).calls.filter
        Call.isClashHook = [Call.ppmAvoidPWMTimerClash PWM1 TIM4]
    ∧ (pwmInit cc3dPpm1Target sampleMaps ppmConfig staleIOConfiguration).calls.filter
        Call.isClashHook = [] :=
  ⟨rfl, rfl, rfl,
    (ppm_clash_hook cc3dPpm1Target oneshotPpmConfig (mapWord PWM1 MAP_TO_PPM_INPUT)
      (initialState cc3dPpm1Target staleIOConfiguration) rfl (Or.inl ⟨rfl, rfl⟩)).1
      (by decide) (by decide),
    by decide, by decide⟩

/-! ## C14: disabled receiver roles -/

/-- An entry that survives the exclusion tests with base role
`MAP_TO_PWM_INPUT` needs `useParallelPWM`, and one with base role
`MAP_TO_PPM_INPUT` needs `usePPM`. -/
theorem isExcluded_false_receiver (t : Target) (init : drv_pwm_config_t) (timerIndex ty : Nat)
    (h : isExcluded t init timerIndex ty = false) :
    (ty = MAP_TO_PWM_INPUT → init.useParallelPWM = true)
    ∧ (ty = MAP_TO_PPM_INPUT → init.usePPM = true) := by
  simp only [isExcluded, Bool.or_eq_false_iff] at h
  obtain ⟨⟨_, h1⟩, h2⟩ := h
  constructor
  · intro e
    subst e
    simpa using h1
  · intro e
    subst e
    simpa using h2

/-- The flags of a motor port contain neither receiver flag. -/
theorem motorFlags_no_receiver_flag (t : Target) (init : drv_pwm_config_t) :
    motorFlags t init &&& PWM_PF_PWM = 0 ∧ motorFlags t init &&& PWM_PF_PPM = 0 := by
  simp only [motorFlags]
  split_ifs <;> exact ⟨by decide, by decide⟩

/-- A pass keeps "no port carries the flag `f`" when the flags that the four
branches write do not contain `f`, except for the branch whose flag it is. -/
theorem loopBody_receiver_flag (t : Target) (init : drv_pwm_config_t) (w : Nat) (s : PwmState)
    (flag : Nat) (role : Nat) (count : pwmIOConfiguration_t → Nat)
    (hrole : (flag = PWM_PF_PWM ∧ role = MAP_TO_PWM_INPUT
        ∧ count = pwmIOConfiguration_t.pwmInputCount)
      ∨ (flag = PWM_PF_PPM ∧ role = MAP_TO_PPM_INPUT
        ∧ count = pwmIOConfiguration_t.ppmInputCount))
    (hoff : isExcluded t init (timerIndexOf w) (typeOf w) = false →
      remapType t init (timerIndexOf w) (typeOf w) ≠ role)
    (h0 : count s.pwmIOConfiguration = 0)
    (hp : ∀ p ∈ s.pwmIOConfiguration.ioConfigurations, p.flags &&& flag = 0) :
    count (loopBody t init w s).pwmIOConfiguration = 0
    ∧ ∀ p ∈ (loopBody t init w s).pwmIOConfiguration.ioConfigurations, p.flags &&& flag = 0 := by
  have hset : ∀ (k : Nat) (q : pwmPortConfiguration_t), q.flags &&& flag = 0 →
      ∀ p ∈ s.pwmIOConfiguration.ioConfigurations.set k q, p.flags &&& flag = 0 := by
    intro k q hq p hmem
    rcases List.mem_or_eq_of_mem_set hmem with h | h
    · exact hp p h
    · rw [h]; exact hq
  rcases loopBody_spec t init w s with ⟨_, e⟩ | ⟨hx, hr, e⟩ | ⟨hx, hr, e⟩ | ⟨_, _, _, e⟩
    | ⟨_, _, _, e⟩ | ⟨_, _, e⟩ | ⟨_, _, _, _, _, e⟩
  · rw [e]; exact ⟨h0, hp⟩
  · cases hK : t.SKIP_RX_PWM_PPM
    · rw [e, bindPpmInput_eq t init _ s hK]
      rcases hrole with ⟨hf, hro, hc⟩ | ⟨hf, hro, hc⟩
      · subst hf hc
        exact ⟨h0, hset _ _ (show PWM_PF_PPM &&& PWM_PF_PWM = 0 by decide)⟩
      · exact absurd (hr.trans hro.symm) (hoff hx)
    · rw [e, bindPpmInput_compiled_out t init _ s hK]
      rcases hrole with ⟨_, _, hc⟩ | ⟨_, _, hc⟩ <;> subst hc <;> exact ⟨h0, hp⟩
  · cases hK : t.SKIP_RX_PWM_PPM
    · rw [e, bindPwmInput_eq t _ s hK]
      rcases hrole with ⟨hf, hro, hc⟩ | ⟨hf, hro, hc⟩
      · exact absurd (hr.trans hro.symm) (hoff hx)
      · subst hf hc
        exact ⟨h0, hset _ _ (show PWM_PF_PWM &&& PWM_PF_PPM = 0 by decide)⟩
    · rw [e, bindPwmInput_compiled_out t _ s hK]
      rcases hrole with ⟨_, _, hc⟩ | ⟨_, _, hc⟩ <;> subst hc <;> exact ⟨h0, hp⟩
  · rw [e]; exact ⟨h0, hp⟩
  · rw [e, bindMotorOutput_eq]
    rcases hrole with ⟨hf, _, hc⟩ | ⟨hf, _, hc⟩
    · subst hf hc
      exact ⟨h0, hset _ _ (motorFlags_no_receiver_flag t init).1⟩
    · subst hf hc
      exact ⟨h0, hset _ _ (motorFlags_no_receiver_flag t init).2⟩
  · cases hS : t.USE_SERVOS
    · rw [e, bindServoOutput_compiled_out t init _ s hS]
      rcases hrole with ⟨_, _, hc⟩ | ⟨_, _, hc⟩ <;> subst hc <;> exact ⟨h0, hp⟩
    · rw [e, bindServoOutput_eq t init _ s hS]
      rcases hrole with ⟨hf, _, hc⟩ | ⟨hf, _, hc⟩
      · subst hf hc
        exact ⟨h0, hset _ _
          (show (PWM_PF_SERVO ||| PWM_PF_OUTPUT_PROTOCOL_PWM) &&& PWM_PF_PWM = 0 by decide)⟩
      · subst hf hc
        exact ⟨h0, hset _ _
          (show (PWM_PF_SERVO ||| PWM_PF_OUTPUT_PROTOCOL_PWM) &&& PWM_PF_PPM = 0 by decide)⟩
  · rw [e]; exact ⟨h0, hp⟩

/-- With the receiver role switched off, no surviving entry has that role
after the remap block. -/
theorem remapType_ne_receiver (t : Target) (init : drv_pwm_config_t) (w : Nat) :
    (init.useParallelPWM = false →
      isExcluded t init (timerIndexOf w) (typeOf w) = false →
      remapType t init (timerIndexOf w) (typeOf w) ≠ MAP_TO_PWM_INPUT)
    ∧ (init.usePPM = false →
      isExcluded t init (timerIndexOf w) (typeOf w) = false →
      remapType t init (timerIndexOf w) (typeOf w) ≠ MAP_TO_PPM_INPUT) := by
  constructor
  · intro hoff hx hr
    rcases remapType_eq_or t init (timerIndexOf w) (typeOf w) with h | h
    · have := (isExcluded_false_receiver t init _ _ hx).1 (h.symm.trans hr)
      rw [hoff] at this
      exact Bool.false_ne_true this
    · rw [h] at hr
      exact absurd hr (by decide)
  · intro hoff hx hr
    rcases remapType_eq_or t init (timerIndexOf w) (typeOf w) with h | h
    · have := (isExcluded_false_receiver t init _ _ hx).2 (h.symm.trans hr)
      rw [hoff] at this
      exact Bool.false_ne_true this
    · rw [h] at hr
      exact absurd hr (by decide)

/-- C14: for every build, hardware map table, configuration and previous
content of the global: if `useParallelPWM` is false, `pwmInit` returns with
`pwmInputCount == 0` and no port of `ioConfigurations` has `PWM_PF_PWM` in its
flags; if `usePPM` is false (whatever `useSerialRx` is, which alone selects
the PPM table), it returns with `ppmInputCount == 0` and no port has
`PWM_PF_PPM` in its flags. -/
theorem pwmInit_disabled_receiver_roles (t : Target) (m : HardwareMapTables)
    (init : drv_pwm_config_t) (old : pwmIOConfiguration_t) :
    (init.useParallelPWM = false →
      (pwmInit t m init old).pwmIOConfiguration.pwmInputCount = 0
      ∧ ∀ p ∈ (pwmInit t m init old).pwmIOConfiguration.ioConfigurations,
          p.flags &&& PWM_PF_PWM = 0)
    ∧ (init.usePPM = false →
      (pwmInit t m init old).pwmIOConfiguration.ppmInputCount = 0
      ∧ ∀ p ∈ (pwmInit t m init old).pwmIOConfiguration.ioConfigurations,
          p.flags &&& PWM_PF_PPM = 0) := by
  have hinit : ∀ (flag : Nat),
      ∀ p ∈ (initialState t old).pwmIOConfiguration.ioConfigurations, p.flags &&& flag = 0 := by
    intro flag p hp
    simp only [initialState, memsetZero] at hp
    rw [List.eq_of_mem_replicate hp]
    simp [zeroPort, PWM_PF_NONE]
  constructor
  · intro hoff
    obtain ⟨_, _, _, h⟩ := pwmInitLoop_induct t init (selectedMap m init)
      (fun _ s => s.pwmIOConfiguration.pwmInputCount = 0
        ∧ ∀ p ∈ s.pwmIOConfiguration.ioConfigurations, p.flags &&& PWM_PF_PWM = 0)
      (fun i s hP _ _ => loopBody_receiver_flag t init _ s PWM_PF_PWM MAP_TO_PWM_INPUT
        pwmIOConfiguration_t.pwmInputCount (Or.inl ⟨rfl, rfl, rfl⟩)
        ((remapType_ne_receiver t init _).1 hoff) hP.1 hP.2)
      t.USABLE_TIMER_CHANNEL_COUNT 0 (initialState t old) ⟨rfl, hinit _⟩
    exact h
  · intro hoff
    obtain ⟨_, _, _, h⟩ := pwmInitLoop_induct t init (selectedMap m init)
      (fun _ s => s.pwmIOConfiguration.ppmInputCount = 0
        ∧ ∀ p ∈ s.pwmIOConfiguration.ioConfigurations, p.flags &&& PWM_PF_PPM = 0)
      (fun i s hP _ _ => loopBody_receiver_flag t init _ s PWM_PF_PPM MAP_TO_PPM_INPUT
        pwmIOConfiguration_t.ppmInputCount (Or.inr ⟨rfl, rfl, rfl⟩)
        ((remapType_ne_receiver t init _).2 hoff) hP.1 hP.2)
      t.USABLE_TIMER_CHANNEL_COUNT 0 (initialState t old) ⟨rfl, hinit _⟩
    exact h

/-! ## C12: the battery voltage ADC pin -/

/-- C12 fails on the CC3D build.  `pwmInit` tests the battery voltage pin
under `#ifdef VBAT_ADC_GPIO` (pwm_mapping.c, lines 159 to 163), and the CC3D
`target.h` defines `VBAT_ADC_PIN PA0` but not `VBAT_ADC_GPIO`.  In every build
without `VBAT_ADC_GPIO` the flag `useVbat` changes no exclusion; on the CC3D
build with `useVbat` set, the motor entry on `PWM5` (channel 4, pin `PA0`) is
not excluded: `pwmInit` configures it as motor 0, and returns
`motorCount = 7` and `ioCount = 8` for the one PPM input and seven motor
entries of the map; with the parallel PWM map the receiver input on `PWM5` is
captured all the same.  In a build that defines `VBAT_ADC_GPIO` for the pin of
an entry, the entry is excluded as the claim says (the pass changes nothing),
and the same map gives `motorCount = 6`, `ioCount = 7` with channel 4
absent. -/
theorem cc3d_vbat_pin_not_excluded :
    (∀ (t : Target) (init : drv_pwm_config_t) (timerIndex ty : Nat),
      t.VBAT_ADC_GPIO = none →
      isExcluded t init timerIndex ty
        = isExcluded t { init with useVbat := false } timerIndex ty)
    ∧ cc3dTarget.VBAT_ADC_GPIO = none
    ∧ (sampleTimerHardware PWM5).tag = 0x10
    ∧ vbatPpmConfig.useVbat = true
    ∧ isExcluded cc3dTarget vbatPpmConfig PWM5 MAP_TO_MOTOR_OUTPUT = false
    ∧ (pwmInit cc3dTarget (uniformMaps (tableOfList sampleVbatPPM)) vbatPpmConfig
        staleIOConfiguration).calls.filterMap Call.motorBinding
      = [(PWM5, 0), (PWM7, 1), (PWM8, 2), (PWM9, 3), (PWM10, 4), (PWM11, 5), (PWM12, 6)]
    ∧ (pwmInit cc3dTarget (uniformMaps (tableOfList sampleVbatPPM)) vbatPpmConfig
        staleIOConfiguration).pwmIOConfiguration.motorCount = 7
    ∧ (pwmInit cc3dTarget (uniformMaps (tableOfList sampleVbatPPM)) vbatPpmConfig
        staleIOConfiguration).pwmIOConfiguration.ioCount = 8
    ∧ (pwmInit cc3dTarget sampleMaps { parallelPwmConfig with useVbat := true }
        staleIOConfiguration).calls.filterMap Call.pwmBinding
      = [(PWM1, 0), (PWM2, 1), (PWM3, 2), (PWM4, 3), (PWM5, 4), (PWM6, 5)]
    ∧ (∀ (t : Target) (init : drv_pwm_config_t) (w gpio : Nat) (s : PwmState),
      t.VBAT_ADC_GPIO = some gpio → init.useVbat = true →
      t.IO_GPIOBYTAG (t.timerHardware (timerIndexOf w)).tag = gpio →
      t.IO_PINBYTAG (t.timerHardware (timerIndexOf w)).tag = t.VBAT_ADC_GPIO_PIN →
      isExcluded t init (timerIndexOf w) (typeOf w) = true ∧ loopBody t init w s = s)
    ∧ (pwmInit cc3dWithVbatGpioTarget (uniformMaps (tableOfList sampleVbatPPM)) vbatPpmConfig
        staleIOConfiguration).calls.filterMap Call.motorBinding
      = [(PWM7, 0), (PWM8, 1), (PWM9, 2), (PWM10, 3), (PWM11, 4), (PWM12, 5)]
    ∧ (pwmInit cc3dWithVbatGpioTarget (uniformMaps (tableOfList sampleVbatPPM)) vbatPpmConfig
        staleIOConfiguration).pwmIOConfiguration.motorCount = 6
    ∧ (pwmInit cc3dWithVbatGpioTarget (uniformMaps (tableOfList sampleVbatPPM)) vbatPpmConfig
        staleIOConfiguration).pwmIOConfiguration.ioCount = 7 := by
  refine ⟨?_, rfl, rfl, rfl, by decide, by decide, by decide, by decide, by decide, ?_,
    by decide, by decide, by decide⟩
  · intro t init timerIndex ty h
    simp only [isExcluded, h]
  · intro t init w gpio s hg hv h1 h2
    have hx : isExcluded t init (timerIndexOf w) (typeOf w) = true := by
      simp [isExcluded, hg, hv, h1, h2]
    exact ⟨hx, loopBody_of_isExcluded t init w s hx⟩

/-! ## The loop as a fold over the visited entries -/

theorem pwmInitLoop_eq_foldl (t : Target) (init : drv_pwm_config_t) (setup : Nat → Nat) :
    ∀ fuel i s, pwmInitLoop t init setup fuel i s
      = (scannedFrom t setup fuel i).foldl (fun s w => loopBody t init w s) s := by
  intro fuel
  induction fuel with
  | zero => intro i s; rfl
  | succ n ih =>
    intro i s
    unfold pwmInitLoop scannedFrom
    split_ifs with hc
    · rw [ih, List.foldl_cons]
    · rfl

theorem scannedFrom_length_le (t : Target) (setup : Nat → Nat) :
    ∀ fuel i, (scannedFrom t setup fuel i).length ≤ fuel := by
  intro fuel
  induction fuel with
  | zero => intro i; simp [scannedFrom]
  | succ n ih =>
    intro i
    unfold scannedFrom
    split_ifs with hc
    · simp only [List.length_cons]
      exact Nat.succ_le_succ (ih _)
    · simp

theorem mapEntries_length_le (t : Target) (setup : Nat → Nat) :
    (mapEntries t setup).length ≤ t.USABLE_TIMER_CHANNEL_COUNT :=
  scannedFrom_length_le t setup _ _

theorem pwmInitOn_eq_foldl (t : Target) (init : drv_pwm_config_t) (setup : Nat → Nat)
    (old : pwmIOConfiguration_t) :
    pwmInitOn t init setup old
      = (mapEntries t setup).foldl (fun s w => loopBody t init w s) (initialState t old) :=
  pwmInitLoop_eq_foldl t init setup _ _ _

/-- On the array of a list without sentinel words that fits the capacity, the
loop visits the words of the list. -/
theorem scannedFrom_tableOfList (t : Target) (l : List Nat)
    (hl : ∀ w ∈ l, w ≠ 0xFFFF) (hfit : l.length ≤ t.USABLE_TIMER_CHANNEL_COUNT) :
    ∀ fuel i, l.length ≤ i + fuel → scannedFrom t (tableOfList l) fuel i = l.drop i := by
  intro fuel
  induction fuel with
  | zero =>
    intro i h
    rw [List.drop_eq_nil_of_le (by omega)]
    rfl
  | succ n ih =>
    intro i h
    rcases Nat.lt_or_ge i l.length with hi | hi
    · have hw : tableOfList l i = l[i] := by
        simp [tableOfList, List.getD_eq_getElem?_getD, List.getElem?_eq_getElem hi]
      unfold scannedFrom
      rw [if_pos ⟨by omega, by rw [hw]; exact hl _ (List.getElem_mem _)⟩, ih (i + 1) (by omega),
        hw]
      exact (List.drop_eq_getElem_cons hi).symm
    · have hw : tableOfList l i = 0xFFFF := by
        simp [tableOfList, List.getD_eq_getElem?_getD, List.getElem?_eq_none hi]
      unfold scannedFrom
      rw [if_neg (by rw [hw]; simp), List.drop_eq_nil_of_le hi]

theorem mapEntries_tableOfList (t : Target) (l : List Nat)
    (hl : ∀ w ∈ l, w ≠ 0xFFFF) (hfit : l.length ≤ t.USABLE_TIMER_CHANNEL_COUNT) :
    mapEntries t (tableOfList l) = l := by
  rw [mapEntries, scannedFrom_tableOfList t l hl hfit _ _ (by omega), List.drop_zero]

/-- What a pass does, by the branch that it enters. -/
theorem loopBody_by_role (t : Target) (init : drv_pwm_config_t) (w : Nat) (s : PwmState) :
    (dispatchedRole t init w = none ∧ loopBody t init w s = s)
    ∨ (dispatchedRole t init w = some MAP_TO_PPM_INPUT
        ∧ loopBody t init w s = bindPpmInput t init (timerIndexOf w) s)
    ∨ (dispatchedRole t init w = some MAP_TO_PWM_INPUT
        ∧ loopBody t init w s = bindPwmInput t (timerIndexOf w) s)
    ∨ (dispatchedRole t init w = some MAP_TO_MOTOR_OUTPUT
        ∧ loopBody t init w s = bindMotorOutput t init (timerIndexOf w) s)
    ∨ (dispatchedRole t init w = some MAP_TO_SERVO_OUTPUT
        ∧ loopBody t init w s = bindServoOutput t init (timerIndexOf w) s) := by
  rcases loopBody_spec t init w s with ⟨hx, e⟩ | ⟨hx, hr, e⟩ | ⟨hx, hr, e⟩ | ⟨hx, hr, hm, e⟩
    | ⟨hx, hr, hm, e⟩ | ⟨hx, hr, e⟩ | ⟨hx, h1, h2, h3, h4, e⟩
  · exact Or.inl ⟨by simp [dispatchedRole, hx], e⟩
  · exact Or.inr (Or.inl ⟨by simp [dispatchedRole, hx, hr], e⟩)
  · exact Or.inr (Or.inr (Or.inl ⟨by
      simp [dispatchedRole, hx, hr, MAP_TO_PWM_INPUT, MAP_TO_PPM_INPUT], e⟩))
  · exact Or.inl ⟨by
      simp [dispatchedRole, hx, hr, hm, MAP_TO_PWM_INPUT, MAP_TO_PPM_INPUT, MAP_TO_MOTOR_OUTPUT],
      e⟩
  · exact Or.inr (Or.inr (Or.inr (Or.inl ⟨by
      simp [dispatchedRole, hx, hr, hm, MAP_TO_PWM_INPUT, MAP_TO_PPM_INPUT, MAP_TO_MOTOR_OUTPUT],
      e⟩)))
  · exact Or.inr (Or.inr (Or.inr (Or.inr ⟨by
      simp [dispatchedRole, hx, hr, MAP_TO_PWM_INPUT, MAP_TO_PPM_INPUT, MAP_TO_MOTOR_OUTPUT,
        MAP_TO_SERVO_OUTPUT], e⟩)))
  · exact Or.inl ⟨by simp [dispatchedRole, hx, h1, h2, h3, h4], e⟩

theorem withOrdinals_snoc (l : List Nat) (x : Nat) :
    withOrdinals (l ++ [x]) = withOrdinals l ++ [(x, l.length)] := by
  simp only [withOrdinals, List.length_append, List.length_singleton, List.range_succ]
  rw [List.zip_append (by simp)]
  rfl

theorem withOrdinals_length (l : List Nat) : (withOrdinals l).length = l.length := by
  simp [withOrdinals]

theorem withOrdinals_getElem? (l : List Nat) (k x : Nat) (h : l[k]? = some x) :
    (withOrdinals l)[k]? = some (x, k) := by
  have hk : k < l.length := by
    by_contra hc
    rw [List.getElem?_eq_none (not_lt.mp hc)] at h
    exact Option.noConfusion h
  simp only [withOrdinals, List.getElem?_zip_eq_some]
  exact ⟨h, by simp [List.getElem?_range hk]⟩

theorem channelsBoundAs_snoc (t : Target) (init : drv_pwm_config_t) (role : Nat) (l : List Nat)
    (w : Nat) :
    channelsBoundAs t init role (l ++ [w])
      = channelsBoundAs t init role l
        ++ (if boundRole t init w = some role then [timerIndexOf w] else []) := by
  simp only [channelsBoundAs, List.filter_append, List.map_append]
  by_cases h : boundRole t init w = some role
  · simp [h]
  · simp [h]

theorem channelsBoundAs_length_le (t : Target) (init : drv_pwm_config_t) (role : Nat)
    (l : List Nat) : (channelsBoundAs t init role l).length ≤ l.length := by
  simp only [channelsBoundAs, List.length_map]
  exact List.length_filter_le _ _

theorem set_append_replicate (W : List pwmPortConfiguration_t) (n : Nat)
    (p : pwmPortConfiguration_t) :
    (W ++ List.replicate (n + 1) zeroPort).set W.length p
      = (W ++ [p]) ++ List.replicate n zeroPort := by
  rw [List.set_append_right _ _ (le_refl _)]
  simp [List.replicate_succ]

theorem getD_append_replicate (W : List pwmPortConfiguration_t) (n : Nat) :
    (W ++ List.replicate (n + 1) zeroPort).getD W.length zeroPort = zeroPort := by
  rw [List.getD_eq_getElem?_getD, List.getElem?_append_right (le_refl _)]
  simp [List.replicate_succ]

theorem motorBinding_motorCall (t : Target) (init : drv_pwm_config_t) (k i : Nat) :
    Call.motorBinding (motorCall t init k i) = some (k, i)
    ∧ Call.servoBinding (motorCall t init k i) = none
    ∧ Call.pwmBinding (motorCall t init k i) = none := by
  simp only [motorCall]
  split_ifs <;> exact ⟨rfl, rfl, rfl⟩

theorem isMotorPort_motorFlags (t : Target) (init : drv_pwm_config_t) (i : Nat)
    (h : Option Nat) :
    isMotorPort { index := i, flags := motorFlags t init, timerHardware := h } = true
    ∧ isServoPort { index := i, flags := motorFlags t init, timerHardware := h } = false := by
  simp only [motorFlags, isMotorPort, isServoPort]
  split_ifs <;> exact ⟨by decide, by decide⟩

theorem isMotorPort_of_flags (i f : Nat) (h : Option Nat) :
    isMotorPort { index := i, flags := f, timerHardware := h } = (f &&& PWM_PF_MOTOR != 0)
    ∧ isServoPort { index := i, flags := f, timerHardware := h } = (f &&& PWM_PF_SERVO != 0) :=
  ⟨rfl, rfl⟩

/-- Writing the port at `ioCount` extends the written part of the array. -/
theorem ports_step (cap : Nat) (ports W : List pwmPortConfiguration_t) (io : Nat)
    (p : pwmPortConfiguration_t)
    (hW : ports = W ++ List.replicate (cap - W.length) zeroPort) (hlt : W.length < cap)
    (hio : W.length = io) :
    ports.set io p = (W ++ [p]) ++ List.replicate (cap - (W ++ [p]).length) zeroPort
    ∧ ports.getD io zeroPort = zeroPort
    ∧ ports = (W ++ [zeroPort]) ++ List.replicate (cap - (W ++ [zeroPort]).length) zeroPort := by
  obtain ⟨n, hn⟩ : ∃ n, cap - W.length = n + 1 := ⟨cap - W.length - 1, by omega⟩
  have hn' : ∀ q : pwmPortConfiguration_t, cap - (W ++ [q]).length = n := by
    intro q
    simp only [List.length_append, List.length_singleton]
    omega
  subst hio
  rw [hW, hn, hn', hn']
  refine ⟨set_append_replicate W n p, getD_append_replicate W n, ?_⟩
  simp [List.replicate_succ]

theorem boundRole_of_dispatched (t : Target) (init : drv_pwm_config_t) (w : Nat) :
    (dispatchedRole t init w = none → boundRole t init w = none)
    ∧ (dispatchedRole t init w = some MAP_TO_MOTOR_OUTPUT →
        boundRole t init w = some MAP_TO_MOTOR_OUTPUT)
    ∧ (dispatchedRole t init w = some MAP_TO_SERVO_OUTPUT →
        boundRole t init w = if t.USE_SERVOS then some MAP_TO_SERVO_OUTPUT else none)
    ∧ (dispatchedRole t init w = some MAP_TO_PWM_INPUT →
        boundRole t init w = if t.SKIP_RX_PWM_PPM then none else some MAP_TO_PWM_INPUT)
    ∧ (dispatchedRole t init w = some MAP_TO_PPM_INPUT →
        boundRole t init w = if t.SKIP_RX_PWM_PPM then none else some MAP_TO_PPM_INPUT) := by
  refine ⟨?_, ?_, ?_, ?_, ?_⟩ <;> intro h
  · simp [boundRole, h]
  · simp [boundRole, h, branchCompiled, MAP_TO_MOTOR_OUTPUT, MAP_TO_PPM_INPUT, MAP_TO_PWM_INPUT,
      MAP_TO_SERVO_OUTPUT]
  · cases hS : t.USE_SERVOS <;>
      simp [boundRole, h, branchCompiled, MAP_TO_MOTOR_OUTPUT, MAP_TO_PPM_INPUT,
        MAP_TO_PWM_INPUT, MAP_TO_SERVO_OUTPUT, hS]
  · cases hK : t.SKIP_RX_PWM_PPM <;>
      simp [boundRole, h, branchCompiled, MAP_TO_MOTOR_OUTPUT, MAP_TO_PPM_INPUT,
        MAP_TO_PWM_INPUT, MAP_TO_SERVO_OUTPUT, hK]
  · cases hK : t.SKIP_RX_PWM_PPM <;>
      simp [boundRole, h, branchCompiled, MAP_TO_MOTOR_OUTPUT, MAP_TO_PPM_INPUT,
        MAP_TO_PWM_INPUT, MAP_TO_SERVO_OUTPUT, hK]

theorem ppm_calls_bindings (c1 c2 : Prop) [Decidable c1] [Decidable c2] (k : Nat) :
    ((if c1 then [Call.ppmAvoidPWMTimerClash k TIM4] else [])
        ++ ((if c2 then [Call.ppmAvoidPWMTimerClash k TIM2] else [])
          ++ [Call.ppmInConfig k])).filterMap Call.motorBinding = []
    ∧ ((if c1 then [Call.ppmAvoidPWMTimerClash k TIM4] else [])
        ++ ((if c2 then [Call.ppmAvoidPWMTimerClash k TIM2] else [])
          ++ [Call.ppmInConfig k])).filterMap Call.servoBinding = []
    ∧ ((if c1 then [Call.ppmAvoidPWMTimerClash k TIM4] else [])
        ++ ((if c2 then [Call.ppmAvoidPWMTimerClash k TIM2] else [])
          ++ [Call.ppmInConfig k])).filterMap Call.pwmBinding = [] := by
  split_ifs <;> exact ⟨rfl, rfl, rfl⟩

theorem slotFlags_eq (t : Target) (init : drv_pwm_config_t) :
    slotFlags t init MAP_TO_MOTOR_OUTPUT = motorFlags t init
    ∧ slotFlags t init MAP_TO_SERVO_OUTPUT
        = (if t.USE_SERVOS then PWM_PF_SERVO ||| PWM_PF_OUTPUT_PROTOCOL_PWM else PWM_PF_NONE)
    ∧ slotFlags t init MAP_TO_PWM_INPUT
        = (if t.SKIP_RX_PWM_PPM then PWM_PF_NONE else PWM_PF_PWM)
    ∧ slotFlags t init MAP_TO_PPM_INPUT
        = (if t.SKIP_RX_PWM_PPM then PWM_PF_NONE else PWM_PF_PPM) := by
  refine ⟨?_, ?_, ?_, ?_⟩
  · simp [slotFlags, branchCompiled, MAP_TO_MOTOR_OUTPUT, MAP_TO_PPM_INPUT, MAP_TO_PWM_INPUT,
      MAP_TO_SERVO_OUTPUT]
  · cases hS : t.USE_SERVOS <;>
      simp [slotFlags, branchCompiled, MAP_TO_MOTOR_OUTPUT, MAP_TO_PPM_INPUT, MAP_TO_PWM_INPUT,
        MAP_TO_SERVO_OUTPUT, hS]
  · cases hK : t.SKIP_RX_PWM_PPM <;>
      simp [slotFlags, branchCompiled, MAP_TO_MOTOR_OUTPUT, MAP_TO_PPM_INPUT, MAP_TO_PWM_INPUT,
        MAP_TO_SERVO_OUTPUT, hK]
  · cases hK : t.SKIP_RX_PWM_PPM <;>
      simp [slotFlags, branchCompiled, MAP_TO_MOTOR_OUTPUT, MAP_TO_PPM_INPUT, MAP_TO_PWM_INPUT,
        MAP_TO_SERVO_OUTPUT, hK]

theorem port_kinds (i : Nat) (h : Option Nat) :
    isMotorPort
        { index := i, flags := PWM_PF_SERVO ||| PWM_PF_OUTPUT_PROTOCOL_PWM, timerHardware := h }
      = false
    ∧ isServoPort
        { index := i, flags := PWM_PF_SERVO ||| PWM_PF_OUTPUT_PROTOCOL_PWM, timerHardware := h }
      = true
    ∧ isMotorPort { index := i, flags := PWM_PF_PPM, timerHardware := h } = false
    ∧ isServoPort { index := i, flags := PWM_PF_PPM, timerHardware := h } = false
    ∧ isMotorPort { index := i, flags := PWM_PF_PWM, timerHardware := h } = false
    ∧ isServoPort { index := i, flags := PWM_PF_PWM, timerHardware := h } = false
    ∧ isMotorPort zeroPort = false ∧ isServoPort zeroPort = false :=
  ⟨(isMotorPort_of_flags i _ h).1.trans (by decide),
    (isMotorPort_of_flags i _ h).2.trans (by decide),
    (isMotorPort_of_flags i _ h).1.trans (by decide),
    (isMotorPort_of_flags i _ h).2.trans (by decide),
    (isMotorPort_of_flags i _ h).1.trans (by decide),
    (isMotorPort_of_flags i _ h).2.trans (by decide), by decide, by decide⟩

theorem boundInOrder_step (t : Target) (init : drv_pwm_config_t) (l : List Nat) (s : PwmState)
    (w : Nat) (hcap : t.USABLE_TIMER_CHANNEL_COUNT ≤ 255)
    (hl : l.length < t.USABLE_TIMER_CHANNEL_COUNT) (h : BoundInOrder t init l s) :
    BoundInOrder t init (l ++ [w]) (loopBody t init w s) := by
  obtain ⟨hio, hmc, hsc, hpwm, hppm, hci, hmcalls, hscalls, hpcalls, W, hW, hWlen, hflags,
    hmports, hsports, houts⟩ := h
  have hD : (l.filterMap (dispatchedRole t init)).length ≤ l.length :=
    List.length_filterMap_le _ _
  have hWlt : W.length < t.USABLE_TIMER_CHANNEL_COUNT := by rw [hWlen, hio]; omega
  have hmod : ∀ n, n ≤ l.length → (n + 1) % 256 = n + 1 := by
    intro n hn
    exact Nat.mod_eq_of_lt (by omega)
  have hlen := fun role => channelsBoundAs_length_le t init role l
  rcases loopBody_by_role t init w s with ⟨hr, e⟩ | ⟨hr, e⟩ | ⟨hr, e⟩ | ⟨hr, e⟩ | ⟨hr, e⟩
  · have hb := (boundRole_of_dispatched t init w).1 hr
    rw [e]
    refine ⟨?_, ?_, ?_, ?_, ?_, ?_, ?_, ?_, ?_, W, hW, hWlen, ?_, ?_, ?_, ?_⟩ <;>
      simp [List.filterMap_append, List.filter_append, channelsBoundAs_snoc, hr, hb, *]
  · have hbr := (boundRole_of_dispatched t init w).2.2.2.2 hr
    have hcalls := fun (c1 c2 : Prop) [Decidable c1] [Decidable c2] k =>
      ppm_calls_bindings c1 c2 k
    have hpk := port_kinds 0 none
    have hsf := (slotFlags_eq t init).2.2.2
    cases hK : t.SKIP_RX_PWM_PPM
    · have hb : boundRole t init w = some MAP_TO_PPM_INPUT := by rw [hbr, hK]; rfl
      rw [hK] at hsf
      obtain ⟨hp1, hp2, -⟩ := ports_step _ _ W _
        { s.pwmIOConfiguration.ioConfigurations.getD s.pwmIOConfiguration.ioCount zeroPort with
          flags := PWM_PF_PPM } hW hWlt hWlen
      rw [hp2] at hp1
      rw [e, bindPpmInput_eq t init _ s hK, hp2]
      refine ⟨?_, ?_, ?_, ?_, ?_, ?_, ?_, ?_, ?_, W ++ [_], hp1, ?_, ?_, ?_, ?_, ?_⟩
      · simp [List.filterMap_append, hr, hio, hmod _ hD]
      · simp [channelsBoundAs_snoc, hb, hmc, MAP_TO_MOTOR_OUTPUT, MAP_TO_PPM_INPUT]
      · simp [channelsBoundAs_snoc, hb, hsc, MAP_TO_PPM_INPUT, MAP_TO_SERVO_OUTPUT]
      · simp [channelsBoundAs_snoc, hb, hpwm, MAP_TO_PPM_INPUT, MAP_TO_PWM_INPUT]
      · simp [channelsBoundAs_snoc, hb, hppm, hmod _ (hlen _)]
      · simp [channelsBoundAs_snoc, hb, hci, MAP_TO_PPM_INPUT, MAP_TO_PWM_INPUT]
      · rw [List.filterMap_append, (hcalls _ _ _).1]
        simp [channelsBoundAs_snoc, hb, hmcalls, MAP_TO_MOTOR_OUTPUT, MAP_TO_PPM_INPUT]
      · rw [List.filterMap_append, (hcalls _ _ _).2.1]
        simp [channelsBoundAs_snoc, hb, hscalls, MAP_TO_PPM_INPUT, MAP_TO_SERVO_OUTPUT]
      · rw [List.filterMap_append, (hcalls _ _ _).2.2]
        simp [channelsBoundAs_snoc, hb, hpcalls, MAP_TO_PPM_INPUT, MAP_TO_PWM_INPUT]
      · simp [hWlen, hio, hmod _ hD]
      · simp [List.filterMap_append, hr, hflags, hsf]
      · simp [List.filter_append, hp2, zeroPort, hpk, hmports, channelsBoundAs_snoc, hb,
          MAP_TO_MOTOR_OUTPUT, MAP_TO_PPM_INPUT]
      · simp [List.filter_append, hp2, zeroPort, hpk, hsports, channelsBoundAs_snoc, hb,
          MAP_TO_PPM_INPUT, MAP_TO_SERVO_OUTPUT]
      · simp [List.filterMap_append, List.filter_append, houts, hb, hp2, zeroPort,
          MAP_TO_MOTOR_OUTPUT, MAP_TO_PPM_INPUT, MAP_TO_SERVO_OUTPUT]
    · have hb : boundRole t init w = none := by rw [hbr, hK]; rfl
      rw [hK] at hsf
      obtain ⟨-, -, hp3⟩ := ports_step _ _ W _ zeroPort hW hWlt hWlen
      rw [e, bindPpmInput_compiled_out t init _ s hK]
      refine ⟨?_, ?_, ?_, ?_, ?_, ?_, ?_, ?_, ?_, W ++ [zeroPort], hp3, ?_, ?_, ?_, ?_, ?_⟩
      · simp [incIoCount, List.filterMap_append, hr, hio, hmod _ hD]
      · simp [incIoCount, channelsBoundAs_snoc, hb, hmc]
      · simp [incIoCount, channelsBoundAs_snoc, hb, hsc]
      · simp [incIoCount, channelsBoundAs_snoc, hb, hpwm]
      · simp [incIoCount, channelsBoundAs_snoc, hb, hppm]
      · simp [incIoCount, channelsBoundAs_snoc, hb, hci]
      · simp [incIoCount, channelsBoundAs_snoc, hb, hmcalls]
      · simp [incIoCount, channelsBoundAs_snoc, hb, hscalls]
      · simp [incIoCount, channelsBoundAs_snoc, hb, hpcalls]
      · simp [incIoCount, hWlen, hio, hmod _ hD]
      · simp [List.filterMap_append, hr, hflags, hsf, zeroPort]
      · simp [List.filter_append, hpk, hmports, channelsBoundAs_snoc, hb]
      · simp [List.filter_append, hpk, hsports, channelsBoundAs_snoc, hb]
      · simp [List.filterMap_append, List.filter_append, houts, hb, zeroPort]
  · have hbr := (boundRole_of_dispatched t init w).2.2.2.1 hr
    have hpk := port_kinds 0 none
    have hsf := (slotFlags_eq t init).2.2.1
    cases hK : t.SKIP_RX_PWM_PPM
    · have hb : boundRole t init w = some MAP_TO_PWM_INPUT := by rw [hbr, hK]; rfl
      rw [hK] at hsf
      obtain ⟨hp1, hp2, -⟩ := ports_step _ _ W _
        { s.pwmIOConfiguration.ioConfigurations.getD s.pwmIOConfiguration.ioCount zeroPort with
          flags := PWM_PF_PWM } hW hWlt hWlen
      rw [hp2] at hp1
      rw [e, bindPwmInput_eq t _ s hK, hp2]
      refine ⟨?_, ?_, ?_, ?_, ?_, ?_, ?_, ?_, ?_, W ++ [_], hp1, ?_, ?_, ?_, ?_, ?_⟩
      · simp [List.filterMap_append, hr, hio, hmod _ hD]
      · simp [channelsBoundAs_snoc, hb, hmc, MAP_TO_MOTOR_OUTPUT, MAP_TO_PWM_INPUT]
      · simp [channelsBoundAs_snoc, hb, hsc, MAP_TO_PWM_INPUT, MAP_TO_SERVO_OUTPUT]
      · simp [channelsBoundAs_snoc, hb, hpwm, hmod _ (hlen _)]
      · simp [channelsBoundAs_snoc, hb, hppm, MAP_TO_PPM_INPUT, MAP_TO_PWM_INPUT]
      · simp [channelsBoundAs_snoc, hb, hci]
      · simp [List.filterMap_append, Call.motorBinding, channelsBoundAs_snoc, hb, hmcalls,
          MAP_TO_MOTOR_OUTPUT, MAP_TO_PWM_INPUT]
      · simp [List.filterMap_append, Call.servoBinding, channelsBoundAs_snoc, hb, hscalls,
          MAP_TO_PWM_INPUT, MAP_TO_SERVO_OUTPUT]
      · simp [List.filterMap_append, Call.pwmBinding, channelsBoundAs_snoc, hb, hpcalls,
          withOrdinals_snoc, hci]
      · simp [hWlen, hio, hmod _ hD]
      · simp [List.filterMap_append, hr, hflags, hsf]
      · simp [List.filter_append, hp2, zeroPort, hpk, hmports, channelsBoundAs_snoc, hb,
          MAP_TO_MOTOR_OUTPUT, MAP_TO_PWM_INPUT]
      · simp [List.filter_append, hp2, zeroPort, hpk, hsports, channelsBoundAs_snoc, hb,
          MAP_TO_PWM_INPUT, MAP_TO_SERVO_OUTPUT]
      · simp [List.filterMap_append, List.filter_append, houts, hb, hp2, zeroPort,
          MAP_TO_MOTOR_OUTPUT, MAP_TO_PWM_INPUT, MAP_TO_SERVO_OUTPUT]
    · have hb : boundRole t init w = none := by rw [hbr, hK]; rfl
      rw [hK] at hsf
      obtain ⟨-, -, hp3⟩ := ports_step _ _ W _ zeroPort hW hWlt hWlen
      rw [e, bindPwmInput_compiled_out t _ s hK]
      refine ⟨?_, ?_, ?_, ?_, ?_, ?_, ?_, ?_, ?_, W ++ [zeroPort], hp3, ?_, ?_, ?_, ?_, ?_⟩
      · simp [incIoCount, List.filterMap_append, hr, hio, hmod _ hD]
      · simp [incIoCount, channelsBoundAs_snoc, hb, hmc]
      · simp [incIoCount, channelsBoundAs_snoc, hb, hsc]
      · simp [incIoCount, channelsBoundAs_snoc, hb, hpwm]
      · simp [incIoCount, channelsBoundAs_snoc, hb, hppm]
      · simp [incIoCount, channelsBoundAs_snoc, hb, hci]
      · simp [incIoCount, channelsBoundAs_snoc, hb, hmcalls]
      · simp [incIoCount, channelsBoundAs_snoc, hb, hscalls]
      · simp [incIoCount, channelsBoundAs_snoc, hb, hpcalls]
      · simp [incIoCount, hWlen, hio, hmod _ hD]
      · simp [List.filterMap_append, hr, hflags, hsf, zeroPort]
      · simp [List.filter_append, hpk, hmports, channelsBoundAs_snoc, hb]
      · simp [List.filter_append, hpk, hsports, channelsBoundAs_snoc, hb]
      · simp [List.filterMap_append, List.filter_append, houts, hb, zeroPort]
  · have hb := (boundRole_of_dispatched t init w).2.1 hr
    obtain ⟨hp1, hp2, hp3⟩ := ports_step _ _ W _
      { index := s.pwmIOConfiguration.motorCount, flags := motorFlags t init,
        timerHardware := some (timerIndexOf w) } hW hWlt hWlen
    have hc1 := fun k i => (motorBinding_motorCall t init k i).1
    have hc2 := fun k i => (motorBinding_motorCall t init k i).2.1
    have hc3 := fun k i => (motorBinding_motorCall t init k i).2.2
    have hf1 := fun i h => (isMotorPort_motorFlags t init i h).1
    have hf2 := fun i h => (isMotorPort_motorFlags t init i h).2
    have hsf : slotFlags t init MAP_TO_MOTOR_OUTPUT = motorFlags t init := by
      simp [slotFlags, branchCompiled, MAP_TO_MOTOR_OUTPUT, MAP_TO_PPM_INPUT, MAP_TO_PWM_INPUT,
        MAP_TO_SERVO_OUTPUT]
    rw [e, bindMotorOutput_eq]
    refine ⟨?_, ?_, ?_, ?_, ?_, ?_, ?_, ?_, ?_, W ++ [_], hp1, ?_, ?_, ?_, ?_, ?_⟩
    · simp [List.filterMap_append, hr, hio, hmod _ hD]
    · simp [channelsBoundAs_snoc, hb, hmc, hmod _ (hlen _)]
    · simp [channelsBoundAs_snoc, hb, hsc, MAP_TO_MOTOR_OUTPUT, MAP_TO_SERVO_OUTPUT]
    · simp [channelsBoundAs_snoc, hb, hpwm, MAP_TO_MOTOR_OUTPUT, MAP_TO_PWM_INPUT]
    · simp [channelsBoundAs_snoc, hb, hppm, MAP_TO_MOTOR_OUTPUT, MAP_TO_PPM_INPUT]
    · simp [channelsBoundAs_snoc, hb, hci, MAP_TO_MOTOR_OUTPUT, MAP_TO_PWM_INPUT]
    · simp [channelsBoundAs_snoc, hb, hmcalls, hc1, withOrdinals_snoc, hmc, List.filterMap_append]
    · simp [channelsBoundAs_snoc, hb, hscalls, hc2, List.filterMap_append, MAP_TO_MOTOR_OUTPUT,
        MAP_TO_SERVO_OUTPUT]
    · simp [channelsBoundAs_snoc, hb, hpcalls, hc3, List.filterMap_append, MAP_TO_MOTOR_OUTPUT,
        MAP_TO_PWM_INPUT]
    · simp [hWlen, hio, hmod _ hD]
    · simp [List.filterMap_append, hr, hflags, hsf]
    · simp [List.filter_append, hf1, hmports, channelsBoundAs_snoc, hb, withOrdinals_snoc, hmc]
    · simp [List.filter_append, hf2, hsports, channelsBoundAs_snoc, hb, MAP_TO_MOTOR_OUTPUT,
        MAP_TO_SERVO_OUTPUT]
    · simp [List.filterMap_append, List.filter_append, houts, hb]
  · have hbr := (boundRole_of_dispatched t init w).2.2.1 hr
    have hpk := fun i h => port_kinds i h
    have hsf := (slotFlags_eq t init).2.1
    cases hS : t.USE_SERVOS
    · have hb : boundRole t init w = none := by rw [hbr, hS]; rfl
      rw [hS] at hsf
      obtain ⟨-, -, hp3⟩ := ports_step _ _ W _ zeroPort hW hWlt hWlen
      rw [e, bindServoOutput_compiled_out t init _ s hS]
      refine ⟨?_, ?_, ?_, ?_, ?_, ?_, ?_, ?_, ?_, W ++ [zeroPort], hp3, ?_, ?_, ?_, ?_, ?_⟩
      · simp [incIoCount, List.filterMap_append, hr, hio, hmod _ hD]
      · simp [incIoCount, channelsBoundAs_snoc, hb, hmc]
      · simp [incIoCount, channelsBoundAs_snoc, hb, hsc]
      · simp [incIoCount, channelsBoundAs_snoc, hb, hpwm]
      · simp [incIoCount, channelsBoundAs_snoc, hb, hppm]
      · simp [incIoCount, channelsBoundAs_snoc, hb, hci]
      · simp [incIoCount, channelsBoundAs_snoc, hb, hmcalls]
      · simp [incIoCount, channelsBoundAs_snoc, hb, hscalls]
      · simp [incIoCount, channelsBoundAs_snoc, hb, hpcalls]
      · simp [incIoCount, hWlen, hio, hmod _ hD]
      · simp [List.filterMap_append, hr, hflags, hsf, zeroPort]
      · simp [List.filter_append, (hpk 0 none).2.2.2.2.2.2.1, hmports, channelsBoundAs_snoc, hb]
      · simp [List.filter_append, (hpk 0 none).2.2.2.2.2.2.2, hsports, channelsBoundAs_snoc, hb]
      · simp [List.filterMap_append, List.filter_append, houts, hb, zeroPort]
    · have hb : boundRole t init w = some MAP_TO_SERVO_OUTPUT := by rw [hbr, hS]; rfl
      rw [hS] at hsf
      have hf1 := fun i h => (port_kinds i h).1
      have hf2 := fun i h => (port_kinds i h).2.1
      obtain ⟨hp1, -, -⟩ := ports_step _ _ W _
        { index := s.pwmIOConfiguration.servoCount,
          flags := PWM_PF_SERVO ||| PWM_PF_OUTPUT_PROTOCOL_PWM,
          timerHardware := some (timerIndexOf w) } hW hWlt hWlen
      rw [e, bindServoOutput_eq t init _ s hS]
      refine ⟨?_, ?_, ?_, ?_, ?_, ?_, ?_, ?_, ?_, W ++ [_], hp1, ?_, ?_, ?_, ?_, ?_⟩
      · simp [List.filterMap_append, hr, hio, hmod _ hD]
      · simp [channelsBoundAs_snoc, hb, hmc, MAP_TO_MOTOR_OUTPUT, MAP_TO_SERVO_OUTPUT]
      · simp [channelsBoundAs_snoc, hb, hsc, hmod _ (hlen _)]
      · simp [channelsBoundAs_snoc, hb, hpwm, MAP_TO_SERVO_OUTPUT, MAP_TO_PWM_INPUT]
      · simp [channelsBoundAs_snoc, hb, hppm, MAP_TO_SERVO_OUTPUT, MAP_TO_PPM_INPUT]
      · simp [channelsBoundAs_snoc, hb, hci, MAP_TO_SERVO_OUTPUT, MAP_TO_PWM_INPUT]
      · simp [List.filterMap_append, Call.motorBinding, channelsBoundAs_snoc, hb, hmcalls,
          MAP_TO_MOTOR_OUTPUT, MAP_TO_SERVO_OUTPUT]
      · simp [List.filterMap_append, Call.servoBinding, channelsBoundAs_snoc, hb, hscalls,
          withOrdinals_snoc, hsc]
      · simp [List.filterMap_append, Call.pwmBinding, channelsBoundAs_snoc, hb, hpcalls,
          MAP_TO_SERVO_OUTPUT, MAP_TO_PWM_INPUT]
      · simp [hWlen, hio, hmod _ hD]
      · simp [List.filterMap_append, hr, hflags, hsf]
      · simp [List.filter_append, hf1, hmports, channelsBoundAs_snoc, hb, MAP_TO_MOTOR_OUTPUT,
          MAP_TO_SERVO_OUTPUT]
      · simp [List.filter_append, hf2, hsports, channelsBoundAs_snoc, hb, withOrdinals_snoc, hsc]
      · simp [List.filterMap_append, List.filter_append, houts, hb]

theorem boundInOrder_initial (t : Target) (init : drv_pwm_config_t)
    (old : pwmIOConfiguration_t) : BoundInOrder t init [] (initialState t old) := by
  refine ⟨rfl, rfl, rfl, rfl, rfl, rfl, rfl, rfl, rfl, [], ?_, rfl, rfl, rfl, rfl, rfl⟩
  simp [initialState, memsetZero]

theorem boundInOrder_foldl (t : Target) (init : drv_pwm_config_t) (old : pwmIOConfiguration_t)
    (hcap : t.USABLE_TIMER_CHANNEL_COUNT ≤ 255) (l : List Nat) :
    l.length ≤ t.USABLE_TIMER_CHANNEL_COUNT →
    BoundInOrder t init l (l.foldl (fun s w => loopBody t init w s) (initialState t old)) := by
  induction l using List.reverseRecOn with
  | nil => intro _; exact boundInOrder_initial t init old
  | append_singleton l w ih =>
    intro h
    rw [List.length_append, List.length_singleton] at h
    rw [List.foldl_append, List.foldl_cons, List.foldl_nil]
    exact boundInOrder_step t init l _ w hcap (by omega) (ih (by omega))

/-- After `pwmInit` on a board of at most 255 channels, the result lists the
bound entries of the visited part of the hardware map role by role and in
order. -/
theorem pwmInitOn_boundInOrder (t : Target) (init : drv_pwm_config_t) (setup : Nat → Nat)
    (old : pwmIOConfiguration_t) (hcap : t.USABLE_TIMER_CHANNEL_COUNT ≤ 255) :
    BoundInOrder t init (mapEntries t setup) (pwmInitOn t init setup old) := by
  rw [pwmInitOn_eq_foldl]
  exact boundInOrder_foldl t init old hcap _ (mapEntries_length_le t setup)

/-- The written part of the port array is its first `ioCount` ports, and the
motor and servo ports are all in it. -/
theorem written_ports (cap : Nat) (ports W : List pwmPortConfiguration_t) (io : Nat)
    (hW : ports = W ++ List.replicate (cap - W.length) zeroPort) (hio : W.length = io) :
    ports.take io = W ∧ ports.filter isMotorPort = W.filter isMotorPort
    ∧ ports.filter isServoPort = W.filter isServoPort := by
  have h1 : (List.replicate (cap - W.length) zeroPort).filter isMotorPort = [] := by
    rw [List.filter_eq_nil_iff]
    intro a ha
    rw [List.eq_of_mem_replicate ha]
    decide
  have h2 : (List.replicate (cap - W.length) zeroPort).filter isServoPort = [] := by
    rw [List.filter_eq_nil_iff]
    intro a ha
    rw [List.eq_of_mem_replicate ha]
    decide
  subst hio
  refine ⟨?_, ?_, ?_⟩
  · rw [hW, List.take_left]
  · rw [hW, List.filter_append, h1, List.append_nil]
  · rw [hW, List.filter_append, h2, List.append_nil]

/-! ## C18: ordinals follow the order of the table -/

/-- C18: on a board of at most 255 timer channels (so that the `uint8_t`
counters do not wrap), for every build, hardware map and configuration.  Let
the entries be those that `pwmInit` visits, in table order, and let an entry
be bound with a role when its pass enters the branch of that role and the
build compiles the body of the branch.  Then the calls of the motor
configuration routines are, in order, those for the channels of the entries
bound as motors, the k-th (from 0) with motor ordinal k, and the ports with
`PWM_PF_MOTOR` are, in order, those of the same channels, the k-th with
`index == k`; the same holds for `pwmServoConfig`, the servo ordinal and the
ports with `PWM_PF_SERVO`; the calls of `pwmInConfig` are, in order, those for
the channels of the entries bound as PWM inputs, the k-th with capture ordinal
k.  The first `ioCount` ports are in the order of the table: their flags are
those of the roles of the entries that entered a branch, in table order, and
the channels they refer to are those of the entries bound as motor or servo,
in table order. -/
theorem pwmInit_ordinals_in_table_order (t : Target) (m : HardwareMapTables)
    (init : drv_pwm_config_t) (old : pwmIOConfiguration_t)
    (hcap : t.USABLE_TIMER_CHANNEL_COUNT ≤ 255) :
    (pwmInit t m init old).calls.filterMap Call.motorBinding
      = withOrdinals
          (channelsBoundAs t init MAP_TO_MOTOR_OUTPUT (mapEntries t (selectedMap m init)))
    ∧ ((pwmInit t m init old).pwmIOConfiguration.ioConfigurations.filter isMotorPort).map
        (fun p => (p.timerHardware, p.index))
      = (withOrdinals
          (channelsBoundAs t init MAP_TO_MOTOR_OUTPUT (mapEntries t (selectedMap m init)))).map
          (fun x => (some x.1, x.2))
    ∧ (pwmInit t m init old).calls.filterMap Call.servoBinding
      = withOrdinals
          (channelsBoundAs t init MAP_TO_SERVO_OUTPUT (mapEntries t (selectedMap m init)))
    ∧ ((pwmInit t m init old).pwmIOConfiguration.ioConfigurations.filter isServoPort).map
        (fun p => (p.timerHardware, p.index))
      = (withOrdinals
          (channelsBoundAs t init MAP_TO_SERVO_OUTPUT (mapEntries t (selectedMap m init)))).map
          (fun x => (some x.1, x.2))
    ∧ (pwmInit t m init old).calls.filterMap Call.pwmBinding
      = withOrdinals
          (channelsBoundAs t init MAP_TO_PWM_INPUT (mapEntries t (selectedMap m init)))
    ∧ ((pwmInit t m init old).pwmIOConfiguration.ioConfigurations.take
          (pwmInit t m init old).pwmIOConfiguration.ioCount).map (fun p => p.flags)
      = ((mapEntries t (selectedMap m init)).filterMap (dispatchedRole t init)).map
          (slotFlags t init)
    ∧ ((pwmInit t m init old).pwmIOConfiguration.ioConfigurations.take
          (pwmInit t m init old).pwmIOConfiguration.ioCount).filterMap (fun p => p.timerHardware)
      = ((mapEntries t (selectedMap m init)).filter
          (fun w => boundRole t init w == some MAP_TO_MOTOR_OUTPUT
            || boundRole t init w == some MAP_TO_SERVO_OUTPUT)).map timerIndexOf
    ∧ (∀ (l : List Nat) (k x : Nat), l[k]? = some x → (withOrdinals l)[k]? = some (x, k))
    ∧ (∀ l : List Nat, (withOrdinals l).length = l.length) := by
  obtain ⟨-, -, -, -, -, -, hmcalls, hscalls, hpcalls, W, hW, hWlen, hflags, hmports, hsports,
    houts⟩ := pwmInitOn_boundInOrder t init (selectedMap m init) old hcap
  obtain ⟨h1, h2, h3⟩ := written_ports _ _ W _ hW hWlen
  refine ⟨hmcalls, ?_, hscalls, ?_, hpcalls, ?_, ?_, withOrdinals_getElem?, withOrdinals_length⟩
  · rw [pwmInit, h2]; exact hmports
  · rw [pwmInit, h3]; exact hsports
  · rw [pwmInit, h1]; exact hflags
  · rw [pwmInit, h1]; exact houts

/-- C18 on the sample CC3D board with parallel PWM inputs and servos: six
captures, five motors, and the servo that the board rule makes of `PWM10`. -/
theorem pwmInit_ordinals_in_table_order_witness :
    cc3dTarget.USABLE_TIMER_CHANNEL_COUNT ≤ 255
    ∧ (pwmInit cc3dTarget sampleMaps servoPwmConfig staleIOConfiguration).calls.filterMap
        Call.motorBinding = [(PWM7, 0), (PWM8, 1), (PWM9, 2), (PWM11, 3), (PWM12, 4)]
    ∧ ((pwmInit cc3dTarget sampleMaps servoPwmConfig
          staleIOConfiguration).pwmIOConfiguration.ioConfigurations.filter isMotorPort).map
        (fun p => (p.timerHardware, p.index))
      = [(some PWM7, 0), (some PWM8, 1), (some PWM9, 2), (some PWM11, 3), (some PWM12, 4)]
    ∧ (pwmInit cc3dTarget sampleMaps servoPwmConfig staleIOConfiguration).calls.filterMap
        Call.servoBinding = [(PWM10, 0)]
    ∧ (pwmInit cc3dTarget sampleMaps servoPwmConfig staleIOConfiguration).calls.filterMap
        Call.pwmBinding = [(PWM1, 0), (PWM2, 1), (PWM3, 2), (PWM4, 3), (PWM5, 4), (PWM6, 5)] :=
  ⟨by decide,
    (pwmInit_ordinals_in_table_order cc3dTarget sampleMaps servoPwmConfig staleIOConfiguration
      (by decide)).1.trans (by decide),
    (pwmInit_ordinals_in_table_order cc3dTarget sampleMaps servoPwmConfig staleIOConfiguration
      (by decide)).2.1.trans (by decide),
    (pwmInit_ordinals_in_table_order cc3dTarget sampleMaps servoPwmConfig staleIOConfiguration
      (by decide)).2.2.1.trans (by decide),
    (pwmInit_ordinals_in_table_order cc3dTarget sampleMaps servoPwmConfig staleIOConfiguration
      (by decide)).2.2.2.2.1.trans (by decide)⟩

/-! ## C13: fixed wing -/

/-- When the remap block leaves the role of `w` alone, `w` survives the
exclusion tests and the motor branch does not skip it, and the build compiles
all branches, `w` is bound with its base role if that is one of the four. -/
theorem boundRole_of_base_role (t : Target) (init : drv_pwm_config_t) (w : Nat)
    (hS : t.USE_SERVOS = true) (hK : t.SKIP_RX_PWM_PPM = false)
    (hr : remapType t init (timerIndexOf w) (typeOf w) = typeOf w)
    (hx : isExcluded t init (timerIndexOf w) (typeOf w) = false)
    (hms : motorSkipped t init (timerIndexOf w) = false) :
    (boundRole t init w == some MAP_TO_PWM_INPUT) = (typeOf w == MAP_TO_PWM_INPUT)
    ∧ (boundRole t init w == some MAP_TO_MOTOR_OUTPUT) = (typeOf w == MAP_TO_MOTOR_OUTPUT)
    ∧ (boundRole t init w == some MAP_TO_SERVO_OUTPUT) = (typeOf w == MAP_TO_SERVO_OUTPUT)
    ∧ (boundRole t init w == some MAP_TO_PPM_INPUT) = (typeOf w == MAP_TO_PPM_INPUT) := by
  simp only [boundRole, dispatchedRole, hx, hr, hms, Bool.false_eq_true, if_false]
  split_ifs with h1 h2 h3 h4 <;>
    simp_all [branchCompiled, MAP_TO_MOTOR_OUTPUT, MAP_TO_PPM_INPUT, MAP_TO_PWM_INPUT,
      MAP_TO_SERVO_OUTPUT]

/-- An entry is bound only with the role that it has after the remap
block. -/
theorem boundRole_eq_some (t : Target) (init : drv_pwm_config_t) (w role : Nat)
    (h : boundRole t init w = some role) :
    remapType t init (timerIndexOf w) (typeOf w) = role
    ∧ isExcluded t init (timerIndexOf w) (typeOf w) = false := by
  simp only [boundRole, Option.filter_eq_some] at h
  have h' : dispatchedRole t init w = some role := h.1
  simp only [dispatchedRole] at h'
  split_ifs at h' with h0 h1 h2 h3 h4 h5 <;> simp only [Option.some.injEq, reduceCtorEq] at h' <;>
    subst h' <;> exact ⟨by assumption, by simpa using h0⟩


/-- C13: with `airplane` set, whatever `useServos` and `useChannelForwarding`
are, in every build and for every hardware map: the remap block changes no
role, so a pass that survives the exclusion tests dispatches on the base role
`setup[i] >> 8` of its entry, and an entry is bound only with its base role.
In a build that compiles all four branches, on a board of at most 255
channels, when none of the visited entries is excluded (for the `PWM_INPUT`
entries this needs `useParallelPWM`) or skipped by the `TIM2` test of the
motor branch, `pwmInit` returns with `pwmInputCount`, `motorCount` and
`servoCount` equal to the numbers of visited entries with base role
`PWM_INPUT`, `MOTOR_OUTPUT` and `SERVO_OUTPUT`, and `pwmInConfig` is called for
the `PWM_INPUT` entries in table order with the capture ordinals 0, 1, ...;
with 8, 2 and 4 such entries the counters are 8, 2 and 4. -/
theorem fixed_wing_binds_base_roles (t : Target) (m : HardwareMapTables)
    (init : drv_pwm_config_t) (old : pwmIOConfiguration_t) (hair : init.airplane = true) :
    (∀ timerIndex ty, remapType t init timerIndex ty = ty)
    ∧ (∀ w s, loopBody t init w s
        = if isExcluded t init (timerIndexOf w) (typeOf w) then s
          else dispatch t init (timerIndexOf w) (typeOf w) s)
    ∧ (∀ w role, boundRole t init w = some role → typeOf w = role)
    ∧ (t.USE_SERVOS = true → t.SKIP_RX_PWM_PPM = false → t.USABLE_TIMER_CHANNEL_COUNT ≤ 255 →
        (∀ w ∈ mapEntries t (selectedMap m init),
          isExcluded t init (timerIndexOf w) (typeOf w) = false
          ∧ motorSkipped t init (timerIndexOf w) = false) →
        (pwmInit t m init old).pwmIOConfiguration.pwmInputCount
          = ((mapEntries t (selectedMap m init)).filter
              (fun w => typeOf w == MAP_TO_PWM_INPUT)).length
        ∧ (pwmInit t m init old).pwmIOConfiguration.motorCount
          = ((mapEntries t (selectedMap m init)).filter
              (fun w => typeOf w == MAP_TO_MOTOR_OUTPUT)).length
        ∧ (pwmInit t m init old).pwmIOConfiguration.servoCount
          = ((mapEntries t (selectedMap m init)).filter
              (fun w => typeOf w == MAP_TO_SERVO_OUTPUT)).length
        ∧ (pwmInit t m init old).calls.filterMap Call.pwmBinding
          = withOrdinals (((mapEntries t (selectedMap m init)).filter
              (fun w => typeOf w == MAP_TO_PWM_INPUT)).map timerIndexOf)) := by
  have hre : ∀ timerIndex ty, remapType t init timerIndex ty = ty :=
    fun timerIndex ty => remapType_inactive t init timerIndex ty (Or.inr (Or.inl hair))
  refine ⟨hre, ?_, ?_, ?_⟩
  · intro w s
    simp only [loopBody, hre]
  · intro w role h
    exact (hre _ _).symm.trans (boundRole_eq_some t init w role h).1
  · intro hS hK hcap hx
    have bio := pwmInitOn_boundInOrder t init (selectedMap m init) old hcap
    have hb := fun w hw =>
      boundRole_of_base_role t init w hS hK (hre _ _) (hx w hw).1 (hx w hw).2
    have e1 : channelsBoundAs t init MAP_TO_PWM_INPUT (mapEntries t (selectedMap m init))
        = ((mapEntries t (selectedMap m init)).filter
            (fun w => typeOf w == MAP_TO_PWM_INPUT)).map timerIndexOf := by
      rw [channelsBoundAs, List.filter_congr (fun w hw => (hb w hw).1)]
    have e2 : channelsBoundAs t init MAP_TO_MOTOR_OUTPUT (mapEntries t (selectedMap m init))
        = ((mapEntries t (selectedMap m init)).filter
            (fun w => typeOf w == MAP_TO_MOTOR_OUTPUT)).map timerIndexOf := by
      rw [channelsBoundAs, List.filter_congr (fun w hw => (hb w hw).2.1)]
    have e3 : channelsBoundAs t init MAP_TO_SERVO_OUTPUT (mapEntries t (selectedMap m init))
        = ((mapEntries t (selectedMap m init)).filter
            (fun w => typeOf w == MAP_TO_SERVO_OUTPUT)).map timerIndexOf := by
      rw [channelsBoundAs, List.filter_congr (fun w hw => (hb w hw).2.2.1)]
    refine ⟨?_, ?_, ?_, ?_⟩
    · rw [pwmInit, bio.pwmInputCount, e1, List.length_map]
    · rw [pwmInit, bio.motorCount, e2, List.length_map]
    · rw [pwmInit, bio.servoCount, e3, List.length_map]
    · rw [pwmInit, bio.pwmCalls, e1]

/-- C13 on the fourteen channel sample board with the fixed wing parallel PWM
map (8 `PWM_INPUT`, 2 `MOTOR_OUTPUT`, 4 `SERVO_OUTPUT` entries), `airplane`,
`useParallelPWM`, `useServos` and `useChannelForwarding` set: the counters are
8, 2 and 4 and the capture ordinals 0 to 7. -/
theorem fixed_wing_binds_base_roles_witness :
    airPwmConfig.airplane = true
    ∧ selectedMap sampleMaps14 airPwmConfig = tableOfList airPWM14
    ∧ (pwmInit sampleNazeTarget sampleMaps14 airPwmConfig
        staleIOConfiguration).pwmIOConfiguration.pwmInputCount = 8
    ∧ (pwmInit sampleNazeTarget sampleMaps14 airPwmConfig
        staleIOConfiguration).pwmIOConfiguration.motorCount = 2
    ∧ (pwmInit sampleNazeTarget sampleMaps14 airPwmConfig
        staleIOConfiguration).pwmIOConfiguration.servoCount = 4
    ∧ (pwmInit sampleNazeTarget sampleMaps14 airPwmConfig
        staleIOConfiguration).calls.filterMap Call.pwmBinding
      = [(PWM1, 0), (PWM2, 1), (PWM3, 2), (PWM4, 3), (PWM5, 4), (PWM6, 5), (PWM7, 6),
          (PWM8, 7)] :=
  ⟨rfl, rfl,
    ((fixed_wing_binds_base_roles sampleNazeTarget sampleMaps14 airPwmConfig staleIOConfiguration
      rfl).2.2.2 rfl rfl (by decide) (by decide)).1.trans (by decide),
    ((fixed_wing_binds_base_roles sampleNazeTarget sampleMaps14 airPwmConfig staleIOConfiguration
      rfl).2.2.2 rfl rfl (by decide) (by decide)).2.1.trans (by decide),
    ((fixed_wing_binds_base_roles sampleNazeTarget sampleMaps14 airPwmConfig staleIOConfiguration
      rfl).2.2.2 rfl rfl (by decide) (by decide)).2.2.1.trans (by decide),
    ((fixed_wing_binds_base_roles sampleNazeTarget sampleMaps14 airPwmConfig staleIOConfiguration
      rfl).2.2.2 rfl rfl (by decide) (by decide)).2.2.2.trans (by decide)⟩

/-! ## C11: scenario A -/

/-- In a build that compiles all four branches an entry is bound with the
role of the branch that its pass enters. -/
theorem boundRole_eq_dispatchedRole (t : Target) (init : drv_pwm_config_t) (w : Nat)
    (hS : t.USE_SERVOS = true) (hK : t.SKIP_RX_PWM_PPM = false) :
    boundRole t init w = dispatchedRole t init w := by
  have h : ∀ role, branchCompiled t role = true := by
    intro role
    simp only [branchCompiled, hS, hK]
    split_ifs <;> rfl
  cases hd : dispatchedRole t init w with
  | none => simp [boundRole, hd]
  | some r => simp [boundRole, hd, Option.filter, h]

/-- The remap block in a build with `NAZE` as its only board macro, with
`useServos` on a multirotor without channel forwarding: only the rule for
`PWM9` and `PWM10` on `TIM1` applies. -/
theorem remapType_naze (t : Target) (init : drv_pwm_config_t) (timerIndex ty : Nat)
    (hboard : t.NAZE = true ∧ t.COLIBRI_RACE = false ∧ t.LUX_RACE = false ∧ t.CC3D = false
      ∧ t.SPARKY = false ∧ t.SPRACINGF3 = false ∧ t.STM32F3DISCOVERY = false
      ∧ t.MOTOLAB = false)
    (hS : t.USE_SERVOS = true)
    (hcfg : init.useServos = true ∧ init.airplane = false
      ∧ init.useChannelForwarding = false) :
    remapType t init timerIndex ty
      = if (timerIndex = PWM9 ∨ timerIndex = PWM10) ∧ (t.timerHardware timerIndex).tim = TIM1
        then MAP_TO_SERVO_OUTPUT else ty := by
  obtain ⟨h0, h1, h2, h3, h4, h5, h6, h7⟩ := hboard
  obtain ⟨c1, c2, c3⟩ := hcfg
  simp [remapType, boardServoRemap, hS, h0, h1, h2, h3, h4, h5, h6, h7, c1, c2, c3]

/-- The branch that a pass enters in scenario A, as a function of the word
alone. -/
theorem dispatchedRole_naze (t : Target) (init : drv_pwm_config_t) (w : Nat)
    (hboard : t.NAZE = true ∧ t.COLIBRI_RACE = false ∧ t.LUX_RACE = false ∧ t.CC3D = false
      ∧ t.SPARKY = false ∧ t.SPRACINGF3 = false ∧ t.STM32F3DISCOVERY = false
      ∧ t.MOTOLAB = false)
    (hS : t.USE_SERVOS = true)
    (htim : (t.timerHardware PWM9).tim = TIM1 ∧ (t.timerHardware PWM10).tim = TIM1)
    (hcfg : init.useServos = true ∧ init.airplane = false
      ∧ init.useChannelForwarding = false)
    (hx : isExcluded t init (timerIndexOf w) (typeOf w) = false) :
    dispatchedRole t init w
      = if timerIndexOf w = PWM9 ∨ timerIndexOf w = PWM10 then some MAP_TO_SERVO_OUTPUT
        else if typeOf w = MAP_TO_PPM_INPUT then some MAP_TO_PPM_INPUT
        else if typeOf w = MAP_TO_PWM_INPUT then some MAP_TO_PWM_INPUT
        else if typeOf w = MAP_TO_MOTOR_OUTPUT then some MAP_TO_MOTOR_OUTPUT
        else if typeOf w = MAP_TO_SERVO_OUTPUT then some MAP_TO_SERVO_OUTPUT
        else none := by
  have hms : motorSkipped t init (timerIndexOf w) = false := by
    simp [motorSkipped, hboard.2.2.2.1]
  have hre := remapType_naze t init (timerIndexOf w) (typeOf w) hboard hS hcfg
  by_cases hk : timerIndexOf w = PWM9 ∨ timerIndexOf w = PWM10
  · have ht : (t.timerHardware (timerIndexOf w)).tim = TIM1 := by
      rcases hk with hk | hk <;> rw [hk]
      · exact htim.1
      · exact htim.2
    rw [if_pos ⟨hk, ht⟩] at hre
    simp [dispatchedRole, hx, hre, hk, MAP_TO_MOTOR_OUTPUT, MAP_TO_PPM_INPUT, MAP_TO_PWM_INPUT,
      MAP_TO_SERVO_OUTPUT]
  · rw [if_neg (fun h => hk h.1)] at hre
    simp only [dispatchedRole, hx, hre, hms, hk, Bool.false_eq_true, if_false]

/-- C11 (scenario A): in a build with `NAZE` as its only board macro that
compiles all four branches, on a board with 14 usable timer channels whose
`PWM9` and `PWM10` are on `TIM1`, with the multirotor PPM map of the comment
at lines 44 to 48 (channel 0 `PPM_INPUT`, channels 4 to 13 `MOTOR_OUTPUT`),
`usePPM` and `useServos` set, `airplane` and `useChannelForwarding` unset, and
none of the entries excluded, `pwmInit` returns `ppmInputCount = 1`,
`servoCount = 2`, `motorCount = 8` and `ioCount = 11`; `pwmServoConfig` is
called for channels 8 and 9 with ordinals 0 and 1, the motor routine for
channels 4 to 7 and 10 to 13 with ordinals 0 to 7 in table order, and the
servo and motor ports record the same channels and ordinals. -/
theorem scenario_a_counts (t : Target) (m : HardwareMapTables) (init : drv_pwm_config_t)
    (old : pwmIOConfiguration_t)
    (hboard : t.NAZE = true ∧ t.COLIBRI_RACE = false ∧ t.LUX_RACE = false ∧ t.CC3D = false
      ∧ t.SPARKY = false ∧ t.SPRACINGF3 = false ∧ t.STM32F3DISCOVERY = false
      ∧ t.MOTOLAB = false)
    (hS : t.USE_SERVOS = true) (hK : t.SKIP_RX_PWM_PPM = false)
    (hcap : t.USABLE_TIMER_CHANNEL_COUNT = 14)
    (htim : (t.timerHardware PWM9).tim = TIM1 ∧ (t.timerHardware PWM10).tim = TIM1)
    (hmap : m.multiPPM = tableOfList multiPPM14)
    (hppm : init.usePPM = true)
    (hcfg : init.useServos = true ∧ init.airplane = false
      ∧ init.useChannelForwarding = false)
    (hx : ∀ w ∈ multiPPM14, isExcluded t init (timerIndexOf w) (typeOf w) = false) :
    (pwmInit t m init old).pwmIOConfiguration.ppmInputCount = 1
    ∧ (pwmInit t m init old).pwmIOConfiguration.servoCount = 2
    ∧ (pwmInit t m init old).pwmIOConfiguration.motorCount = 8
    ∧ (pwmInit t m init old).pwmIOConfiguration.ioCount = 11
    ∧ (pwmInit t m init old).pwmIOConfiguration.pwmInputCount = 0
    ∧ (pwmInit t m init old).calls.filterMap Call.servoBinding = [(PWM9, 0), (PWM10, 1)]
    ∧ (pwmInit t m init old).calls.filterMap Call.motorBinding
      = [(PWM5, 0), (PWM6, 1), (PWM7, 2), (PWM8, 3), (PWM11, 4), (PWM12, 5), (PWM13, 6),
          (PWM14, 7)]
    ∧ ((pwmInit t m init old).pwmIOConfiguration.ioConfigurations.filter isServoPort).map
        (fun p => (p.timerHardware, p.index))
      = [(some PWM9, 0), (some PWM10, 1)]
    ∧ ((pwmInit t m init old).pwmIOConfiguration.ioConfigurations.filter isMotorPort).map
        (fun p => (p.timerHardware, p.index))
      = [(some PWM5, 0), (some PWM6, 1), (some PWM7, 2), (some PWM8, 3), (some PWM11, 4),
          (some PWM12, 5), (some PWM13, 6), (some PWM14, 7)] := by
  have hsel : selectedMap m init = tableOfList multiPPM14 := by
    rw [← hmap]
    simp [selectedMap, hardwareMapIndex, hardwareMaps, hppm, hcfg.2.1]
  have hent : mapEntries t (tableOfList multiPPM14) = multiPPM14 :=
    mapEntries_tableOfList t multiPPM14 (by decide) (by rw [hcap]; decide)
  have bio := pwmInitOn_boundInOrder t init (selectedMap m init) old (by omega)
  rw [hsel, hent] at bio
  obtain ⟨hio, hmc, hsc, hpwm, hppmc, -, hmcalls, hscalls, -, W, hW, hWlen, -, hmports,
    hsports, -⟩ := bio
  obtain ⟨-, hw2, hw3⟩ := written_ports _ _ W _ hW hWlen
  have hd : ∀ w ∈ multiPPM14,
      dispatchedRole t init w = dispatchedRole sampleNazeTarget servoPpmConfig w := by
    intro w hw
    rw [dispatchedRole_naze t init w hboard hS htim hcfg (hx w hw),
      dispatchedRole_naze sampleNazeTarget servoPpmConfig w
        ⟨rfl, rfl, rfl, rfl, rfl, rfl, rfl, rfl⟩ rfl ⟨rfl, rfl⟩ ⟨rfl, rfl, rfl⟩
        ((by decide : ∀ w ∈ multiPPM14, isExcluded sampleNazeTarget servoPpmConfig
          (timerIndexOf w) (typeOf w) = false) w hw)]
  have hb : ∀ role, channelsBoundAs t init role multiPPM14
      = channelsBoundAs sampleNazeTarget servoPpmConfig role multiPPM14 := by
    intro role
    have hbr : ∀ w ∈ multiPPM14,
        (boundRole t init w == some role)
          = (boundRole sampleNazeTarget servoPpmConfig w == some role) := by
      intro w hw
      rw [boundRole_eq_dispatchedRole t init w hS hK,
        boundRole_eq_dispatchedRole sampleNazeTarget servoPpmConfig w rfl rfl, hd w hw]
    simp only [channelsBoundAs]
    rw [List.filter_congr hbr]
  rw [hb] at hmc hsc hpwm hppmc hmcalls hscalls hmports hsports
  rw [List.filterMap_congr hd] at hio
  have c1 : (channelsBoundAs sampleNazeTarget servoPpmConfig MAP_TO_PPM_INPUT multiPPM14).length
      = 1 := by decide
  have c2 : channelsBoundAs sampleNazeTarget servoPpmConfig MAP_TO_SERVO_OUTPUT multiPPM14
      = [PWM9, PWM10] := by decide
  have c3 : channelsBoundAs sampleNazeTarget servoPpmConfig MAP_TO_MOTOR_OUTPUT multiPPM14
      = [PWM5, PWM6, PWM7, PWM8, PWM11, PWM12, PWM13, PWM14] := by decide
  have c4 : (multiPPM14.filterMap (dispatchedRole sampleNazeTarget servoPpmConfig)).length
      = 11 := by decide
  have c5 : (channelsBoundAs sampleNazeTarget servoPpmConfig MAP_TO_PWM_INPUT multiPPM14).length
      = 0 := by decide
  rw [c1] at hppmc
  rw [c2] at hsc hscalls hsports
  rw [c3] at hmc hmcalls hmports
  rw [c4] at hio
  rw [c5] at hpwm
  simp only [pwmInit, hsel]
  refine ⟨hppmc, hsc, hmc, hio, hpwm, hscalls, hmcalls, ?_, ?_⟩
  · rw [hw3]; exact hsports
  · rw [hw2]; exact hmports

/-- C11 on the fourteen channel sample board. -/
theorem scenario_a_counts_witness :
    (sampleNazeTarget.NAZE = true ∧ sampleNazeTarget.USABLE_TIMER_CHANNEL_COUNT = 14
      ∧ (sampleNazeTarget.timerHardware PWM9).tim = TIM1
      ∧ (sampleNazeTarget.timerHardware PWM10).tim = TIM1
      ∧ sampleMaps14.multiPPM = tableOfList multiPPM14
      ∧ servoPpmConfig.usePPM = true ∧ servoPpmConfig.useServos = true
      ∧ ∀ w ∈ multiPPM14,
          isExcluded sampleNazeTarget servoPpmConfig (timerIndexOf w) (typeOf w) = false)
    ∧ (pwmInit sampleNazeTarget sampleMaps14 servoPpmConfig
        staleIOConfiguration).pwmIOConfiguration.ppmInputCount = 1
    ∧ (pwmInit sampleNazeTarget sampleMaps14 servoPpmConfig
        staleIOConfiguration).pwmIOConfiguration.servoCount = 2
    ∧ (pwmInit sampleNazeTarget sampleMaps14 servoPpmConfig
        staleIOConfiguration).pwmIOConfiguration.motorCount = 8
    ∧ (pwmInit sampleNazeTarget sampleMaps14 servoPpmConfig
        staleIOConfiguration).pwmIOConfiguration.ioCount = 11 :=
  ⟨⟨rfl, rfl, rfl, rfl, rfl, rfl, rfl, by decide⟩,
    (scenario_a_counts sampleNazeTarget sampleMaps14 servoPpmConfig staleIOConfiguration
      ⟨rfl, rfl, rfl, rfl, rfl, rfl, rfl, rfl⟩ rfl rfl rfl ⟨rfl, rfl⟩ rfl rfl ⟨rfl, rfl, rfl⟩
      (by decide)).1,
    (scenario_a_counts sampleNazeTarget sampleMaps14 servoPpmConfig staleIOConfiguration
      ⟨rfl, rfl, rfl, rfl, rfl, rfl, rfl, rfl⟩ rfl rfl rfl ⟨rfl, rfl⟩ rfl rfl ⟨rfl, rfl, rfl⟩
      (by decide)).2.1,
    (scenario_a_counts sampleNazeTarget sampleMaps14 servoPpmConfig staleIOConfiguration
      ⟨rfl, rfl, rfl, rfl, rfl, rfl, rfl, rfl⟩ rfl rfl rfl ⟨rfl, rfl⟩ rfl rfl ⟨rfl, rfl, rfl⟩
      (by decide)).2.2.1,
    (scenario_a_counts sampleNazeTarget sampleMaps14 servoPpmConfig staleIOConfiguration
      ⟨rfl, rfl, rfl, rfl, rfl, rfl, rfl, rfl⟩ rfl rfl rfl ⟨rfl, rfl⟩ rfl rfl ⟨rfl, rfl, rfl⟩
      (by decide)).2.2.2.1⟩

end PwmMapping

namespace Barometer

/-! ## C24: the ground pressure accumulator -/

/-- Storing a value of the `int32_t` range leaves it as it is. -/
theorem wrapInt32_of_range (x : Int) (h1 : -2147483648 ≤ x) (h2 : x ≤ 2147483647) :
    wrapInt32 x = x := by
  unfold wrapInt32
  omega

/-- The update keeps an accumulator in `0 .. 8 * P` when the reading is in
`0 .. P`. -/
theorem accumulate_bounds (P g p : Int) (hp0 : 0 ≤ p) (hp : p ≤ P) (hg0 : 0 ≤ g)
    (hg : g ≤ 8 * P) :
    0 ≤ g - Int.tdiv g 8 ∧ g - Int.tdiv g 8 ≤ 7 * P
    ∧ 0 ≤ accumulate g p ∧ accumulate g p ≤ 8 * P := by
  unfold accumulate
  rw [Int.tdiv_eq_ediv hg0 (by decide)]
  omega

/-- One calibration cycle without overflow: the `int32_t` accumulator holds
the value of the update over the integers. -/
theorem performBaroCalibrationCycle_groundPressure (e : BaroEnv) (P : Int) (s : BaroState)
    (hP : P ≤ 268435455) (hp0 : 0 ≤ s.baroPressure) (hp : s.baroPressure ≤ P)
    (hg0 : 0 ≤ s.baroGroundPressure) (hg : s.baroGroundPressure ≤ 8 * P) :
    wrapInt32 (s.baroGroundPressure - Int.tdiv s.baroGroundPressure 8)
      = s.baroGroundPressure - Int.tdiv s.baroGroundPressure 8
    ∧ (performBaroCalibrationCycle e s).baroGroundPressure
      = accumulate s.baroGroundPressure s.baroPressure := by
  obtain ⟨h1, h2, h3, h4⟩ := accumulate_bounds P _ _ hp0 hp hg0 hg
  have e1 := wrapInt32_of_range (s.baroGroundPressure - Int.tdiv s.baroGroundPressure 8)
    (by omega) (by omega)
  have e2 := wrapInt32_of_range (accumulate s.baroGroundPressure s.baroPressure)
    (by omega) (by omega)
  refine ⟨e1, ?_⟩
  simp only [performBaroCalibrationCycle, e1]
  exact e2

theorem calibrationRun_groundPressure (e : BaroEnv) (P : Int) (hP : P ≤ 268435455) :
    ∀ (readings : List Int) (s : BaroState), (∀ p ∈ readings, 0 ≤ p ∧ p ≤ P) →
      0 ≤ s.baroGroundPressure → s.baroGroundPressure ≤ 8 * P →
      (calibrationRun e readings s).baroGroundPressure
        = readings.foldl accumulate s.baroGroundPressure
      ∧ 0 ≤ (calibrationRun e readings s).baroGroundPressure
      ∧ (calibrationRun e readings s).baroGroundPressure ≤ 8 * P := by
  intro readings
  induction readings with
  | nil => intro s _ h0 h1; exact ⟨rfl, h0, h1⟩
  | cons p ps ih =>
    intro s hr h0 h1
    obtain ⟨hp0, hp⟩ := hr p (List.mem_cons_self _ _)
    have hstep := (performBaroCalibrationCycle_groundPressure e P { s with baroPressure := p } hP
      hp0 hp h0 h1).2
    obtain ⟨-, -, h3, h4⟩ := accumulate_bounds P s.baroGroundPressure p hp0 hp h0 h1
    have hstep' : (performBaroCalibrationCycle e { s with baroPressure := p }).baroGroundPressure
        = accumulate s.baroGroundPressure p := hstep
    have := ih (performBaroCalibrationCycle e { s with baroPressure := p })
      (fun q hq => hr q (List.mem_cons_of_mem _ hq)) (by rw [hstep']; exact h3)
      (by rw [hstep']; exact h4)
    rw [hstep'] at this
    exact this

/-- C24: the update `g' = g - g / 8 + p` with the truncating division of C
(`accumulate`) maps `0 ≤ g ≤ 8 * P` and `0 ≤ p ≤ P` to `0 ≤ g' ≤ 8 * P`, and
`g = 8 * p` is a fixed point for the constant reading `p`.  For
`0 ≤ P ≤ 2^28 - 1`: a calibration cycle entered with `baroPressure` in
`0 .. P` and `baroGroundPressure` in `0 .. 8 * P` overflows neither in
`baroGroundPressure -= baroGroundPressure / 8` nor in
`baroGroundPressure += baroPressure` (the `int32_t` holds the value of the
update over the integers); and starting from `baroGroundPressure == 0`, after
the cycles for any readings in `0 .. P` the accumulator holds the value of
the iterated update over the integers, which lies in `0 .. 8 * P`, below
`2^31`. -/
theorem ground_pressure_accumulator_bounded (e : BaroEnv) (P : Int) (hP0 : 0 ≤ P)
    (hP : P ≤ 268435455) :
    (∀ g p, 0 ≤ p → p ≤ P → 0 ≤ g → g ≤ 8 * P →
      0 ≤ accumulate g p ∧ accumulate g p ≤ 8 * P)
    ∧ (∀ p, accumulate (8 * p) p = 8 * p)
    ∧ (∀ s : BaroState, 0 ≤ s.baroPressure → s.baroPressure ≤ P →
        0 ≤ s.baroGroundPressure → s.baroGroundPressure ≤ 8 * P →
        wrapInt32 (s.baroGroundPressure - Int.tdiv s.baroGroundPressure 8)
          = s.baroGroundPressure - Int.tdiv s.baroGroundPressure 8
        ∧ (performBaroCalibrationCycle e s).baroGroundPressure
          = accumulate s.baroGroundPressure s.baroPressure
        ∧ 0 ≤ (performBaroCalibrationCycle e s).baroGroundPressure
        ∧ (performBaroCalibrationCycle e s).baroGroundPressure ≤ 8 * P)
    ∧ (∀ (readings : List Int) (s : BaroState), (∀ p ∈ readings, 0 ≤ p ∧ p ≤ P) →
        s.baroGroundPressure = 0 →
        (calibrationRun e readings s).baroGroundPressure = readings.foldl accumulate 0
        ∧ 0 ≤ (calibrationRun e readings s).baroGroundPressure
        ∧ (calibrationRun e readings s).baroGroundPressure ≤ 8 * P
        ∧ (calibrationRun e readings s).baroGroundPressure ≤ 2147483647) := by
  refine ⟨?_, ?_, ?_, ?_⟩
  · intro g p hp0 hp hg0 hg
    exact (accumulate_bounds P g p hp0 hp hg0 hg).2.2
  · intro p
    unfold accumulate
    rw [Int.mul_comm, Int.mul_tdiv_cancel _ (by decide)]
    omega
  · intro s hp0 hp hg0 hg
    obtain ⟨h1, h2⟩ := performBaroCalibrationCycle_groundPressure e P s hP hp0 hp hg0 hg
    obtain ⟨-, -, h3, h4⟩ := accumulate_bounds P _ _ hp0 hp hg0 hg
    exact ⟨h1, h2, by rw [h2]; exact h3, by rw [h2]; exact h4⟩
  · intro readings s hr hs
    obtain ⟨h1, h2, h3⟩ := calibrationRun_groundPressure e P hP readings s hr (by omega)
      (by omega)
    rw [hs] at h1
    exact ⟨h1, h2, h3, by omega⟩

/-- C24 with `P = 120000` and three readings around the standard pressure. -/
theorem ground_pressure_accumulator_bounded_witness :
    (0 : Int) ≤ 120000 ∧ (120000 : Int) ≤ 268435455
    ∧ (calibrationRun sampleEnv [101325, 101300, 101350]
        (initialBaroState sampleBaro)).baroGroundPressure = 267565
    ∧ accumulate 0 101325 = 101325 ∧ accumulate 101325 101300 = 189960
    ∧ accumulate 189960 101350 = 267565 :=
  ⟨by decide, by decide,
    ((ground_pressure_accumulator_bounded sampleEnv 120000 (by decide) (by decide)).2.2.2
      [101325, 101300, 101350] (initialBaroState sampleBaro) (by decide) rfl).1.trans
      (by decide),
    by decide, by decide, by decide⟩

/-! ## C21: the calibration countdown -/

/-- A call of `baroCalculateAltitude` while `calibratingB` is not zero: one
calibration cycle, `BaroAlt = 0`, and 0 returned. -/
theorem baroCalculateAltitude_calibrating (e : BaroEnv) (s : BaroState)
    (h0 : s.calibratingB ≠ 0) :
    baroCalculateAltitude e s = (0, { performBaroCalibrationCycle e s with BaroAlt := 0 }) := by
  have h : isBaroCalibrationComplete s = false := by
    simp [isBaroCalibrationComplete, h0]
  simp [baroCalculateAltitude, h]

/-- A call of `baroCalculateAltitude` while `calibratingB` is zero runs no
calibration cycle and leaves `calibratingB` at zero. -/
theorem baroCalculateAltitude_calibrated (e : BaroEnv) (s : BaroState)
    (h0 : s.calibratingB = 0) :
    (baroCalculateAltitude e s).2.calibratingB = 0
    ∧ (baroCalculateAltitude e s).2.calibrationCyclesRun = s.calibrationCyclesRun
    ∧ (baroCalculateAltitude e s).2.baroGroundPressure = s.baroGroundPressure := by
  have h : isBaroCalibrationComplete s = true := by
    simp [isBaroCalibrationComplete, h0]
  simp only [baroCalculateAltitude, h]
  split_ifs <;> simp_all

theorem afterAltitudeCalls_succ (e : BaroEnv) :
    ∀ (k : Nat) (s : BaroState),
      afterAltitudeCalls e (k + 1) s = (baroCalculateAltitude e (afterAltitudeCalls e k s)).2 := by
  intro k
  induction k with
  | zero => intro s; rfl
  | succ n ih =>
    intro s
    rw [afterAltitudeCalls, ih]
    rfl

/-- The countdown: the state after `j ≤ n` calls that follow
`baroSetCalibrationCycles(n)`. -/
theorem afterAltitudeCalls_countdown (e : BaroEnv) (s : BaroState) (n : Nat) (hn : n < 65536) :
    ∀ j, j ≤ n →
      (afterAltitudeCalls e j (baroSetCalibrationCycles n s)).calibratingB = n - j
      ∧ (afterAltitudeCalls e j (baroSetCalibrationCycles n s)).calibrationCyclesRun
          = s.calibrationCyclesRun + j := by
  intro j
  induction j with
  | zero =>
    intro _
    exact ⟨by simp [afterAltitudeCalls, baroSetCalibrationCycles, Nat.mod_eq_of_lt hn], rfl⟩
  | succ k ih =>
    intro hk
    obtain ⟨h1, h2⟩ := ih (by omega)
    have h0 : (afterAltitudeCalls e k (baroSetCalibrationCycles n s)).calibratingB ≠ 0 := by
      rw [h1]; omega
    rw [afterAltitudeCalls_succ, baroCalculateAltitude_calibrating e _ h0]
    simp only [performBaroCalibrationCycle, h1, h2]
    constructor
    · omega
    · omega

/-- The functions other than `baroCalculateAltitude` and
`baroSetCalibrationCycles` leave `calibratingB` alone and run no calibration
cycle. -/
theorem calibratingB_frame (e : BaroEnv) (s : BaroState) :
    (∀ c r, baroUpdate e c s = some r →
      r.2.calibratingB = s.calibratingB ∧ r.2.calibrationCyclesRun = s.calibrationCyclesRun)
    ∧ (∀ x, (applyBarometerMedianFilter e x s).2.calibratingB = s.calibratingB
        ∧ (applyBarometerMedianFilter e x s).2.calibrationCyclesRun = s.calibrationCyclesRun)
    ∧ (∀ c, (useBarometerConfig c s).calibratingB = s.calibratingB
        ∧ (useBarometerConfig c s).calibrationCyclesRun = s.calibrationCyclesRun) := by
  have hf : ∀ (x : Int) (s : BaroState),
      (applyBarometerMedianFilter e x s).2.calibratingB = s.calibratingB
      ∧ (applyBarometerMedianFilter e x s).2.calibrationCyclesRun = s.calibrationCyclesRun := by
    intro x s
    simp only [applyBarometerMedianFilter]
    split_ifs <;> exact ⟨rfl, rfl⟩
  refine ⟨?_, fun x => hf x s, fun c => ⟨rfl, rfl⟩⟩
  intro c r hr
  simp only [baroUpdate, baroCall] at hr
  split_ifs at hr with h1
  · cases hc : s.barometerConfig with
    | none => simp [hc] at hr
    | some cfg =>
      simp only [hc, Option.some.injEq] at hr
      subst hr
      split_ifs
      · exact ⟨(hf _ _).1, (hf _ _).2⟩
      · exact ⟨rfl, rfl⟩
  · simp only [Option.some.injEq] at hr
    subst hr
    exact ⟨rfl, rfl⟩

/-- C21: for `n` of type `uint16_t`, after `baroSetCalibrationCycles(n)` the
state after `j ≤ n` calls of `baroCalculateAltitude` has `calibratingB = n - j`
and has run `j` calibration cycles more, so `isBaroCalibrationComplete` is
false after fewer than `n` calls and true after the `n`-th; each of the `n`
calls runs `performBaroCalibrationCycle` once, sets `BaroAlt` to 0 and returns
0.  `calibratingB` is decremented only when it is not zero: a call that finds
it at zero runs no cycle and leaves it at zero, a call that finds it at
`c > 0` leaves `c - 1`; and `baroUpdate` does not change it. -/
theorem baro_calibration_countdown (e : BaroEnv) (s : BaroState) (n : Nat) (hn : n < 65536) :
    (∀ j, j ≤ n →
      (afterAltitudeCalls e j (baroSetCalibrationCycles n s)).calibratingB = n - j
      ∧ (afterAltitudeCalls e j (baroSetCalibrationCycles n s)).calibrationCyclesRun
          = s.calibrationCyclesRun + j
      ∧ isBaroCalibrationComplete (afterAltitudeCalls e j (baroSetCalibrationCycles n s))
          = decide (j = n))
    ∧ (∀ j, j < n →
      baroCalculateAltitude e (afterAltitudeCalls e j (baroSetCalibrationCycles n s))
        = (0, { performBaroCalibrationCycle e
                  (afterAltitudeCalls e j (baroSetCalibrationCycles n s)) with BaroAlt := 0 })
      ∧ (baroCalculateAltitude e
          (afterAltitudeCalls e j (baroSetCalibrationCycles n s))).2.BaroAlt = 0)
    ∧ (∀ s' : BaroState, s'.calibratingB = 0 →
      (baroCalculateAltitude e s').2.calibratingB = 0
      ∧ (baroCalculateAltitude e s').2.calibrationCyclesRun = s'.calibrationCyclesRun)
    ∧ (∀ s' : BaroState, 0 < s'.calibratingB → s'.calibratingB < 65536 →
      (baroCalculateAltitude e s').2.calibratingB = s'.calibratingB - 1
      ∧ (baroCalculateAltitude e s').2.calibrationCyclesRun = s'.calibrationCyclesRun + 1)
    ∧ (∀ (s' : BaroState) c r, baroUpdate e c s' = some r →
      r.2.calibratingB = s'.calibratingB
      ∧ r.2.calibrationCyclesRun = s'.calibrationCyclesRun) := by
  refine ⟨?_, ?_, ?_, ?_, ?_⟩
  · intro j hj
    obtain ⟨h1, h2⟩ := afterAltitudeCalls_countdown e s n hn j hj
    refine ⟨h1, h2, ?_⟩
    simp only [isBaroCalibrationComplete, h1]
    by_cases h : j = n
    · simp [h]
    · have : n - j ≠ 0 := by omega
      simp [h, this]
  · intro j hj
    obtain ⟨h1, -⟩ := afterAltitudeCalls_countdown e s n hn j (by omega)
    have h0 : (afterAltitudeCalls e j (baroSetCalibrationCycles n s)).calibratingB ≠ 0 := by
      rw [h1]; omega
    rw [baroCalculateAltitude_calibrating e _ h0]
    exact ⟨rfl, rfl⟩
  · intro s' h0
    exact ⟨(baroCalculateAltitude_calibrated e s' h0).1,
      (baroCalculateAltitude_calibrated e s' h0).2.1⟩
  · intro s' h0 h1
    rw [baroCalculateAltitude_calibrating e s' (by omega)]
    simp only [performBaroCalibrationCycle]
    constructor
    · omega
    · trivial
  · intro s' c r hr
    exact (calibratingB_frame e s').1 c r hr

/-- C21 with three calibration cycles on the sample environment. -/
theorem baro_calibration_countdown_witness :
    3 < 65536
    ∧ (List.range 4).map (fun j =>
        (afterAltitudeCalls sampleEnv j
          (baroSetCalibrationCycles 3 (initialBaroState sampleBaro))).calibratingB)
      = [3, 2, 1, 0]
    ∧ isBaroCalibrationComplete
        (afterAltitudeCalls sampleEnv 2
          (baroSetCalibrationCycles 3 (initialBaroState sampleBaro))) = false
    ∧ isBaroCalibrationComplete
        (afterAltitudeCalls sampleEnv 3
          (baroSetCalibrationCycles 3 (initialBaroState sampleBaro))) = true
    ∧ (afterAltitudeCalls sampleEnv 5
          (baroSetCalibrationCycles 3 (initialBaroState sampleBaro))).calibratingB = 0 :=
  ⟨by decide, by decide,
    ((baro_calibration_countdown sampleEnv (initialBaroState sampleBaro) 3 (by decide)).1 2
      (by decide)).2.2.trans (by decide),
    ((baro_calibration_countdown sampleEnv (initialBaroState sampleBaro) 3 (by decide)).1 3
      (by decide)).2.2.trans (by decide),
    by decide⟩

/-! ## C23: the two phases of `baroUpdate` -/

/-- What `applyBarometerMedianFilter` returns depends on the three statics of
the filter only, and the call changes nothing else. -/
theorem applyBarometerMedianFilter_frame (e : BaroEnv) (x : Int) (s : BaroState) :
    (applyBarometerMedianFilter e x s).2
      = { s with
          medianFilterReady := (applyBarometerMedianFilter e x s).2.medianFilterReady
          barometerFilterSamples := (applyBarometerMedianFilter e x s).2.barometerFilterSamples
          currentFilterSampleIndex :=
            (applyBarometerMedianFilter e x s).2.currentFilterSampleIndex } := by
  simp only [applyBarometerMedianFilter]
  split_ifs <;> rfl

/-- The sampling phase: every value of `state` other than
`BAROMETER_NEEDS_CALCULATION` takes it. -/
theorem baroUpdate_needs_samples (e : BaroEnv) (c : Int × Int) (s : BaroState)
    (h : s.state ≠ BAROMETER_NEEDS_CALCULATION) :
    baroUpdate e c s
      = some (s.baro.up_delay,
          { s with
            calls := s.calls ++ [BaroCall.get_ut, BaroCall.start_up]
            state := BAROMETER_NEEDS_CALCULATION }) := by
  simp [baroUpdate, baroCall, h]

/-- The calculation phase, with `barometerConfig` pointing to `cfg`: the state
after the call, field by field. -/
theorem baroUpdate_needs_calculation_eq (e : BaroEnv) (c : Int × Int) (s : BaroState)
    (cfg : barometerConfig_t) (h : s.state = BAROMETER_NEEDS_CALCULATION)
    (hcfg : s.barometerConfig = some cfg) :
    baroUpdate e c s
      = some (s.baro.ut_delay,
          { s with
            calls := s.calls ++ [BaroCall.get_up, BaroCall.start_ut, BaroCall.calculate]
            baroTemperature := c.2
            state := BAROMETER_NEEDS_SAMPLES
            baroPressure :=
              if cfg.use_median_filtering then (applyBarometerMedianFilter e c.1 s).1 else c.1
            medianFilterReady :=
              if cfg.use_median_filtering then
                (applyBarometerMedianFilter e c.1 s).2.medianFilterReady
              else s.medianFilterReady
            barometerFilterSamples :=
              if cfg.use_median_filtering then
                (applyBarometerMedianFilter e c.1 s).2.barometerFilterSamples
              else s.barometerFilterSamples
            currentFilterSampleIndex :=
              if cfg.use_median_filtering then
                (applyBarometerMedianFilter e c.1 s).2.currentFilterSampleIndex
              else s.currentFilterSampleIndex }) := by
  cases hm : cfg.use_median_filtering
  · simp [baroUpdate, baroCall, h, hcfg]
    simp [hm]
  · simp only [baroUpdate, baroCall, h, hcfg, if_true, hm, List.append_assoc, List.cons_append,
      List.nil_append]
    simp only [applyBarometerMedianFilter]
    split_ifs <;> rfl

/-- The calculation phase, with `barometerConfig` pointing to `cfg`. -/
theorem baroUpdate_needs_calculation (e : BaroEnv) (c : Int × Int) (s : BaroState)
    (cfg : barometerConfig_t) (h : s.state = BAROMETER_NEEDS_CALCULATION)
    (hcfg : s.barometerConfig = some cfg) :
    ∃ s', baroUpdate e c s = some (s.baro.ut_delay, s')
      ∧ s'.calls = s.calls ++ [BaroCall.get_up, BaroCall.start_ut, BaroCall.calculate]
      ∧ s'.state = BAROMETER_NEEDS_SAMPLES
      ∧ s'.baroTemperature = c.2
      ∧ s'.baroPressure
          = (if cfg.use_median_filtering then (applyBarometerMedianFilter e c.1 s).1 else c.1)
      ∧ s'.baro = s.baro ∧ s'.barometerConfig = s.barometerConfig :=
  ⟨_, baroUpdate_needs_calculation_eq e c s cfg h hcfg, rfl, rfl, rfl, rfl, rfl, rfl⟩

/-- The run of `baroUpdate` from a state in either phase: the call at
position `j` is in the sampling phase when `j + state` is even. -/
theorem baroUpdateRun_phases (e : BaroEnv) (cfg : barometerConfig_t) :
    ∀ (cs : List (Int × Int)) (s : BaroState), s.barometerConfig = some cfg →
      (s.state = BAROMETER_NEEDS_SAMPLES ∨ s.state = BAROMETER_NEEDS_CALCULATION) →
      ∃ r, baroUpdateRun e cs s = some r
        ∧ r.1 = (List.range cs.length).map (fun j =>
            if (j + s.state) % 2 = 0 then s.baro.up_delay else s.baro.ut_delay)
        ∧ r.2.calls = s.calls ++ (List.range cs.length).flatMap (fun j =>
            if (j + s.state) % 2 = 0 then [BaroCall.get_ut, BaroCall.start_up]
            else [BaroCall.get_up, BaroCall.start_ut, BaroCall.calculate])
        ∧ r.2.state = (cs.length + s.state) % 2
        ∧ r.2.baro = s.baro ∧ r.2.barometerConfig = s.barometerConfig := by
  intro cs
  induction cs with
  | nil =>
    intro s _ hst
    refine ⟨([], s), rfl, rfl, by simp, ?_, rfl, rfl⟩
    rcases hst with h | h <;> rw [h] <;> rfl
  | cons c cs ih =>
    intro s hcfg hst
    rcases hst with h | h
    · have hne : s.state ≠ BAROMETER_NEEDS_CALCULATION := by rw [h]; decide
      have hb := baroUpdate_needs_samples e c s hne
      obtain ⟨r, hr, h1, h2, h3, h4, h5⟩ := ih
        { s with
          calls := s.calls ++ [BaroCall.get_ut, BaroCall.start_up]
          state := BAROMETER_NEEDS_CALCULATION } hcfg (Or.inr rfl)
      refine ⟨(s.baro.up_delay :: r.1, r.2), ?_, ?_, ?_, ?_, h4, h5⟩
      · simp only [baroUpdateRun, hb, hr]
      · simp only [h1, List.length_cons, List.range_succ_eq_map, List.map_cons, List.map_map, h]
        simp [BAROMETER_NEEDS_SAMPLES, BAROMETER_NEEDS_CALCULATION, Function.comp_def]
      · simp only [h2, List.length_cons, List.range_succ_eq_map, List.flatMap_cons,
          List.flatMap_map, h]
        simp [BAROMETER_NEEDS_SAMPLES, BAROMETER_NEEDS_CALCULATION, Function.comp_def]
      · simp only [h3, List.length_cons, h]
        simp [BAROMETER_NEEDS_SAMPLES, BAROMETER_NEEDS_CALCULATION]
    · obtain ⟨s', hb, c1, c2, -, -, c5, c6⟩ := baroUpdate_needs_calculation e c s cfg h hcfg
      obtain ⟨r, hr, h1, h2, h3, h4, h5⟩ := ih s' (c6.trans hcfg) (Or.inl c2)
      refine ⟨(s.baro.ut_delay :: r.1, r.2), ?_, ?_, ?_, ?_, h4.trans c5, h5.trans c6⟩
      · simp only [baroUpdateRun, hb, hr]
      · simp only [h1, List.length_cons, List.range_succ_eq_map, List.map_cons, List.map_map, h,
          c2, c5]
        simp [BAROMETER_NEEDS_SAMPLES, BAROMETER_NEEDS_CALCULATION, Function.comp_def]
        intro a _
        have e1 : (a + 1 + 1) % 2 = a % 2 := by omega
        simp [e1]
      · simp only [h2, List.length_cons, List.range_succ_eq_map, List.flatMap_cons,
          List.flatMap_map, h, c1, c2]
        simp [BAROMETER_NEEDS_SAMPLES, BAROMETER_NEEDS_CALCULATION, Function.comp_def]
        congr 1
        funext a
        have e1 : (a + 1 + 1) % 2 = a % 2 := by omega
        simp [e1]
      · simp only [h3, List.length_cons, h, c2]
        simp [BAROMETER_NEEDS_SAMPLES, BAROMETER_NEEDS_CALCULATION]
        omega

/-- C23: from `state == BAROMETER_NEEDS_SAMPLES`, with `barometerConfig`
pointing to a configuration, any number of successive calls of `baroUpdate`
all return, and they alternate: the calls at the odd places (the 1st, 3rd,
...) make the calls `get_ut`, `start_up` and return `baro.up_delay`, those at
the even places make the calls `get_up`, `start_ut`, `calculate` and return
`baro.ut_delay`; after `k` calls `state` is `k % 2`.  A call in a state other
than `BAROMETER_NEEDS_CALCULATION` (either `BAROMETER_NEEDS_SAMPLES` or a value
that is no enumerator) only adds the two calls and sets `state`, so it leaves
`baroPressure` as it is, and it does what the call with
`state == BAROMETER_NEEDS_SAMPLES` does.  A call in
`BAROMETER_NEEDS_CALCULATION` stores what `calculate` gives, replaces
`baroPressure` by the result of `applyBarometerMedianFilter` when
`use_median_filtering` is set, and sets `state` to
`BAROMETER_NEEDS_SAMPLES`. -/
theorem baroUpdate_alternates (e : BaroEnv) (s : BaroState) (cfg : barometerConfig_t)
    (hcfg : s.barometerConfig = some cfg) (hst : s.state = BAROMETER_NEEDS_SAMPLES) :
    (∀ cs : List (Int × Int), ∃ r, baroUpdateRun e cs s = some r
      ∧ r.1 = (List.range cs.length).map (fun j =>
          if j % 2 = 0 then s.baro.up_delay else s.baro.ut_delay)
      ∧ r.2.calls = s.calls ++ (List.range cs.length).flatMap (fun j =>
          if j % 2 = 0 then [BaroCall.get_ut, BaroCall.start_up]
          else [BaroCall.get_up, BaroCall.start_ut, BaroCall.calculate])
      ∧ r.2.state = cs.length % 2)
    ∧ (∀ (s' : BaroState) (c : Int × Int), s'.state ≠ BAROMETER_NEEDS_CALCULATION →
      baroUpdate e c s'
        = some (s'.baro.up_delay,
            { s' with
              calls := s'.calls ++ [BaroCall.get_ut, BaroCall.start_up]
              state := BAROMETER_NEEDS_CALCULATION })
      ∧ baroUpdate e c s' = baroUpdate e c { s' with state := BAROMETER_NEEDS_SAMPLES })
    ∧ (∀ (s' : BaroState) (c : Int × Int) (cfg' : barometerConfig_t),
      s'.state = BAROMETER_NEEDS_CALCULATION → s'.barometerConfig = some cfg' →
      ∃ s'', baroUpdate e c s' = some (s'.baro.ut_delay, s'')
        ∧ s''.calls = s'.calls ++ [BaroCall.get_up, BaroCall.start_ut, BaroCall.calculate]
        ∧ s''.state = BAROMETER_NEEDS_SAMPLES
        ∧ s''.baroTemperature = c.2
        ∧ s''.baroPressure
            = (if cfg'.use_median_filtering then (applyBarometerMedianFilter e c.1 s').1
              else c.1)) := by
  refine ⟨?_, ?_, ?_⟩
  · intro cs
    obtain ⟨r, hr, h1, h2, h3, -, -⟩ := baroUpdateRun_phases e cfg cs s hcfg (Or.inl hst)
    rw [hst] at h1 h2 h3
    exact ⟨r, hr, h1, h2, h3⟩
  · intro s' c h
    refine ⟨baroUpdate_needs_samples e c s' h, ?_⟩
    rw [baroUpdate_needs_samples e c s' h,
      baroUpdate_needs_samples e c { s' with state := BAROMETER_NEEDS_SAMPLES }
        (show BAROMETER_NEEDS_SAMPLES ≠ BAROMETER_NEEDS_CALCULATION by decide)]
  · intro s' c cfg' h hc
    obtain ⟨s'', h1, h2, h3, h4, h5, -, -⟩ := baroUpdate_needs_calculation e c s' cfg' h hc
    exact ⟨s'', h1, h2, h3, h4, h5⟩

/-- C23 on the sample driver with median filtering: four calls. -/
theorem baroUpdate_alternates_witness :
    (useBarometerConfig { use_median_filtering := true }
        (initialBaroState sampleBaro)).barometerConfig = some { use_median_filtering := true }
    ∧ (useBarometerConfig { use_median_filtering := true }
        (initialBaroState sampleBaro)).state = BAROMETER_NEEDS_SAMPLES
    ∧ (baroUpdateRun sampleEnv [(1, 2), (3, 4), (5, 6), (7, 8)]
        (useBarometerConfig { use_median_filtering := true }
          (initialBaroState sampleBaro))).map (fun r => (r.1, r.2.calls, r.2.baroPressure))
      = some ([27000, 6000, 27000, 6000],
          [BaroCall.get_ut, BaroCall.start_up, BaroCall.get_up, BaroCall.start_ut,
            BaroCall.calculate, BaroCall.get_ut, BaroCall.start_up, BaroCall.get_up,
            BaroCall.start_ut, BaroCall.calculate], 7)
    ∧ ∃ r, baroUpdateRun sampleEnv [(1, 2), (3, 4), (5, 6), (7, 8)]
        (useBarometerConfig { use_median_filtering := true } (initialBaroState sampleBaro))
          = some r
        ∧ r.2.state = 0 :=
  ⟨rfl, rfl, by decide,
    ((baroUpdate_alternates sampleEnv
      (useBarometerConfig { use_median_filtering := true } (initialBaroState sampleBaro))
      { use_median_filtering := true } rfl rfl).1 [(1, 2), (3, 4), (5, 6), (7, 8)]).imp
      (fun _ h => ⟨h.1, h.2.2.2⟩)⟩

/-! ## C22: the median filter -/

/-- The median of three values does not depend on their order. -/
theorem median3_rotate (a b c : Int) :
    median3 c a b = median3 a b c ∧ median3 b c a = median3 a b c := by
  simp only [median3, max_def, min_def]
  constructor <;> split_ifs <;> omega

/-- The sample helper returns the median of the three samples. -/
theorem sampleQuickMedianFilter3_eq (a b c : Int) :
    sampleQuickMedianFilter3 [a, b, c] = median3 a b c := by
  simp only [sampleQuickMedianFilter3, median3, max_def, min_def]
  split_ifs <;> omega

/-- The result of `applyBarometerMedianFilter`, field by field. -/
theorem applyBarometerMedianFilter_fields (e : BaroEnv) (x : Int) (s : BaroState) :
    (applyBarometerMedianFilter e x s).2.currentFilterSampleIndex
      = (if s.currentFilterSampleIndex = 2 then 0 else s.currentFilterSampleIndex + 1)
    ∧ (applyBarometerMedianFilter e x s).2.medianFilterReady
      = (decide (s.currentFilterSampleIndex = 2) || s.medianFilterReady)
    ∧ (applyBarometerMedianFilter e x s).2.barometerFilterSamples
      = s.barometerFilterSamples.set s.currentFilterSampleIndex x
    ∧ (applyBarometerMedianFilter e x s).1
      = (if (decide (s.currentFilterSampleIndex = 2) || s.medianFilterReady) = true then
          e.quickMedianFilter3 (s.barometerFilterSamples.set s.currentFilterSampleIndex x)
        else x) := by
  by_cases hi : s.currentFilterSampleIndex = 2
  · simp [applyBarometerMedianFilter, PRESSURE_SAMPLES_MEDIAN, hi]
  · have hi' : ¬ s.currentFilterSampleIndex + 1 = 3 := by omega
    cases hr : s.medianFilterReady <;>
      simp [applyBarometerMedianFilter, PRESSURE_SAMPLES_MEDIAN, hi, hi', hr]

/-- The statics of the filter after the readings `h` (most recent last): the
index is `h.length % 3`, the filter is ready from the third reading on, and
each of the last three readings is in the slot of its position modulo 3. -/
theorem applyBarometerMedianFilter_step (e : BaroEnv) (h : List Int) (r : Int) (s : BaroState)
    (x0 x1 x2 : Int)
    (hidx : s.currentFilterSampleIndex = h.length % 3)
    (hready : s.medianFilterReady = decide (3 ≤ h.length))
    (hsamples : s.barometerFilterSamples = [x0, x1, x2])
    (hlast : ∀ m, m < h.length → h.length ≤ m + 3 →
      h[m]? = some (if m % 3 = 0 then x0 else if m % 3 = 1 then x1 else x2)) :
    ∃ y0 y1 y2,
      (applyBarometerMedianFilter e r s).2.currentFilterSampleIndex = (h ++ [r]).length % 3
      ∧ (applyBarometerMedianFilter e r s).2.medianFilterReady = decide (3 ≤ (h ++ [r]).length)
      ∧ (applyBarometerMedianFilter e r s).2.barometerFilterSamples = [y0, y1, y2]
      ∧ (∀ m, m < (h ++ [r]).length → (h ++ [r]).length ≤ m + 3 →
          (h ++ [r])[m]? = some (if m % 3 = 0 then y0 else if m % 3 = 1 then y1 else y2))
      ∧ (applyBarometerMedianFilter e r s).1
          = if h.length < 2 then r else e.quickMedianFilter3 [y0, y1, y2] := by
  obtain ⟨f1, f2, f3, f4⟩ := applyBarometerMedianFilter_fields e r s
  rw [f1, f2, f3, f4, hidx, hready, hsamples, List.length_append, List.length_singleton]
  have hmod : h.length % 3 = 0 ∨ h.length % 3 = 1 ∨ h.length % 3 = 2 := by omega
  have hget : ∀ m, m < h.length + 1 → h.length + 1 ≤ m + 3 →
      (m = h.length ∧ (h ++ [r])[m]? = some r)
      ∨ (m < h.length ∧ h.length ≤ m + 3 ∧ m % 3 ≠ h.length % 3
          ∧ (h ++ [r])[m]? = h[m]?) := by
    intro m hm hm3
    rcases Nat.lt_or_ge m h.length with hlt | hge
    · exact Or.inr ⟨hlt, by omega, by omega, List.getElem?_append_left hlt⟩
    · have : m = h.length := by omega
      subst this
      exact Or.inl ⟨rfl, by simp⟩
  have hrdy : (decide (h.length % 3 = 2) || decide (3 ≤ h.length)) = decide (3 ≤ h.length + 1) := by
    by_cases h3 : 3 ≤ h.length
    · have : 3 ≤ h.length + 1 := by omega
      simp [h3, this]
    · by_cases h2 : h.length % 3 = 2
      · have : 3 ≤ h.length + 1 := by omega
        simp [h2, this]
      · have : ¬ 3 ≤ h.length + 1 := by omega
        simp [h3, h2, this]
  have hout : ∀ (a : Int), (if decide (3 ≤ h.length + 1) = true then a else r)
      = if h.length < 2 then r else a := by
    intro a
    by_cases hl : h.length < 2
    · have : ¬ 3 ≤ h.length + 1 := by omega
      simp [hl, this]
    · have : 3 ≤ h.length + 1 := by omega
      simp [hl, this]
  rw [hrdy, hout]
  rcases hmod with h0 | h1 | h2
  · refine ⟨r, x1, x2, ?_, rfl, ?_, ?_, ?_⟩
    · rw [h0]; simp; omega
    · rw [h0]; rfl
    · intro m hm hm3
      rcases hget m hm hm3 with ⟨e1, e2⟩ | ⟨e1, e2, e3, e4⟩
      · rw [e2, e1]; simp [h0]
      · rw [e4, hlast m e1 e2]
        have : m % 3 ≠ 0 := by omega
        simp [this]
    · rw [h0]; rfl
  · refine ⟨x0, r, x2, ?_, rfl, ?_, ?_, ?_⟩
    · rw [h1]; simp; omega
    · rw [h1]; rfl
    · intro m hm hm3
      rcases hget m hm hm3 with ⟨e1, e2⟩ | ⟨e1, e2, e3, e4⟩
      · rw [e2, e1]; simp [h1]
      · rw [e4, hlast m e1 e2]
        have : m % 3 ≠ 1 := by omega
        simp [this]
    · rw [h1]; rfl
  · refine ⟨x0, x1, r, ?_, rfl, ?_, ?_, ?_⟩
    · rw [h2]; simp; omega
    · rw [h2]; rfl
    · intro m hm hm3
      rcases hget m hm hm3 with ⟨e1, e2⟩ | ⟨e1, e2, e3, e4⟩
      · rw [e2, e1]; simp [h2]
      · rw [e4, hlast m e1 e2]
        have : m % 3 ≠ 2 := by omega
        by_cases hm0 : m % 3 = 0
        · simp [hm0]
        · have : m % 3 = 1 := by omega
          simp [this]
    · rw [h2]; rfl


/-- The run of the filter after the readings `h`: the value returned at
place `j` of the further readings `rs` is the reading itself while fewer than
two readings came before it, and otherwise what `quickMedianFilter3` returns
for the three slots, which hold the last three readings, each in the slot of
its position modulo 3. -/
theorem medianFilterRun_slots (e : BaroEnv) :
    ∀ (rs h : List Int) (s : BaroState) (x0 x1 x2 : Int),
      s.currentFilterSampleIndex = h.length % 3 →
      s.medianFilterReady = decide (3 ≤ h.length) →
      s.barometerFilterSamples = [x0, x1, x2] →
      (∀ m, m < h.length → h.length ≤ m + 3 →
        h[m]? = some (if m % 3 = 0 then x0 else if m % 3 = 1 then x1 else x2)) →
      (medianFilterRun e rs s).1.length = rs.length
      ∧ (medianFilterRun e rs s).2.currentFilterSampleIndex = (h.length + rs.length) % 3
      ∧ ∀ j r, rs[j]? = some r → ∃ y0 y1 y2,
          (∀ m, m < h.length + j + 1 → h.length + j + 1 ≤ m + 3 →
            (h ++ rs)[m]? = some (if m % 3 = 0 then y0 else if m % 3 = 1 then y1 else y2))
          ∧ (medianFilterRun e rs s).1[j]?
              = some (if h.length + j < 2 then r else e.quickMedianFilter3 [y0, y1, y2]) := by
  intro rs
  induction rs with
  | nil =>
    intro h s x0 x1 x2 hidx _ _ _
    refine ⟨rfl, by simpa [medianFilterRun] using hidx, ?_⟩
    intro j r hj
    simp at hj
  | cons r rs ih =>
    intro h s x0 x1 x2 hidx hready hsamples hlast
    obtain ⟨y0, y1, y2, g1, g2, g3, g4, g5⟩ :=
      applyBarometerMedianFilter_step e h r s x0 x1 x2 hidx hready hsamples hlast
    obtain ⟨i1, i2, i3⟩ := ih (h ++ [r]) (applyBarometerMedianFilter e r s).2 y0 y1 y2 g1 g2 g3 g4
    have hlen : (h ++ [r]).length = h.length + 1 := by simp
    have happ : h ++ [r] ++ rs = h ++ r :: rs := by simp
    refine ⟨by simp [medianFilterRun, i1], ?_, ?_⟩
    · simp only [medianFilterRun, i2, hlen, List.length_cons]
      congr 1
      omega
    · intro j q hj
      cases j with
      | zero =>
        simp only [List.getElem?_cons_zero, Option.some.injEq] at hj
        subst hj
        refine ⟨y0, y1, y2, ?_, ?_⟩
        · intro m hm hm3
          have hm' : m < (h ++ [r]).length := by rw [hlen]; omega
          rw [← g4 m hm' (by rw [hlen]; omega), ← happ, List.getElem?_append_left hm']
        · simp only [medianFilterRun, List.getElem?_cons_zero, g5, Nat.add_zero]
      | succ k =>
        simp only [List.getElem?_cons_succ] at hj
        obtain ⟨z0, z1, z2, k1, k2⟩ := i3 k q hj
        refine ⟨z0, z1, z2, ?_, ?_⟩
        · intro m hm hm3
          rw [← happ]
          exact k1 m (by rw [hlen]; omega) (by rw [hlen]; omega)
        · simp only [medianFilterRun, List.getElem?_cons_succ, k2, hlen]
          have e1 : h.length + 1 + k = h.length + (k + 1) := by omega
          rw [e1]

/-- C22: let the three statics of `applyBarometerMedianFilter` be as
initialised (index 0, `medianFilterReady` false; the three samples may hold
anything) and feed it the readings `rs` one call after the other.  Every call
returns one value.  The first two calls return their own reading.  The call
for the reading at position `k + 2` (the third call and every later one)
returns what `quickMedianFilter3` returns on the sample array, which then
holds exactly that reading and the two before it (in one of the three
rotations); so if `quickMedianFilter3` returns the median of the three values
of the array it is given, the call returns the median of the three most
recent readings.  After every call `currentFilterSampleIndex` is the number
of calls modulo 3, so it is at most 2. -/
theorem median_filter_of_last_three (e : BaroEnv) (s : BaroState) (rs : List Int)
    (x0 x1 x2 : Int) (hidx : s.currentFilterSampleIndex = 0)
    (hready : s.medianFilterReady = false)
    (hsamples : s.barometerFilterSamples = [x0, x1, x2]) :
    (medianFilterRun e rs s).1.length = rs.length
    ∧ (∀ k r, k < 2 → rs[k]? = some r → (medianFilterRun e rs s).1[k]? = some r)
    ∧ (∀ k a b c, rs[k]? = some a → rs[k + 1]? = some b → rs[k + 2]? = some c →
        ∃ v, (v = [a, b, c] ∨ v = [c, a, b] ∨ v = [b, c, a])
          ∧ (medianFilterRun e rs s).1[k + 2]? = some (e.quickMedianFilter3 v))
    ∧ ((∀ a b c, e.quickMedianFilter3 [a, b, c] = median3 a b c) →
        ∀ k a b c, rs[k]? = some a → rs[k + 1]? = some b → rs[k + 2]? = some c →
          (medianFilterRun e rs s).1[k + 2]? = some (median3 a b c))
    ∧ (medianFilterRun e rs s).2.currentFilterSampleIndex = rs.length % 3
    ∧ (medianFilterRun e rs s).2.currentFilterSampleIndex ≤ 2 := by
  obtain ⟨h1, h2, h3⟩ := medianFilterRun_slots e rs [] s x0 x1 x2 (by simpa using hidx)
    (by simpa using hready) hsamples (by intro m hm; simp at hm)
  simp only [List.length_nil, Nat.zero_add, List.nil_append] at h2 h3
  have hrot : ∀ k a b c, rs[k]? = some a → rs[k + 1]? = some b → rs[k + 2]? = some c →
      ∃ v, (v = [a, b, c] ∨ v = [c, a, b] ∨ v = [b, c, a])
        ∧ (medianFilterRun e rs s).1[k + 2]? = some (e.quickMedianFilter3 v) := by
    intro k a b c ha hb hc
    obtain ⟨y0, y1, y2, g1, g2⟩ := h3 (k + 2) c hc
    have ga := g1 k (by omega) (by omega)
    have gb := g1 (k + 1) (by omega) (by omega)
    have gc := g1 (k + 2) (by omega) (by omega)
    rw [ha, Option.some.injEq] at ga
    rw [hb, Option.some.injEq] at gb
    rw [hc, Option.some.injEq] at gc
    have hk2 : ¬ k + 2 < 2 := by omega
    rw [if_neg hk2] at g2
    have hmod : k % 3 = 0 ∨ k % 3 = 1 ∨ k % 3 = 2 := by omega
    rcases hmod with m0 | m1 | m2
    · have e1 : (k + 1) % 3 = 1 := by omega
      have e2 : (k + 2) % 3 = 2 := by omega
      simp only [m0, e1, e2, if_true] at ga gb gc
      simp at gb gc
      exact ⟨[y0, y1, y2], Or.inl (by rw [ga, gb, gc]), g2⟩
    · have e1 : (k + 1) % 3 = 2 := by omega
      have e2 : (k + 2) % 3 = 0 := by omega
      simp only [m1, e1, e2, if_true] at ga gb gc
      simp at ga gb
      exact ⟨[y0, y1, y2], Or.inr (Or.inl (by rw [ga, gb, gc])), g2⟩
    · have e1 : (k + 1) % 3 = 0 := by omega
      have e2 : (k + 2) % 3 = 1 := by omega
      simp only [m2, e1, e2, if_true] at ga gb gc
      simp at ga gc
      exact ⟨[y0, y1, y2], Or.inr (Or.inr (by rw [ga, gb, gc])), g2⟩
  refine ⟨h1, ?_, hrot, ?_, h2, ?_⟩
  · intro k r hk hr
    obtain ⟨y0, y1, y2, -, g2⟩ := h3 k r hr
    rw [g2, if_pos hk]
  · intro hmed k a b c ha hb hc
    obtain ⟨v, hv, hout⟩ := hrot k a b c ha hb hc
    rw [hout]
    rcases hv with hv | hv | hv <;> rw [hv, hmed]
    · rw [(median3_rotate a b c).1]
    · rw [(median3_rotate a b c).2]
  · rw [h2]
    omega

/-- C22 on the initial state with the sample helper: seven readings. -/
theorem median_filter_of_last_three_witness :
    (initialBaroState sampleBaro).currentFilterSampleIndex = 0
    ∧ (initialBaroState sampleBaro).medianFilterReady = false
    ∧ (initialBaroState sampleBaro).barometerFilterSamples = [0, 0, 0]
    ∧ (∀ a b c, sampleEnv.quickMedianFilter3 [a, b, c] = median3 a b c)
    ∧ (medianFilterRun sampleEnv [5, 1, 3, 9, 2, 2, 7] (initialBaroState sampleBaro)).1
      = [5, 1, 3, 3, 3, 2, 2]
    ∧ (medianFilterRun sampleEnv [5, 1, 3, 9, 2, 2, 7]
        (initialBaroState sampleBaro)).1[3]? = some (median3 1 3 9)
    ∧ (medianFilterRun sampleEnv [5, 1, 3, 9, 2, 2, 7]
        (initialBaroState sampleBaro)).2.currentFilterSampleIndex = 1 :=
  ⟨rfl, rfl, rfl, sampleQuickMedianFilter3_eq, by decide,
    (median_filter_of_last_three sampleEnv (initialBaroState sampleBaro) [5, 1, 3, 9, 2, 2, 7]
      0 0 0 rfl rfl rfl).2.2.2.1 sampleQuickMedianFilter3_eq 1 1 3 9 rfl rfl rfl,
    (median_filter_of_last_three sampleEnv (initialBaroState sampleBaro) [5, 1, 3, 9, 2, 2, 7]
      0 0 0 rfl rfl rfl).2.2.2.2.1.trans (by decide)⟩

end Barometer
